import Mathlib

/-!
Verification of the edmkey key-estimation core (`Key2` in `key2.cpp` and
`KeyEDM` in `keyEDM.cpp`).  The C++ `Real` (a float) is modelled as `ℝ`;
machine `int` values are modelled as `ℤ` with C++ truncating division
(`Int.tdiv`) and C++ `%` (`Int.tmod`) made explicit where they occur.
`std::vector<Real>` is modelled as `List ℝ`, with out-of-range reads
returning the default `0` (never exercised on the valid inputs the
theorems quantify over).  Exceptions are modelled by `Except`.

The helper routines `correlation` and `resize` appear twice in the
repository (once in each of the two translation units) with line-identical
bodies; they are embedded once and shared by both `compute` embeddings.
-/

set_option maxHeartbeats 1000000

namespace EdmKey

/-- The fixed 12-name tonal-center alphabet (`keyNames` in `Key2::configure`,
key2.cpp line 59, and `KeyEDM::configure`, keyEDM.cpp line 51). -/
def keyNames : List String :=
  ["A", "Bb", "B", "C", "C#", "D", "Eb", "E", "F", "F#", "G", "Ab"]

/-- Arithmetic mean, the essentia `mean` helper used by `compute` and `resize`
(per spec section 4.3 the arithmetic mean of the vector). -/
noncomputable def listMean (v : List ℝ) : ℝ := v.sum / v.length

/-- The "standard deviation" accumulation used in `compute` (key2.cpp lines
115-120, keyEDM.cpp lines 105-110) and `resize`: the square root of the sum
of squared deviations from `m`, NOT divided by the length. -/
noncomputable def stdSum (v : List ℝ) (m : ℝ) : ℝ :=
  Real.sqrt ((v.map (fun x => (x - m) * (x - m))).sum)

/-- The rotated read index of `correlation` (key2.cpp lines 353-357,
keyEDM.cpp lines 233-237): C++ computes `index = (i - shift) % size`
(truncating remainder, `Int.tmod`) and then adds `size` when negative. -/
def corrIndex (size : ℕ) (i : ℕ) (shift : ℤ) : ℕ :=
  let index := ((i : ℤ) - shift).tmod (size : ℤ)
  (if index < 0 then index + size else index).toNat

/-- `Key2::correlation` (key2.cpp lines 346-365) = `KeyEDM::correlation`
(keyEDM.cpp lines 226-245): accumulate
`r += (v1[i] - mean1) * (v2[index] - mean2)` over `i < size` and divide by
`std1 * std2` once at the end. -/
noncomputable def correlation (v1 : List ℝ) (mean1 std1 : ℝ) (v2 : List ℝ)
    (mean2 std2 : ℝ) (shift : ℤ) : ℝ :=
  let size := v1.length
  let r := (List.range size).foldl
    (fun r i => r + (v1.getD i 0 - mean1) * (v2.getD (corrIndex size i shift) 0 - mean2)) 0
  r / (std1 * std2)

/-- The per-anchor interpolation increment of `resize` (key2.cpp lines
291-305, keyEDM.cpp lines 192-201): `(t[i] - t[i+1]) / n`, wrapping from
anchor 11 back to anchor 0. -/
noncomputable def interpIncr (t : List ℝ) (n : ℕ) (i : ℕ) : ℝ :=
  if i = 11 then (t.getD 11 0 - t.getD 0 0) / n
  else (t.getD i 0 - t.getD (i + 1) 0) / n

/-- `Key2::resize` / `KeyEDM::resize` interpolation of one 12-value template
to `pcpsize = 12 * n` values.  The C++ loop writes position `i*n` with `t[i]`
and positions `i*n+j` (1 ≤ j ≤ n-1) with `t[i] - j * incr`; every position
`k < 12*n` is written exactly once, as `i = k / n`, `j = k % n` (the `j = 0`
case giving `t[i] - 0 * incr = t[i]`). -/
noncomputable def resizeProfile (t : List ℝ) (pcpsize : ℕ) : List ℝ :=
  let n := pcpsize / 12
  (List.range pcpsize).map
    (fun k => t.getD (k / n) 0 - ((k % n : ℕ) : ℝ) * interpIncr t n (k / n))

/-- The per-mode maximum tracking state of `compute`: first maximum, second
maximum, and the shift index of the first maximum (all initialised to -1,
key2.cpp lines 129-139, keyEDM.cpp lines 119-125). -/
structure ScanState where
  max : ℝ
  max2 : ℝ
  keyIndex : ℤ

/-- One iteration of the per-mode maximum tracking (key2.cpp lines 155-159:
`if (corr > max) { max2 = max; max = corr; keyIndex = shift; }`). -/
noncomputable def scanStep (corr : ℤ → ℝ) (st : ScanState) (shift : ℤ) : ScanState :=
  if corr shift > st.max then ⟨corr shift, st.max, shift⟩ else st

/-- The shift loop of `compute` for one mode (key2.cpp lines 152-192,
keyEDM.cpp lines 129-145): scan `shift` from `0` to `N-1` starting from
`(-1, -1, -1)`.  (The C++ interleaves the modes in a single loop; the
per-mode states are independent, so each mode is one fold.) -/
noncomputable def scanMode (corr : ℤ → ℝ) (N : ℕ) : ScanState :=
  ((List.range N).map (fun (i : ℕ) => (i : ℤ))).foldl (scanStep corr) ⟨-1, -1, -1⟩

/-- The correlation argument `compute` builds for one mode: the PCP with its
mean and std-sum computed once, against the profile interpolated to the PCP
length, with the profile's cached mean and std-sum. -/
noncomputable def modeCorr (pcp prof : List ℝ) (s : ℤ) : ℝ :=
  let rp := resizeProfile prof pcp.length
  correlation pcp (listMean pcp) (stdSum pcp (listMean pcp))
    rp (listMean rp) (stdSum rp (listMean rp)) s

/-- The `Scales` enum of key2.h (KeyEDM uses only `MAJOR`/`MINOR`). -/
inductive Scale
  | MAJOR
  | MINOR
  | OTHER
deriving DecidableEq

/-- The scale output string of `Key2::compute` (key2.cpp lines 242-252):
`OTHER` is reported as "minor". -/
def key2ScaleLabel : Scale → String
  | .MAJOR => "major"
  | .MINOR => "minor"
  | .OTHER => "minor"

/-- The scale output string of `KeyEDM::compute` (keyEDM.cpp line 168):
`scale == MAJOR ? "major" : "minor"`. -/
def keyEDMScaleLabel (sc : Scale) : String :=
  if sc = .MAJOR then "major" else "minor"

/-- Truncation toward zero of `k + 0.5` for an integer `k`, the effect of the
C++ cast `(int)(k + 0.5)` (the `int` quotient `k` is exact in double). -/
def truncAddHalf (k : ℤ) : ℤ := if 0 ≤ k then k else k + 1

/-- The key-index computation of `compute` (key2.cpp lines 197/204/211,
keyEDM.cpp lines 148/154): `(int)(shift * 12 / pcpsize + 0.5)`, where
`shift * 12 / pcpsize` is C++ `int` division (truncation toward zero,
`Int.tdiv`), so the `+ 0.5` is applied to an already-truncated integer. -/
def resolveKeyIndex (shift : ℤ) (pcpsize : ℤ) : ℤ :=
  truncAddHalf ((shift * 12).tdiv pcpsize)

/-- The exceptions the two algorithms throw. -/
inductive KeyError
  | unsupportedProfileType
  | invalidProfileSize
  | keyNotFound
deriving DecidableEq

/-- The output tuple: key, scale, strength, firstToSecondRelativeStrength. -/
structure KeyOutput where
  key : String
  scale : String
  strength : ℝ
  relStrength : ℝ

/-- The mode-selection cascade of `Key2::compute` (key2.cpp lines 196-215).
The three `if`/`else if` branches are not exhaustive: when no branch fires,
`keyIndex` keeps its initialisation `-1` (modelled as `none`). -/
noncomputable def key2Pick (sMaj sMin sOth : ScanState) : Option (Scale × ScanState) :=
  if sMaj.max > sMin.max ∧ sMaj.max > sOth.max then some (.MAJOR, sMaj)
  else if sMin.max ≥ sMaj.max ∧ sMin.max ≥ sOth.max then some (.MINOR, sMin)
  else if sOth.max > sMaj.max ∧ sOth.max > sMin.max then some (.OTHER, sOth)
  else none

/-- The mode selection of `KeyEDM::compute` (keyEDM.cpp lines 147-158):
major wins ties. -/
noncomputable def keyEDMPick (sMaj sMin : ScanState) : Scale × ScanState :=
  if sMaj.max ≥ sMin.max then (.MAJOR, sMaj) else (.MINOR, sMin)

/-- `Key2::compute` (key2.cpp lines 98-268) for a configured instance holding
major/minor/other templates `Mprof`/`mprof`/`Oprof` (the members `_M`, `_m`,
`_O`).  The interpolated-profile cache of the C++ (`resize` only when the
length changed) is semantically the interpolation at the current PCP length,
which is what `modeCorr` uses. -/
noncomputable def key2Compute (Mprof mprof Oprof : List ℝ) (pcp : List ℝ) :
    Except KeyError KeyOutput :=
  let pcpsize := pcp.length
  if pcpsize < 12 ∨ pcpsize % 12 ≠ 0 then .error .invalidProfileSize
  else
    let sMaj := scanMode (modeCorr pcp Mprof) pcpsize
    let sMin := scanMode (modeCorr pcp mprof) pcpsize
    let sOth := scanMode (modeCorr pcp Oprof) pcpsize
    match key2Pick sMaj sMin sOth with
    | none => .error .keyNotFound
    | some (sc, st) =>
      let keyIndex := resolveKeyIndex st.keyIndex pcpsize
      if keyIndex < 0 then .error .keyNotFound
      else .ok ⟨keyNames.getD keyIndex.toNat "", key2ScaleLabel sc, st.max,
        (st.max - st.max2) / st.max⟩

/-- `KeyEDM::compute` (keyEDM.cpp lines 88-175). -/
noncomputable def keyEDMCompute (Mprof mprof : List ℝ) (pcp : List ℝ) :
    Except KeyError KeyOutput :=
  let pcpsize := pcp.length
  if pcpsize < 12 ∨ pcpsize % 12 ≠ 0 then .error .invalidProfileSize
  else
    let sMaj := scanMode (modeCorr pcp Mprof) pcpsize
    let sMin := scanMode (modeCorr pcp mprof) pcpsize
    let pick := keyEDMPick sMaj sMin
    let keyIndex := resolveKeyIndex pick.2.keyIndex pcpsize
    if keyIndex < 0 then .error .keyNotFound
    else .ok ⟨keyNames.getD keyIndex.toNat "", keyEDMScaleLabel pick.1, pick.2.max,
      (pick.2.max - pick.2.max2) / pick.2.max⟩

/-! The profile catalogs (key2.cpp lines 62-82, keyEDM.cpp lines 54-72). -/

/-- bmtg1 major template (key2.cpp line 65). -/
noncomputable def bmtg1M : List ℝ :=
  [1.0000, 0.1573, 0.4200, 0.1570, 0.5296, 0.3669, 0.1632, 0.7711, 0.1676, 0.3827, 0.2113, 0.2965]

/-- bmtg1 minor template (key2.cpp line 66). -/
noncomputable def bmtg1m : List ℝ :=
  [1.0000, 0.2330, 0.3615, 0.3905, 0.2925, 0.3777, 0.1961, 0.7425, 0.2701, 0.2161, 0.4228, 0.2272]

/-- bmtg1 other template (key2.cpp line 67). -/
noncomputable def bmtg1O : List ℝ :=
  [1.0000, 0.2608, 0.3528, 0.2935, 0.4393, 0.3580, 0.2137, 0.7809, 0.2578, 0.2539, 0.3233, 0.2615]

/-- bmtg2 major template (key2.cpp line 69). -/
noncomputable def bmtg2M : List ℝ :=
  [1.00, 0.10, 0.42, 0.10, 0.53, 0.37, 0.10, 0.77, 0.10, 0.38, 0.21, 0.30]

/-- bmtg2 minor template (key2.cpp line 70). -/
noncomputable def bmtg2m : List ℝ :=
  [1.00, 0.10, 0.36, 0.39, 0.29, 0.38, 0.10, 0.74, 0.27, 0.10, 0.42, 0.23]

/-- bmtg2 other template (key2.cpp line 71). -/
noncomputable def bmtg2O : List ℝ :=
  [1.00, 0.26, 0.35, 0.29, 0.44, 0.36, 0.21, 0.78, 0.26, 0.25, 0.32, 0.26]

/-- bmtg3 major template (key2.cpp line 73). -/
noncomputable def bmtg3M : List ℝ :=
  [1.00, 0.00, 0.42, 0.00, 0.53, 0.37, 0.00, 0.76, 0.00, 0.38, 0.21, 0.30]

/-- bmtg3 minor template (key2.cpp line 74). -/
noncomputable def bmtg3m : List ℝ :=
  [1.00, 0.00, 0.36, 0.39, 0.10, 0.37, 0.00, 0.76, 0.27, 0.00, 0.42, 0.23]

/-- bmtg3 other template (key2.cpp line 75). -/
noncomputable def bmtg3O : List ℝ :=
  [1.00, 0.26, 0.35, 0.29, 0.44, 0.37, 0.21, 0.76, 0.26, 0.25, 0.32, 0.26]

/-- edma (Key2) major template (key2.cpp line 77). -/
noncomputable def edmaKey2M : List ℝ :=
  [1.00, 0.29, 0.50, 0.40, 0.60, 0.56, 0.32, 0.80, 0.31, 0.45, 0.42, 0.39]

/-- edma (Key2) minor template (key2.cpp line 78). -/
noncomputable def edmaKey2m : List ℝ :=
  [1.00, 0.31, 0.44, 0.58, 0.33, 0.49, 0.29, 0.78, 0.43, 0.29, 0.53, 0.32]

/-- edma (Key2) other template (key2.cpp line 79). -/
noncomputable def edmaKey2O : List ℝ :=
  [1.00, 0.26, 0.35, 0.29, 0.44, 0.36, 0.21, 0.78, 0.26, 0.25, 0.32, 0.26]

/-- temperley major template (keyEDM.cpp line 57). -/
noncomputable def temperleyM : List ℝ :=
  [5.0, 2.0, 3.5, 2.0, 4.5, 4.0, 2.0, 4.5, 2.0, 3.5, 1.5, 4.0]

/-- temperley minor template (keyEDM.cpp line 58). -/
noncomputable def temperleym : List ℝ :=
  [5.0, 2.0, 3.5, 4.5, 2.0, 4.0, 2.0, 4.5, 3.5, 2.0, 1.5, 4.0]

/-- shaath major template (keyEDM.cpp line 61). -/
noncomputable def shaathM : List ℝ :=
  [6.6, 2.0, 3.5, 2.3, 4.6, 4.0, 2.5, 5.2, 2.4, 3.7, 2.3, 3.4]

/-- shaath minor template (keyEDM.cpp line 62). -/
noncomputable def shaathm : List ℝ :=
  [6.5, 2.7, 3.5, 5.4, 2.6, 3.5, 2.5, 5.2, 4.0, 2.7, 4.3, 3.2]

/-- edma (KeyEDM) major template (keyEDM.cpp line 65). -/
noncomputable def edmaM : List ℝ :=
  [0.16519551, 0.04749026, 0.08293076, 0.06687112, 0.09994645, 0.09274123,
   0.05294487, 0.13159476, 0.05218986, 0.07443653, 0.06940723, 0.0642515]

/-- edma (KeyEDM) minor template (keyEDM.cpp line 66). -/
noncomputable def edmam : List ℝ :=
  [0.17235348, 0.05336489, 0.0761009, 0.10043649, 0.05621498, 0.08527853,
   0.0497915, 0.13451001, 0.07458916, 0.05003023, 0.09187879, 0.05545106]

/-- edmm major template (keyEDM.cpp line 69). -/
noncomputable def edmmM : List ℝ :=
  [0.083, 0.083, 0.083, 0.083, 0.083, 0.083, 0.083, 0.083, 0.083, 0.083, 0.083, 0.083]

/-- edmm minor template (keyEDM.cpp line 70). -/
noncomputable def edmmm : List ℝ :=
  [0.17235348, 0.04, 0.0761009, 0.12, 0.05621498, 0.08527853,
   0.0497915, 0.13451001, 0.07458916, 0.05003023, 0.09187879, 0.05545106]

/-- The profile-type dispatch of `Key2::configure` (key2.cpp lines 86-92),
returning the selected `(_M, _m, _O)` templates or throwing. -/
noncomputable def key2Configure (profileType : String) :
    Except KeyError (List ℝ × List ℝ × List ℝ) :=
  if profileType = "bmtg1" then .ok (bmtg1M, bmtg1m, bmtg1O)
  else if profileType = "bmtg2" then .ok (bmtg2M, bmtg2m, bmtg2O)
  else if profileType = "bmtg3" then .ok (bmtg3M, bmtg3m, bmtg3O)
  else if profileType = "edma" then .ok (edmaKey2M, edmaKey2m, edmaKey2O)
  else .error .unsupportedProfileType

/-- The profile-type dispatch of `KeyEDM::configure` (keyEDM.cpp lines 76-82),
returning the selected `(_M, _m)` templates or throwing. -/
noncomputable def keyEDMConfigure (profileType : String) :
    Except KeyError (List ℝ × List ℝ) :=
  if profileType = "temperley" then .ok (temperleyM, temperleym)
  else if profileType = "shaath" then .ok (shaathM, shaathm)
  else if profileType = "edma" then .ok (edmaM, edmam)
  else if profileType = "edmm" then .ok (edmmM, edmmm)
  else .error .unsupportedProfileType

/-- The identifier set accepted by `Key2::configure`, which matches the set
declared for the `profileType` parameter in key2.h line 50. -/
def key2SupportedTypes : List String := ["bmtg1", "bmtg2", "bmtg3", "edma"]

/-- The identifier set the spec claims for the KeyEDM family (the set
declared for the `profileType` parameter in keyEDM.h line 50). -/
def keyEDMClaimedTypes : List String := ["edma", "edmm", "bmtg1", "bmtg2", "bmtg3"]

/-- The identifier set actually accepted by the `KeyEDM::configure` cascade
(keyEDM.cpp lines 76-79). -/
def keyEDMSupportedTypes : List String := ["temperley", "shaath", "edma", "edmm"]

/-- Spec section 4.4 step 5, modelled from the spec's words: round-half-up of
the real quotient `bestShiftIndex * 12 / N` ("add 0.5 and truncate"; the
quotient is non-negative there, so truncation is the floor). -/
def specKeyIndex (shift : ℤ) (pcpsize : ℤ) : ℤ :=
  ⌊(shift * 12 : ℚ) / (pcpsize : ℚ) + 1 / 2⌋

/-- The std-sum of the bmtg2 major template at N = 12 (an exact square root). -/
noncomputable def sigM2 : ℝ := Real.sqrt (9069/10000)

/-- The std-sum of the bmtg2 minor template at N = 12. -/
noncomputable def sigm2 : ℝ := Real.sqrt (7913/10000)

/-- The std-sum of the bmtg2 other template at N = 12. -/
noncomputable def sigO2 : ℝ := Real.sqrt (19379/30000)

/-- A PCP engineered so that, under the bmtg2 profiles, the major and other
correlation maxima tie exactly while the minor maximum stays strictly below:
entry i is `sigO2 * (M[i] - mean M) + sigM2 * (O[i] - mean O) + 2` (all
entries positive).  All its correlation scores are ordinary reals, yet the
Key2 cascade falls through. -/
noncomputable def pcpTie : List ℝ :=
  [sigO2 * (127/200) + sigM2 * (361/600) + 2,
   sigO2 * (-53/200) + sigM2 * (-83/600) + 2,
   sigO2 * (11/200) + sigM2 * (-29/600) + 2,
   sigO2 * (-53/200) + sigM2 * (-13/120) + 2,
   sigO2 * (33/200) + sigM2 * (1/24) + 2,
   sigO2 * (1/200) + sigM2 * (-23/600) + 2,
   sigO2 * (-53/200) + sigM2 * (-113/600) + 2,
   sigO2 * (81/200) + sigM2 * (229/600) + 2,
   sigO2 * (-53/200) + sigM2 * (-83/600) + 2,
   sigO2 * (3/200) + sigM2 * (-89/600) + 2,
   sigO2 * (-31/200) + sigM2 * (-47/600) + 2,
   sigO2 * (-13/200) + sigM2 * (-83/600) + 2]

/-- Spec section 4.4 step 3, modelled from the spec's words: "track the
running maximum correlation value and the second-highest value seen so far
(strictly-greater update rule: a new value replaces second max with the
previous max only when it exceeds the current max — ties do not update
second-max), plus the shift index at which the maximum occurred".  State is
(max, secondMax, bestShiftIndex). -/
noncomputable def specTrackStep (corr : ℤ → ℝ) (st : ℝ × ℝ × ℤ) (shift : ℤ) : ℝ × ℝ × ℤ :=
  if corr shift > st.1 then (corr shift, st.1, shift) else st

/-- The spec's per-mode tracker over shifts `0..N-1`, from the same `-1`
starting values the code uses. -/
noncomputable def specTrack (corr : ℤ → ℝ) (N : ℕ) : ℝ × ℝ × ℤ :=
  ((List.range N).map (fun (i : ℕ) => (i : ℤ))).foldl (specTrackStep corr) (-1, -1, -1)

/-- A one-hot PCP: all energy in bin 0 ("A").  Used to probe how KeyEDM
responds to a one-semitone transposition of its input. -/
noncomputable def pcpE0 : List ℝ :=
  [1, 0, 0, 0, 0, 0, 0, 0, 0, 0, 0, 0]

/-- The same PCP transposed up one semitone: all energy in bin 1 ("Bb").
It equals `pcpE0.rotate 11`. -/
noncomputable def pcpE1 : List ℝ :=
  [0, 1, 0, 0, 0, 0, 0, 0, 0, 0, 0, 0]

/-! ## Lemmas about the per-mode scan fold -/

theorem scanStep_max_le (corr : ℤ → ℝ) (st : ScanState) (s : ℤ) :
    st.max ≤ (scanStep corr st s).max := by
  unfold scanStep
  split_ifs with h
  · exact le_of_lt h
  · exact le_refl _

theorem foldl_scanStep_max_le (corr : ℤ → ℝ) :
    ∀ (l : List ℤ) (st : ScanState), st.max ≤ (l.foldl (scanStep corr) st).max := by
  intro l
  induction l with
  | nil => intro st; exact le_refl _
  | cons a t ih =>
    intro st
    exact le_trans (scanStep_max_le corr st a) (ih _)

theorem foldl_scanStep_ub (corr : ℤ → ℝ) :
    ∀ (l : List ℤ) (st : ScanState) (s : ℤ), s ∈ l →
      corr s ≤ (l.foldl (scanStep corr) st).max := by
  intro l
  induction l with
  | nil => intro st s hs; cases hs
  | cons a t ih =>
    intro st s hs
    rcases List.mem_cons.mp hs with rfl | hs
    · refine le_trans ?_ (foldl_scanStep_max_le corr t _)
      unfold scanStep
      split_ifs with h
      · exact le_refl _
      · exact not_lt.mp h
    · exact ih _ s hs

theorem foldl_scanStep_const (corr : ℤ → ℝ) :
    ∀ (l : List ℤ) (st : ScanState), (∀ s ∈ l, corr s ≤ st.max) →
      l.foldl (scanStep corr) st = st := by
  intro l
  induction l with
  | nil => intro st _; rfl
  | cons a t ih =>
    intro st h
    have ha : scanStep corr st a = st := by
      unfold scanStep
      exact if_neg (not_lt.mpr (h a (List.mem_cons_self a t)))
    rw [List.foldl_cons, ha]
    exact ih st (fun s hs => h s (List.mem_cons_of_mem a hs))

theorem foldl_scanStep_invariant (corr : ℤ → ℝ) (N : ℤ) :
    ∀ (l : List ℤ) (st : ScanState), (∀ s ∈ l, 0 ≤ s ∧ s < N) →
      ((st.max = -1 ∧ st.keyIndex = -1) ∨
        (corr st.keyIndex = st.max ∧ 0 ≤ st.keyIndex ∧ st.keyIndex < N)) →
      (((l.foldl (scanStep corr) st).max = -1 ∧ (l.foldl (scanStep corr) st).keyIndex = -1) ∨
        (corr (l.foldl (scanStep corr) st).keyIndex = (l.foldl (scanStep corr) st).max ∧
          0 ≤ (l.foldl (scanStep corr) st).keyIndex ∧
          (l.foldl (scanStep corr) st).keyIndex < N)) := by
  intro l
  induction l with
  | nil => intro st _ h; exact h
  | cons a t ih =>
    intro st hl h
    rw [List.foldl_cons]
    refine ih _ (fun s hs => hl s (List.mem_cons_of_mem a hs)) ?_
    unfold scanStep
    split_ifs with hgt
    · right
      exact ⟨rfl, (hl a (List.mem_cons_self a t)).1, (hl a (List.mem_cons_self a t)).2⟩
    · exact h

theorem scanMode_keyIndex_range (corr : ℤ → ℝ) (N : ℕ) :
    -1 ≤ (scanMode corr N).keyIndex ∧ (scanMode corr N).keyIndex < (N : ℤ) := by
  unfold scanMode
  have h := foldl_scanStep_invariant corr N ((List.range N).map (fun (i : ℕ) => (i : ℤ)))
    ⟨-1, -1, -1⟩ ?_ (Or.inl ⟨rfl, rfl⟩)
  · rcases h with ⟨_, hk⟩ | ⟨_, hk0, hkN⟩
    · rw [hk]
      have : (0 : ℤ) ≤ (N : ℤ) := Int.ofNat_nonneg N
      omega
    · have : (-1 : ℤ) ≤ 0 := by norm_num
      exact ⟨le_trans this hk0, hkN⟩
  · intro s hs
    simp only [List.mem_map, List.mem_range] at hs
    obtain ⟨k, hk, rfl⟩ := hs
    exact ⟨Int.ofNat_nonneg k, by exact_mod_cast hk⟩

/-- The tracking state that `key2Pick` returns (when it returns one) is one
of the three scan results. -/
theorem key2Pick_mem (sMaj sMin sOth : ScanState) (sc : Scale) (st : ScanState)
    (h : key2Pick sMaj sMin sOth = some (sc, st)) : st = sMaj ∨ st = sMin ∨ st = sOth := by
  unfold key2Pick at h
  split_ifs at h <;> simp_all

/-- The tracking state that `keyEDMPick` returns is one of the two scan
results. -/
theorem keyEDMPick_mem (sMaj sMin : ScanState) :
    (keyEDMPick sMaj sMin).2 = sMaj ∨ (keyEDMPick sMaj sMin).2 = sMin := by
  unfold keyEDMPick
  split_ifs <;> simp

/-! ## Lemmas about the resolved key index -/

theorem resolveKeyIndex_nonneg {k N : ℤ} (hk : -1 ≤ k) (hN : 12 ≤ N) :
    0 ≤ resolveKeyIndex k N := by
  unfold resolveKeyIndex truncAddHalf
  rcases lt_or_le k 0 with hneg | hpos
  · have hk1 : k = -1 := by omega
    subst hk1
    have h12 : ((-1 : ℤ) * 12).tdiv N = -((12 : ℤ).tdiv N) := by
      rw [show ((-1 : ℤ) * 12) = -12 by norm_num, show ((-12 : ℤ)) = -(12 : ℤ) by norm_num,
        Int.neg_tdiv]
    rw [h12]
    rcases eq_or_lt_of_le hN with hN12 | hN12
    · rw [← hN12]
      decide
    · rw [Int.tdiv_eq_zero_of_lt (by norm_num) hN12]
      norm_num
  · rw [if_pos (Int.tdiv_nonneg (by positivity) (by omega))]
    exact Int.tdiv_nonneg (by positivity) (by omega)

theorem resolveKeyIndex_le_eleven {k N : ℤ} (hk : -1 ≤ k) (hkN : k < N) (hN : 12 ≤ N) :
    resolveKeyIndex k N ≤ 11 := by
  rcases lt_or_le k 0 with hneg | hpos
  · have hk1 : k = -1 := by omega
    subst hk1
    unfold resolveKeyIndex truncAddHalf
    have h12 : ((-1 : ℤ) * 12).tdiv N = -((12 : ℤ).tdiv N) := by
      rw [show ((-1 : ℤ) * 12) = -12 by norm_num, show ((-12 : ℤ)) = -(12 : ℤ) by norm_num,
        Int.neg_tdiv]
    rw [h12]
    rcases eq_or_lt_of_le hN with hN12 | hN12
    · rw [← hN12]
      decide
    · rw [Int.tdiv_eq_zero_of_lt (by norm_num) hN12]
      norm_num
  · unfold resolveKeyIndex truncAddHalf
    have htd : (k * 12).tdiv N = (k * 12) / N :=
      Int.tdiv_eq_ediv (by positivity) (by omega)
    have hub : (k * 12) / N < 12 :=
      Int.ediv_lt_of_lt_mul (by omega) (by nlinarith)
    rw [htd, if_pos (Int.ediv_nonneg (by positivity) (by omega))]
    omega

/-! ## Claim C1: the mode-selection cascades -/

/-- C1: mode selection is the exact ordered cascade of the code: for `Key2`,
major is chosen iff `maxMajor > maxMinor` and `maxMajor > maxOther`;
otherwise minor is chosen iff `maxMinor ≥ maxMajor` and `maxMinor ≥ maxOther`;
otherwise "other" is chosen iff `maxOther > maxMajor` and `maxOther > maxMinor`,
and the "other" mode's reported label is the string "minor"; for `KeyEDM`,
major is chosen iff `maxMajor ≥ maxMinor`, else minor. -/
theorem c1_mode_selection_cascade (sMaj sMin sOth : ScanState) :
    (key2Pick sMaj sMin sOth = some (.MAJOR, sMaj) ↔
      sMaj.max > sMin.max ∧ sMaj.max > sOth.max) ∧
    (key2Pick sMaj sMin sOth = some (.MINOR, sMin) ↔
      ¬(sMaj.max > sMin.max ∧ sMaj.max > sOth.max) ∧
        (sMin.max ≥ sMaj.max ∧ sMin.max ≥ sOth.max)) ∧
    (key2Pick sMaj sMin sOth = some (.OTHER, sOth) ↔
      ¬(sMaj.max > sMin.max ∧ sMaj.max > sOth.max) ∧
        ¬(sMin.max ≥ sMaj.max ∧ sMin.max ≥ sOth.max) ∧
        (sOth.max > sMaj.max ∧ sOth.max > sMin.max)) ∧
    key2ScaleLabel .OTHER = "minor" ∧
    (keyEDMPick sMaj sMin = (.MAJOR, sMaj) ↔ sMaj.max ≥ sMin.max) ∧
    (¬ sMaj.max ≥ sMin.max → keyEDMPick sMaj sMin = (.MINOR, sMin)) := by
  unfold key2Pick keyEDMPick
  refine ⟨?_, ?_, ?_, rfl, ?_, ?_⟩ <;> split_ifs <;> simp_all

/-- Witness for C1 at concrete scan states: with `maxMajor = 1`,
`maxMinor = 0`, `maxOther = 2`, the major branch is rejected and the cascade
reaches "other". -/
theorem c1_mode_selection_cascade_witness :
    key2Pick ⟨1, -1, 3⟩ ⟨0, -1, 4⟩ ⟨2, -1, 5⟩ = some (.OTHER, ⟨2, -1, 5⟩) ∧
    keyEDMPick ⟨1, -1, 3⟩ ⟨1, -1, 4⟩ = (.MAJOR, ⟨1, -1, 3⟩) := by
  have h := c1_mode_selection_cascade ⟨1, -1, 3⟩ ⟨0, -1, 4⟩ ⟨2, -1, 5⟩
  refine ⟨h.2.2.1.mpr ⟨by norm_num, by norm_num, by norm_num, by norm_num⟩, ?_⟩
  have h2 := c1_mode_selection_cascade ⟨1, -1, 3⟩ ⟨1, -1, 4⟩ ⟨0, -1, 5⟩
  exact h2.2.2.2.2.1.mpr (by norm_num)

/-! ## Claim C5: the input-size guard -/

/-- C5: `compute` fails with the invalid-size error iff the PCP length is
less than 12 or not a multiple of 12, in both engines; for every other
length no size error is raised. -/
theorem c5_invalid_profile_size (Mprof mprof Oprof pcp : List ℝ) :
    (key2Compute Mprof mprof Oprof pcp = .error .invalidProfileSize ↔
      (pcp.length < 12 ∨ pcp.length % 12 ≠ 0)) ∧
    (keyEDMCompute Mprof mprof pcp = .error .invalidProfileSize ↔
      (pcp.length < 12 ∨ pcp.length % 12 ≠ 0)) := by
  constructor
  · unfold key2Compute
    dsimp only
    split_ifs with h
    · simp [h]
    · simp only [iff_false_intro h, iff_false]
      intro hc
      rcases hpick : key2Pick (scanMode (modeCorr pcp Mprof) pcp.length)
          (scanMode (modeCorr pcp mprof) pcp.length)
          (scanMode (modeCorr pcp Oprof) pcp.length) with _ | ⟨sc, st⟩
      · simp only [hpick] at hc
        exact KeyError.noConfusion (Except.error.inj hc)
      · simp only [hpick] at hc
        split_ifs at hc <;> simp_all
  · unfold keyEDMCompute
    dsimp only
    split_ifs with h h2
    · simp [h]
    · simp_all
    · simp_all

/-! ## Claim C9: the profile-type dispatch -/

/-- C9 counterexample: the claim says `KeyEDM` configuration succeeds exactly
on `{edma, edmm, bmtg1, bmtg2, bmtg3}` (the set declared in keyEDM.h), but
the `KeyEDM::configure` cascade throws `UnsupportedProfileType` for "bmtg1"
(and accepts "temperley", which is outside that set). -/
theorem c9_counterexample :
    "bmtg1" ∈ keyEDMClaimedTypes ∧
    keyEDMConfigure "bmtg1" = .error .unsupportedProfileType ∧
    "temperley" ∉ keyEDMClaimedTypes ∧
    keyEDMConfigure "temperley" = .ok (temperleyM, temperleym) := by
  refine ⟨by simp [keyEDMClaimedTypes], by simp [keyEDMConfigure], by simp [keyEDMClaimedTypes], by simp [keyEDMConfigure]⟩

/-- C9 amended: `Key2::configure` succeeds exactly on
`{bmtg1, bmtg2, bmtg3, edma}` as claimed, but `KeyEDM::configure` succeeds
exactly on `{temperley, shaath, edma, edmm}` (the cascade in keyEDM.cpp),
not on the set declared in keyEDM.h; any other identifier fails with
the unsupported-profile-type error at configuration time. -/
theorem c9_amended_profile_dispatch (s : String) :
    (key2Configure s = .error .unsupportedProfileType ↔ s ∉ key2SupportedTypes) ∧
    (keyEDMConfigure s = .error .unsupportedProfileType ↔ s ∉ keyEDMSupportedTypes) := by
  constructor
  · unfold key2Configure
    split_ifs with h1 h2 h3 h4 <;> simp_all [key2SupportedTypes]
  · unfold keyEDMConfigure
    split_ifs with h1 h2 h3 h4 <;> simp_all [keyEDMSupportedTypes]

/-! ## Claim C3: the key-index conversion -/

/-- C3: the code's key-index conversion `(int)(shift * 12 / pcpsize + 0.5)`
performs the division on C++ `int`s, so the quotient is already truncated
before `0.5` is added and the whole expression equals plain integer
division; the spec's round-half-up of the real quotient differs at
`bestShiftIndex = 1`, `N = 24`, where the code reports index 0 ("A") and the
spec's formula gives 1 ("Bb"). -/
theorem c3_key_index_truncation :
    resolveKeyIndex 1 24 = 0 ∧ specKeyIndex 1 24 = 1 ∧
    keyNames.getD (resolveKeyIndex 1 24).toNat "" = "A" ∧
    keyNames.getD (specKeyIndex 1 24).toNat "" = "Bb" ∧
    (∀ shift pcpsize : ℤ, 0 ≤ shift → 0 ≤ pcpsize →
      resolveKeyIndex shift pcpsize = (shift * 12).tdiv pcpsize) := by
  have h1 : resolveKeyIndex 1 24 = 0 := by decide
  have h2 : specKeyIndex 1 24 = 1 := by
    unfold specKeyIndex
    have harg : ((1 : ℤ) : ℚ) * 12 / ((24 : ℤ) : ℚ) + 1 / 2 = 1 := by norm_num
    rw [harg, Int.floor_one]
  refine ⟨h1, h2, by rw [h1]; rfl, by rw [h2]; rfl, ?_⟩
  intro shift pcpsize hs hp
  unfold resolveKeyIndex truncAddHalf
  rw [if_pos (Int.tdiv_nonneg (by positivity) hp)]

/-! ## Claim C2: when the KeyNotFound error can occur -/

/-- Helper: a label read from the key-name table at an index in `[0, 11]`
is one of the twelve names. -/
theorem keyNames_getD_mem {k : ℤ} (h0 : 0 ≤ k) (h11 : k ≤ 11) :
    keyNames.getD k.toNat "" ∈ keyNames := by
  have hn : k.toNat ≤ 11 := by omega
  interval_cases h : k.toNat <;> decide

/-- C2 amended: `KeyEDM::compute` can never throw the key-not-found error:
its selection always assigns `keyIndex`, and the resolved index of a scan
result is never negative (even when no shift ever beat the initial `-1`,
the resolved index is `0`).  `Key2::compute` throws key-not-found exactly
when its three-branch cascade falls through (`key2Pick` returns none, i.e.
`maxMajor = maxOther` and `maxMinor < maxMajor`), which can happen with
all correlation scores being ordinary finite reals. -/
theorem c2_key_not_found_characterisation :
    (∀ Mprof mprof pcp : List ℝ, keyEDMCompute Mprof mprof pcp ≠ .error .keyNotFound) ∧
    (∀ Mprof mprof Oprof pcp : List ℝ,
      key2Compute Mprof mprof Oprof pcp = .error .keyNotFound ↔
        (¬(pcp.length < 12 ∨ pcp.length % 12 ≠ 0) ∧
          key2Pick (scanMode (modeCorr pcp Mprof) pcp.length)
            (scanMode (modeCorr pcp mprof) pcp.length)
            (scanMode (modeCorr pcp Oprof) pcp.length) = none)) := by
  constructor
  · intro Mprof mprof pcp
    unfold keyEDMCompute
    dsimp only
    split_ifs with h h2
    · simp
    · exfalso
      have hN : 12 ≤ (pcp.length : ℤ) := by
        push_neg at h
        exact_mod_cast h.1
      have hrange := scanMode_keyIndex_range (modeCorr pcp Mprof) pcp.length
      have hrange2 := scanMode_keyIndex_range (modeCorr pcp mprof) pcp.length
      have hmem := keyEDMPick_mem (scanMode (modeCorr pcp Mprof) pcp.length)
        (scanMode (modeCorr pcp mprof) pcp.length)
      have hk : -1 ≤ (keyEDMPick (scanMode (modeCorr pcp Mprof) pcp.length)
          (scanMode (modeCorr pcp mprof) pcp.length)).2.keyIndex := by
        rcases hmem with hm | hm <;> rw [hm]
        · exact hrange.1
        · exact hrange2.1
      exact absurd h2 (not_lt.mpr (resolveKeyIndex_nonneg hk hN))
    · simp
  · intro Mprof mprof Oprof pcp
    unfold key2Compute
    dsimp only
    split_ifs with h
    · simp [h]
    · rcases hpick : key2Pick (scanMode (modeCorr pcp Mprof) pcp.length)
          (scanMode (modeCorr pcp mprof) pcp.length)
          (scanMode (modeCorr pcp Oprof) pcp.length) with _ | ⟨sc, st⟩
      · simp [hpick, h]
      · simp only [hpick]
        have hN : 12 ≤ (pcp.length : ℤ) := by
          push_neg at h
          exact_mod_cast h.1
        have hk : -1 ≤ st.keyIndex := by
          rcases key2Pick_mem _ _ _ _ _ hpick with hm | hm | hm <;> rw [hm]
          · exact (scanMode_keyIndex_range (modeCorr pcp Mprof) pcp.length).1
          · exact (scanMode_keyIndex_range (modeCorr pcp mprof) pcp.length).1
          · exact (scanMode_keyIndex_range (modeCorr pcp Oprof) pcp.length).1
        rw [if_neg (not_lt.mpr (resolveKeyIndex_nonneg hk hN))]
        simp

/-! ## Claim C10: the resolved index is always a valid table index -/

/-- C10: for a valid PCP length and any winning shift in `[0, N)`, the key
index the code computes, `(int)(shift * 12 / N + 0.5)` with C++ integer
division, lies in `[0, 11]`; consequently, whenever `compute` returns
normally, the reported key is one of the twelve fixed names. -/
theorem c10_key_index_bounds :
    (∀ shift N : ℤ, 12 ≤ N → N % 12 = 0 → 0 ≤ shift → shift < N →
      0 ≤ resolveKeyIndex shift N ∧ resolveKeyIndex shift N ≤ 11) ∧
    (∀ Mprof mprof Oprof pcp out, key2Compute Mprof mprof Oprof pcp = .ok out →
      out.key ∈ keyNames) ∧
    (∀ Mprof mprof pcp out, keyEDMCompute Mprof mprof pcp = .ok out →
      out.key ∈ keyNames) := by
  refine ⟨?_, ?_, ?_⟩
  · intro shift N hN _ hs hsN
    exact ⟨resolveKeyIndex_nonneg (by omega) hN,
      resolveKeyIndex_le_eleven (by omega) hsN hN⟩
  · intro Mprof mprof Oprof pcp out hout
    unfold key2Compute at hout
    dsimp only at hout
    by_cases h : (pcp.length < 12 ∨ pcp.length % 12 ≠ 0)
    · rw [if_pos h] at hout
      exact Except.noConfusion hout
    · rw [if_neg h] at hout
      rcases hpick : key2Pick (scanMode (modeCorr pcp Mprof) pcp.length)
          (scanMode (modeCorr pcp mprof) pcp.length)
          (scanMode (modeCorr pcp Oprof) pcp.length) with _ | ⟨sc, st⟩
      · simp only [hpick] at hout
        exact Except.noConfusion hout
      · simp only [hpick] at hout
        have hN : 12 ≤ (pcp.length : ℤ) := by
          push_neg at h
          exact_mod_cast h.1
        have hkrange : -1 ≤ st.keyIndex ∧ st.keyIndex < (pcp.length : ℤ) := by
          rcases key2Pick_mem _ _ _ _ _ hpick with hm | hm | hm
          · rw [hm]
            exact scanMode_keyIndex_range (modeCorr pcp Mprof) pcp.length
          · rw [hm]
            exact scanMode_keyIndex_range (modeCorr pcp mprof) pcp.length
          · rw [hm]
            exact scanMode_keyIndex_range (modeCorr pcp Oprof) pcp.length
        by_cases hneg : resolveKeyIndex st.keyIndex (pcp.length : ℤ) < 0
        · rw [if_pos hneg] at hout
          exact Except.noConfusion hout
        · rw [if_neg hneg] at hout
          injection hout with hout2
          rw [← hout2]
          exact keyNames_getD_mem (not_lt.mp hneg)
            (resolveKeyIndex_le_eleven hkrange.1 hkrange.2 hN)
  · intro Mprof mprof pcp out hout
    unfold keyEDMCompute at hout
    dsimp only at hout
    by_cases h : (pcp.length < 12 ∨ pcp.length % 12 ≠ 0)
    · rw [if_pos h] at hout
      exact Except.noConfusion hout
    · rw [if_neg h] at hout
      have hN : 12 ≤ (pcp.length : ℤ) := by
        push_neg at h
        exact_mod_cast h.1
      have hkrange : -1 ≤ (keyEDMPick (scanMode (modeCorr pcp Mprof) pcp.length)
          (scanMode (modeCorr pcp mprof) pcp.length)).2.keyIndex ∧
          (keyEDMPick (scanMode (modeCorr pcp Mprof) pcp.length)
          (scanMode (modeCorr pcp mprof) pcp.length)).2.keyIndex < (pcp.length : ℤ) := by
        rcases keyEDMPick_mem (scanMode (modeCorr pcp Mprof) pcp.length)
            (scanMode (modeCorr pcp mprof) pcp.length) with hm | hm
        · rw [hm]
          exact scanMode_keyIndex_range (modeCorr pcp Mprof) pcp.length
        · rw [hm]
          exact scanMode_keyIndex_range (modeCorr pcp mprof) pcp.length
      by_cases hneg : resolveKeyIndex (keyEDMPick (scanMode (modeCorr pcp Mprof) pcp.length)
          (scanMode (modeCorr pcp mprof) pcp.length)).2.keyIndex (pcp.length : ℤ) < 0
      · rw [if_pos hneg] at hout
        exact Except.noConfusion hout
      · rw [if_neg hneg] at hout
        injection hout with hout2
        rw [← hout2]
        exact keyNames_getD_mem (not_lt.mp hneg)
          (resolveKeyIndex_le_eleven hkrange.1 hkrange.2 hN)

/-- Witness for C3's universally quantified part at `shift = 13`,
`pcpsize = 24`. -/
theorem c3_key_index_truncation_witness :
    resolveKeyIndex 13 24 = (13 * 12 : ℤ).tdiv 24 ∧ resolveKeyIndex 13 24 = 6 := by
  exact ⟨(c3_key_index_truncation.2.2.2.2) 13 24 (by norm_num) (by norm_num), by decide⟩

/-! ## Generic evaluation helpers -/

theorem stdSum_nonneg (v : List ℝ) (m : ℝ) : 0 ≤ stdSum v m := Real.sqrt_nonneg _

theorem div_le_div_nonneg_denom {a b D : ℝ} (h : a ≤ b) (hD : 0 ≤ D) : a / D ≤ b / D :=
  div_le_div_of_nonneg_right h hD

theorem lt_sqrt_of_sq {q lo : ℝ} (hlo : 0 ≤ lo) (h : lo ^ 2 < q) : lo < Real.sqrt q :=
  (Real.lt_sqrt hlo).mpr h

theorem sqrt_lt_of_sq {q hi : ℝ} (hhi : 0 < hi) (h : q < hi ^ 2) : Real.sqrt q < hi :=
  (Real.sqrt_lt' hhi).mpr h

theorem resizeProfile_length (t : List ℝ) (pcpsize : ℕ) :
    (resizeProfile t pcpsize).length = pcpsize := by
  unfold resizeProfile
  rw [List.length_map, List.length_range]

theorem resizeProfile_getD (t : List ℝ) (n : ℕ) (k : ℕ) (hk : k < 12 * n) :
    (resizeProfile t (12 * n)).getD k 0 =
      t.getD (k / n) 0 - ((k % n : ℕ) : ℝ) * interpIncr t n (k / n) := by
  unfold resizeProfile
  have h12 : 12 * n / 12 = n := by omega
  rw [h12, List.getD_eq_getElem?_getD, List.getElem?_map, List.getElem?_range hk]
  simp

theorem interpIncr_mod (t : List ℝ) (n : ℕ) (i : ℕ) (hi : i < 12) :
    interpIncr t n i = (t.getD i 0 - t.getD ((i + 1) % 12) 0) / n := by
  unfold interpIncr
  split_ifs with h
  · subst h
    norm_num
  · have hmod : (i + 1) % 12 = i + 1 := Nat.mod_eq_of_lt (by omega)
    rw [hmod]

/-- The interpolation at `n = 1` is the identity on a 12-value template. -/
theorem resizeProfile_twelve (t : List ℝ) (ht : t.length = 12) : resizeProfile t 12 = t := by
  have h121 : (12 : ℕ) = 12 * 1 := by norm_num
  apply List.ext_getElem
  · rw [resizeProfile_length, ht]
  · intro k h1 h2
    have hk : k < 12 := by
      rw [resizeProfile_length] at h1
      exact h1
    have hgd : (resizeProfile t 12).getD k 0 = t.getD k 0 := by
      rw [h121, resizeProfile_getD t 1 k (by omega)]
      simp [Nat.div_one, Nat.mod_one]
    rw [← List.getD_eq_getElem (resizeProfile t 12) 0 h1, ← List.getD_eq_getElem t 0 h2, hgd]

/-- Evaluating a 12-shift scan whose correlation peaks at shift 0 and never
improves afterwards. -/
theorem scanMode_twelve_peak0 (corr : ℤ → ℝ) (h0 : -1 < corr 0)
    (hs : ∀ s : ℤ, 1 ≤ s → s ≤ 11 → corr s ≤ corr 0) :
    scanMode corr 12 = ⟨corr 0, -1, 0⟩ := by
  unfold scanMode
  rw [show ((List.range 12).map (fun (i : ℕ) => (i : ℤ))) =
    [0, 1, 2, 3, 4, 5, 6, 7, 8, 9, 10, 11] from rfl]
  rw [List.foldl_cons]
  rw [show scanStep corr ⟨-1, -1, -1⟩ 0 = ⟨corr 0, -1, 0⟩ from by
    unfold scanStep; rw [if_pos h0]]
  apply foldl_scanStep_const
  intro s hsmem
  fin_cases hsmem <;> exact hs _ (by norm_num) (by norm_num)

/-- Evaluating a 12-shift scan that records at shift 0, improves once at
shift 1, and never improves afterwards. -/
theorem scanMode_twelve_peak01 (corr : ℤ → ℝ) (h0 : -1 < corr 0) (h1 : corr 0 < corr 1)
    (hs : ∀ s : ℤ, 2 ≤ s → s ≤ 11 → corr s ≤ corr 1) :
    scanMode corr 12 = ⟨corr 1, corr 0, 1⟩ := by
  unfold scanMode
  rw [show ((List.range 12).map (fun (i : ℕ) => (i : ℤ))) =
    [0, 1, 2, 3, 4, 5, 6, 7, 8, 9, 10, 11] from rfl]
  rw [List.foldl_cons]
  rw [show scanStep corr ⟨-1, -1, -1⟩ 0 = ⟨corr 0, -1, 0⟩ from by
    unfold scanStep; rw [if_pos h0]]
  rw [List.foldl_cons]
  rw [show scanStep corr ⟨corr 0, -1, 0⟩ 1 = ⟨corr 1, corr 0, 1⟩ from by
    unfold scanStep; rw [if_pos h1]]
  apply foldl_scanStep_const
  intro s hsmem
  fin_cases hsmem <;> exact hs _ (by norm_num) (by norm_num)

/-! ## List-sum bridging lemmas -/

theorem foldl_add_eq_sum (f : ℕ → ℝ) :
    ∀ (l : List ℕ) (a : ℝ), l.foldl (fun r i => r + f i) a = a + (l.map f).sum := by
  intro l
  induction l with
  | nil => intro a; simp
  | cons b t ih =>
    intro a
    rw [List.foldl_cons, ih, List.map_cons, List.sum_cons]
    ring

theorem sum_map_range (f : ℕ → ℝ) (n : ℕ) :
    ((List.range n).map f).sum = ∑ i ∈ Finset.range n, f i := by
  induction n with
  | zero => simp
  | succ m ih =>
    rw [List.range_succ, List.map_append, List.sum_append, Finset.sum_range_succ, ih]
    simp

theorem sum_eq_sum_getD (l : List ℝ) :
    l.sum = ∑ i ∈ Finset.range l.length, l.getD i 0 := by
  induction l with
  | nil => simp
  | cons a t ih =>
    rw [List.sum_cons, List.length_cons, Finset.sum_range_succ']
    simp only [List.getD_cons_succ, List.getD_cons_zero]
    rw [ih]
    ring

theorem sum_map_eq_sum_getD (f : ℝ → ℝ) (l : List ℝ) :
    (l.map f).sum = ∑ i ∈ Finset.range l.length, f (l.getD i 0) := by
  induction l with
  | nil => simp
  | cons a t ih =>
    rw [List.map_cons, List.sum_cons, List.length_cons, Finset.sum_range_succ']
    simp only [List.getD_cons_succ, List.getD_cons_zero]
    rw [ih]
    ring

/-- The mean, written with an explicit indexed sum. -/
theorem listMean_eq_sum (v : List ℝ) :
    listMean v = (∑ i ∈ Finset.range v.length, v.getD i 0) / v.length := by
  unfold listMean
  rw [sum_eq_sum_getD]

/-- The std-sum, written with an explicit indexed sum: the square root of the
summed squared deviations, with no division by the length. -/
theorem stdSum_eq_sum (v : List ℝ) (m : ℝ) :
    stdSum v m = Real.sqrt (∑ i ∈ Finset.range v.length, (v.getD i 0 - m) * (v.getD i 0 - m)) := by
  unfold stdSum
  rw [sum_map_eq_sum_getD]

/-! ## Claim C6: the circular correlation formula -/

/-- C++ `%` followed by conditional `+ size` equals the mathematical
non-negative modulus. -/
theorem tmod_neg_left (a b : ℤ) : (-a).tmod b = -(a.tmod b) := by
  rw [Int.tmod_def, Int.tmod_def, Int.neg_tdiv]
  ring

theorem corrIndex_eq_emod (size i : ℕ) (shift : ℤ) (hpos : 0 < size) :
    corrIndex size i shift = (((i : ℤ) - shift) % (size : ℤ)).toNat := by
  unfold corrIndex
  dsimp only
  have hb0 : (0 : ℤ) < (size : ℤ) := by exact_mod_cast hpos
  congr 1
  set a := (i : ℤ) - shift with ha
  set b := (size : ℤ) with hb
  rcases le_or_lt 0 a with hA | hA
  · rw [Int.tmod_eq_emod hA (le_of_lt hb0),
      if_neg (not_lt.mpr (Int.emod_nonneg a (ne_of_gt hb0)))]
  · have hc : (0 : ℤ) ≤ -a := by omega
    have htm0 : a.tmod b = -((-a).tmod b) := by
      have h := tmod_neg_left (-a) b
      rw [neg_neg] at h
      omega
    have hcm : (-a).tmod b = (-a) % b := Int.tmod_eq_emod hc (le_of_lt hb0)
    set r := (-a) % b with hr
    have hr0 : 0 ≤ r := Int.emod_nonneg _ (ne_of_gt hb0)
    have hrb : r < b := Int.emod_lt_of_pos _ hb0
    have hdecomp : b * ((-a) / b) + (-a) % b = -a := Int.ediv_add_emod (-a) b
    have haem : a % b = (b - r) % b := by
      have hrw : a = (b - r) + b * (-((-a) / b) - 1) := by
        rw [← hr] at hdecomp
        linarith
      conv_lhs => rw [hrw]
      rw [Int.add_mul_emod_self_left]
    have htmr : a.tmod b = -r := by rw [htm0, hcm]
    rw [htmr, haem]
    rcases eq_or_lt_of_le hr0 with hz | hz
    · rw [← hz]
      simp
    · rw [if_pos (by omega), Int.emod_eq_of_lt (by omega) (by omega)]
      ring

/-- The correlation fold, rewritten as an indexed sum with the normalized
modulus (a reusable consequence of `corrIndex_eq_emod`). -/
theorem correlation_eq_sum (v1 : List ℝ) (mean1 std1 : ℝ) (v2 : List ℝ) (mean2 std2 : ℝ)
    (shift : ℤ) :
    correlation v1 mean1 std1 v2 mean2 std2 shift =
      (∑ i ∈ Finset.range v1.length,
        (v1.getD i 0 - mean1) *
          (v2.getD (((i : ℤ) - shift) % (v1.length : ℤ)).toNat 0 - mean2)) /
        (std1 * std2) := by
  unfold correlation
  dsimp only
  rw [foldl_add_eq_sum
    (fun i => (v1.getD i 0 - mean1) * (v2.getD (corrIndex v1.length i shift) 0 - mean2))
    (List.range v1.length) 0, zero_add, sum_map_range]
  rcases Nat.eq_zero_or_pos v1.length with h0 | hpos
  · rw [h0]
    simp
  · congr 1
    refine Finset.sum_congr rfl ?_
    intro i _
    rw [corrIndex_eq_emod _ _ _ hpos]

/-- C6: `correlation` computes exactly the spec's formula: the sum over
`i < N` of `(pcp[i] - pcpMean) * (profile[(i - shift) mod N] - profile.mean)`
divided by `pcpStdSum * profile.std`, with the modulus normalized to the
non-negative range, and with the mean the arithmetic mean and the std-sum
the root of the summed squared deviations (not divided by N). -/
theorem c6_correlation_formula :
    (∀ (v1 : List ℝ) (mean1 std1 : ℝ) (v2 : List ℝ) (mean2 std2 : ℝ) (shift : ℤ),
      correlation v1 mean1 std1 v2 mean2 std2 shift =
        (∑ i ∈ Finset.range v1.length,
          (v1.getD i 0 - mean1) *
            (v2.getD (((i : ℤ) - shift) % (v1.length : ℤ)).toNat 0 - mean2)) /
          (std1 * std2)) ∧
    (∀ (size i : ℕ) (shift : ℤ), 0 < size →
      corrIndex size i shift = (((i : ℤ) - shift) % (size : ℤ)).toNat) ∧
    (∀ v : List ℝ, listMean v = (∑ i ∈ Finset.range v.length, v.getD i 0) / v.length) ∧
    (∀ (v : List ℝ) (m : ℝ), stdSum v m =
      Real.sqrt (∑ i ∈ Finset.range v.length, (v.getD i 0 - m) * (v.getD i 0 - m))) :=
  ⟨correlation_eq_sum, fun size i shift h => corrIndex_eq_emod size i shift h,
    listMean_eq_sum, stdSum_eq_sum⟩

/-- Witness for C6's mod-normalization part at `size = 12`, `i = 3`,
`shift = 7`: the normalized index is `8`. -/
theorem c6_correlation_formula_witness :
    corrIndex 12 3 7 = ((((3 : ℕ) : ℤ) - 7) % ((12 : ℕ) : ℤ)).toNat ∧ corrIndex 12 3 7 = 8 := by
  exact ⟨c6_correlation_formula.2.1 12 3 7 (by norm_num), by decide⟩

/-! ## Claim C7: the profile interpolation -/

/-- C7: interpolation to `N = 12 * n` keeps every anchor
(`InterpolatedProfile[i*n] = template[i]`), fills position `i*n + j`
(for `1 ≤ j ≤ n-1`) with `template[i] - j * increment`, where
`increment = (template[i] - template[(i+1) mod 12]) / n`, and the cached mean
and std are the arithmetic mean and the root of the summed squared deviations
(no division by N). -/
theorem c7_interpolation (t : List ℝ) (n : ℕ) (hn : 0 < n) :
    (resizeProfile t (12 * n)).length = 12 * n ∧
    (∀ i : ℕ, i < 12 → (resizeProfile t (12 * n)).getD (i * n) 0 = t.getD i 0) ∧
    (∀ i j : ℕ, i < 12 → 1 ≤ j → j ≤ n - 1 →
      (resizeProfile t (12 * n)).getD (i * n + j) 0 =
        t.getD i 0 - j * ((t.getD i 0 - t.getD ((i + 1) % 12) 0) / n)) ∧
    (∀ v : List ℝ, listMean v = (∑ i ∈ Finset.range v.length, v.getD i 0) / v.length) ∧
    (∀ (v : List ℝ) (m : ℝ), stdSum v m =
      Real.sqrt (∑ i ∈ Finset.range v.length, (v.getD i 0 - m) * (v.getD i 0 - m))) := by
  refine ⟨resizeProfile_length t (12 * n), ?_, ?_, listMean_eq_sum, stdSum_eq_sum⟩
  · intro i hi
    rw [resizeProfile_getD t n (i * n) (by nlinarith), Nat.mul_div_cancel i hn,
      Nat.mul_mod_left]
    norm_num
  · intro i j hi hj1 hjn
    have hk : i * n + j < 12 * n := by
      have h1 : i * n ≤ 11 * n := Nat.mul_le_mul_right n (by omega)
      omega
    rw [resizeProfile_getD t n (i * n + j) hk]
    have hdiv : (i * n + j) / n = i := by
      rw [Nat.mul_comm i n, Nat.mul_add_div hn]
      have : j / n = 0 := Nat.div_eq_of_lt (by omega)
      omega
    have hmod : (i * n + j) % n = j := by
      rw [Nat.mul_comm i n, Nat.mul_add_mod]
      exact Nat.mod_eq_of_lt (by omega)
    rw [hdiv, hmod, interpIncr_mod t n i hi]

/-- Witness for C7 at the all-ones template with `n = 2`: anchors and
midpoints all equal 1. -/
theorem c7_interpolation_witness :
    (0 : ℕ) < 2 ∧
    (resizeProfile (List.replicate 12 (1 : ℝ)) (12 * 2)).length = 12 * 2 ∧
    (resizeProfile (List.replicate 12 (1 : ℝ)) (12 * 2)).getD (3 * 2) 0 =
      (List.replicate 12 (1 : ℝ)).getD 3 0 ∧
    (resizeProfile (List.replicate 12 (1 : ℝ)) (12 * 2)).getD (3 * 2 + 1) 0 =
      (List.replicate 12 (1 : ℝ)).getD 3 0 -
        (1 : ℕ) * (((List.replicate 12 (1 : ℝ)).getD 3 0 -
          (List.replicate 12 (1 : ℝ)).getD ((3 + 1) % 12) 0) / 2) := by
  have h := c7_interpolation (List.replicate 12 (1 : ℝ)) 2 (by norm_num)
  exact ⟨by norm_num, h.1, h.2.1 3 (by norm_num), h.2.2.1 3 1 (by norm_num) (by norm_num) (by norm_num)⟩

/-! ## Claim C4: the per-mode maximum tracking -/

/-- The code's tracking state and the spec's tracker agree step by step. -/
theorem foldl_scanStep_toProd (corr : ℤ → ℝ) :
    ∀ (l : List ℤ) (st : ScanState),
      ((l.foldl (scanStep corr) st).max, (l.foldl (scanStep corr) st).max2,
        (l.foldl (scanStep corr) st).keyIndex) =
      l.foldl (specTrackStep corr) (st.max, st.max2, st.keyIndex) := by
  intro l
  induction l with
  | nil => intro st; rfl
  | cons a t ih =>
    intro st
    rw [List.foldl_cons, List.foldl_cons, ih (scanStep corr st a)]
    congr 1
    unfold scanStep specTrackStep
    dsimp only
    split_ifs <;> rfl

/-- Summing the rotated profile reads over one full cycle of shifts gives the
plain sum of the profile: the map `s ↦ (i - s) mod N` permutes `[0, N)`. -/
theorem sum_rotated_reads (g : ℕ → ℝ) (N : ℕ) (hN : 0 < N) (i : ℕ) :
    ∑ s ∈ Finset.range N, g ((((i : ℤ) - (s : ℤ)) % (N : ℤ)).toNat) =
      ∑ j ∈ Finset.range N, g j := by
  have hb0 : (0 : ℤ) < (N : ℤ) := by exact_mod_cast hN
  refine Finset.sum_nbij' (fun s => (((i : ℤ) - (s : ℤ)) % (N : ℤ)).toNat)
    (fun j => (((i : ℤ) - (j : ℤ)) % (N : ℤ)).toNat) ?_ ?_ ?_ ?_ ?_
  · intro s _
    dsimp only
    refine Finset.mem_range.mpr ?_
    have h1 : ((i : ℤ) - (s : ℤ)) % (N : ℤ) < (N : ℤ) := Int.emod_lt_of_pos _ hb0
    have h2 : 0 ≤ ((i : ℤ) - (s : ℤ)) % (N : ℤ) := Int.emod_nonneg _ (ne_of_gt hb0)
    omega
  · intro j _
    dsimp only
    refine Finset.mem_range.mpr ?_
    have h1 : ((i : ℤ) - (j : ℤ)) % (N : ℤ) < (N : ℤ) := Int.emod_lt_of_pos _ hb0
    have h2 : 0 ≤ ((i : ℤ) - (j : ℤ)) % (N : ℤ) := Int.emod_nonneg _ (ne_of_gt hb0)
    omega
  · intro s hs
    dsimp only
    have hsN : (s : ℤ) < (N : ℤ) := by exact_mod_cast Finset.mem_range.mp hs
    have h2 : 0 ≤ ((i : ℤ) - (s : ℤ)) % (N : ℤ) := Int.emod_nonneg _ (ne_of_gt hb0)
    have hcast : ((((((i : ℤ) - (s : ℤ)) % (N : ℤ)).toNat : ℕ)) : ℤ) =
        ((i : ℤ) - (s : ℤ)) % (N : ℤ) := Int.toNat_of_nonneg h2
    have hinner : ((i : ℤ) - (((i : ℤ) - (s : ℤ)) % (N : ℤ))) % (N : ℤ) = (s : ℤ) := by
      conv_lhs => rw [Int.sub_emod, Int.emod_emod_of_dvd _ dvd_rfl]
      rw [← Int.sub_emod, sub_sub_cancel, Int.emod_eq_of_lt (by positivity) hsN]
    have : (((i : ℤ) - ((((i : ℤ) - (s : ℤ)) % (N : ℤ)).toNat : ℤ)) % (N : ℤ)).toNat = s := by
      rw [hcast, hinner]
      exact Int.toNat_ofNat s
    exact_mod_cast this
  · intro j hj
    dsimp only
    have hjN : (j : ℤ) < (N : ℤ) := by exact_mod_cast Finset.mem_range.mp hj
    have h2 : 0 ≤ ((i : ℤ) - (j : ℤ)) % (N : ℤ) := Int.emod_nonneg _ (ne_of_gt hb0)
    have hcast : ((((((i : ℤ) - (j : ℤ)) % (N : ℤ)).toNat : ℕ)) : ℤ) =
        ((i : ℤ) - (j : ℤ)) % (N : ℤ) := Int.toNat_of_nonneg h2
    have hinner : ((i : ℤ) - (((i : ℤ) - (j : ℤ)) % (N : ℤ))) % (N : ℤ) = (j : ℤ) := by
      conv_lhs => rw [Int.sub_emod, Int.emod_emod_of_dvd _ dvd_rfl]
      rw [← Int.sub_emod, sub_sub_cancel, Int.emod_eq_of_lt (by positivity) hjN]
    have : (((i : ℤ) - ((((i : ℤ) - (j : ℤ)) % (N : ℤ)).toNat : ℤ)) % (N : ℤ)).toNat = j := by
      rw [hcast, hinner]
      exact Int.toNat_ofNat j
    exact_mod_cast this
  · intro s _
    dsimp only

/-- The correlations of one mode over all shifts sum to zero: the
interpolated profile's deviations from its own mean sum to zero, and each
shift reads every profile position exactly once. -/
theorem sum_corr_shifts_zero (pcp prof : List ℝ) (hlen : 0 < pcp.length) :
    ∑ s ∈ Finset.range pcp.length, modeCorr pcp prof (s : ℤ) = 0 := by
  have hform := correlation_eq_sum
  have hrplen : (resizeProfile prof pcp.length).length = pcp.length :=
    resizeProfile_length prof pcp.length
  have hzero : ∀ i ∈ Finset.range pcp.length,
      (∑ s ∈ Finset.range pcp.length,
        (pcp.getD i 0 - listMean pcp) *
          ((resizeProfile prof pcp.length).getD (((i : ℤ) - (s : ℤ)) % (pcp.length : ℤ)).toNat 0 -
            listMean (resizeProfile prof pcp.length))) = 0 := by
    intro i _
    rw [← Finset.mul_sum, Finset.sum_sub_distrib]
    have hreads := sum_rotated_reads
      (fun j => (resizeProfile prof pcp.length).getD j 0) pcp.length hlen i
    rw [hreads]
    have hsum : ∑ j ∈ Finset.range pcp.length, (resizeProfile prof pcp.length).getD j 0 =
        (resizeProfile prof pcp.length).sum := by
      rw [sum_eq_sum_getD, hrplen]
    rw [hsum]
    have hmean : (listMean (resizeProfile prof pcp.length)) * (pcp.length : ℝ) =
        (resizeProfile prof pcp.length).sum := by
      unfold listMean
      rw [hrplen]
      field_simp
    rw [Finset.sum_const, Finset.card_range, nsmul_eq_mul]
    rw [show (pcp.length : ℝ) * listMean (resizeProfile prof pcp.length) =
      listMean (resizeProfile prof pcp.length) * (pcp.length : ℝ) by ring, hmean]
    ring
  calc ∑ s ∈ Finset.range pcp.length, modeCorr pcp prof (s : ℤ)
      = ∑ s ∈ Finset.range pcp.length,
          (∑ i ∈ Finset.range pcp.length,
            (pcp.getD i 0 - listMean pcp) *
              ((resizeProfile prof pcp.length).getD
                (((i : ℤ) - (s : ℤ)) % (pcp.length : ℤ)).toNat 0 -
                listMean (resizeProfile prof pcp.length))) /
            (stdSum pcp (listMean pcp) *
              stdSum (resizeProfile prof pcp.length) (listMean (resizeProfile prof pcp.length))) := by
        refine Finset.sum_congr rfl ?_
        intro s _
        unfold modeCorr
        dsimp only
        rw [hform]
    _ = (∑ s ∈ Finset.range pcp.length,
          ∑ i ∈ Finset.range pcp.length,
            (pcp.getD i 0 - listMean pcp) *
              ((resizeProfile prof pcp.length).getD
                (((i : ℤ) - (s : ℤ)) % (pcp.length : ℤ)).toNat 0 -
                listMean (resizeProfile prof pcp.length))) /
          (stdSum pcp (listMean pcp) *
            stdSum (resizeProfile prof pcp.length) (listMean (resizeProfile prof pcp.length))) := by
        rw [Finset.sum_div]
    _ = (∑ i ∈ Finset.range pcp.length,
          ∑ s ∈ Finset.range pcp.length,
            (pcp.getD i 0 - listMean pcp) *
              ((resizeProfile prof pcp.length).getD
                (((i : ℤ) - (s : ℤ)) % (pcp.length : ℤ)).toNat 0 -
                listMean (resizeProfile prof pcp.length))) /
          (stdSum pcp (listMean pcp) *
            stdSum (resizeProfile prof pcp.length) (listMean (resizeProfile prof pcp.length))) := by
        rw [Finset.sum_comm]
    _ = 0 := by
        rw [Finset.sum_congr rfl hzero, Finset.sum_const_zero, zero_div]

/-- Some shift attains a non-negative correlation (the shift-sum is zero). -/
theorem exists_corr_nonneg (pcp prof : List ℝ) (hlen : 0 < pcp.length) :
    ∃ s : ℕ, s < pcp.length ∧ 0 ≤ modeCorr pcp prof (s : ℤ) := by
  by_contra hcon
  push_neg at hcon
  have hneg : ∀ s ∈ Finset.range pcp.length, modeCorr pcp prof (s : ℤ) < 0 := by
    intro s hs
    exact hcon s (Finset.mem_range.mp hs)
  have hlt : ∑ s ∈ Finset.range pcp.length, modeCorr pcp prof (s : ℤ) < 0 :=
    Finset.sum_neg hneg ⟨0, Finset.mem_range.mpr hlen⟩
  rw [sum_corr_shifts_zero pcp prof hlen] at hlt
  exact lt_irrefl 0 hlt

/-- C4: the scan loop implements exactly the spec's tracking rule
(strictly-greater updates of a (max, secondMax, bestShift) triple), its
`maxScore` is an upper bound of all per-shift correlations and is attained
at `bestShiftIndex`, which lies in `[0, N)`. -/
theorem c4_scan_tracking :
    (∀ (corr : ℤ → ℝ) (N : ℕ),
      ((scanMode corr N).max, (scanMode corr N).max2, (scanMode corr N).keyIndex) =
        specTrack corr N) ∧
    (∀ (pcp prof : List ℝ), 0 < pcp.length →
      (∀ s : ℕ, s < pcp.length →
        modeCorr pcp prof (s : ℤ) ≤ (scanMode (modeCorr pcp prof) pcp.length).max) ∧
      modeCorr pcp prof (scanMode (modeCorr pcp prof) pcp.length).keyIndex =
        (scanMode (modeCorr pcp prof) pcp.length).max ∧
      0 ≤ (scanMode (modeCorr pcp prof) pcp.length).keyIndex ∧
      (scanMode (modeCorr pcp prof) pcp.length).keyIndex < (pcp.length : ℤ)) := by
  constructor
  · intro corr N
    unfold scanMode specTrack
    exact foldl_scanStep_toProd corr _ ⟨-1, -1, -1⟩
  · intro pcp prof hlen
    set corr := modeCorr pcp prof with hcorr
    have hub : ∀ s : ℕ, s < pcp.length →
        corr (s : ℤ) ≤ (scanMode corr pcp.length).max := by
      intro s hs
      unfold scanMode
      refine foldl_scanStep_ub corr _ _ _ ?_
      simp only [List.mem_map, List.mem_range]
      exact ⟨s, hs, rfl⟩
    obtain ⟨s0, hs0, hpos0⟩ := exists_corr_nonneg pcp prof hlen
    have hmax0 : 0 ≤ (scanMode corr pcp.length).max := le_trans hpos0 (hub s0 hs0)
    have hinv := foldl_scanStep_invariant corr (pcp.length : ℤ)
      ((List.range pcp.length).map (fun (i : ℕ) => (i : ℤ))) ⟨-1, -1, -1⟩
      (by
        intro s hs
        simp only [List.mem_map, List.mem_range] at hs
        obtain ⟨k, hk, rfl⟩ := hs
        exact ⟨Int.ofNat_nonneg k, by exact_mod_cast hk⟩)
      (Or.inl ⟨rfl, rfl⟩)
    rcases hinv with ⟨hm, _⟩ | ⟨hatt, hk0, hkN⟩
    · exfalso
      have : (scanMode corr pcp.length).max = -1 := hm
      rw [this] at hmax0
      norm_num at hmax0
    · exact ⟨hub, hatt, hk0, hkN⟩

/-- Witness for C4 at a constant PCP of length 12 against the temperley
major template. -/
theorem c4_scan_tracking_witness :
    0 < (List.replicate 12 (1 : ℝ)).length ∧
    (∀ s : ℕ, s < (List.replicate 12 (1 : ℝ)).length →
      modeCorr (List.replicate 12 (1 : ℝ)) temperleyM (s : ℤ) ≤
        (scanMode (modeCorr (List.replicate 12 (1 : ℝ)) temperleyM)
          (List.replicate 12 (1 : ℝ)).length).max) := by
  have h := c4_scan_tracking.2 (List.replicate 12 (1 : ℝ)) temperleyM (by norm_num)
  exact ⟨by norm_num, h.1⟩

/-! ## Claim C2 counterexample: an exact major/other tie for Key2 -/

theorem pcpTie_length : pcpTie.length = 12 := rfl

theorem bmtg2M_length : bmtg2M.length = 12 := rfl
theorem bmtg2m_length : bmtg2m.length = 12 := rfl
theorem bmtg2O_length : bmtg2O.length = 12 := rfl

theorem bmtg2M_getD_0 : bmtg2M.getD 0 0 = 1.00 := rfl
theorem bmtg2M_getD_1 : bmtg2M.getD 1 0 = 0.10 := rfl
theorem bmtg2M_getD_2 : bmtg2M.getD 2 0 = 0.42 := rfl
theorem bmtg2M_getD_3 : bmtg2M.getD 3 0 = 0.10 := rfl
theorem bmtg2M_getD_4 : bmtg2M.getD 4 0 = 0.53 := rfl
theorem bmtg2M_getD_5 : bmtg2M.getD 5 0 = 0.37 := rfl
theorem bmtg2M_getD_6 : bmtg2M.getD 6 0 = 0.10 := rfl
theorem bmtg2M_getD_7 : bmtg2M.getD 7 0 = 0.77 := rfl
theorem bmtg2M_getD_8 : bmtg2M.getD 8 0 = 0.10 := rfl
theorem bmtg2M_getD_9 : bmtg2M.getD 9 0 = 0.38 := rfl
theorem bmtg2M_getD_10 : bmtg2M.getD 10 0 = 0.21 := rfl
theorem bmtg2M_getD_11 : bmtg2M.getD 11 0 = 0.30 := rfl

theorem bmtg2m_getD_0 : bmtg2m.getD 0 0 = 1.00 := rfl
theorem bmtg2m_getD_1 : bmtg2m.getD 1 0 = 0.10 := rfl
theorem bmtg2m_getD_2 : bmtg2m.getD 2 0 = 0.36 := rfl
theorem bmtg2m_getD_3 : bmtg2m.getD 3 0 = 0.39 := rfl
theorem bmtg2m_getD_4 : bmtg2m.getD 4 0 = 0.29 := rfl
theorem bmtg2m_getD_5 : bmtg2m.getD 5 0 = 0.38 := rfl
theorem bmtg2m_getD_6 : bmtg2m.getD 6 0 = 0.10 := rfl
theorem bmtg2m_getD_7 : bmtg2m.getD 7 0 = 0.74 := rfl
theorem bmtg2m_getD_8 : bmtg2m.getD 8 0 = 0.27 := rfl
theorem bmtg2m_getD_9 : bmtg2m.getD 9 0 = 0.10 := rfl
theorem bmtg2m_getD_10 : bmtg2m.getD 10 0 = 0.42 := rfl
theorem bmtg2m_getD_11 : bmtg2m.getD 11 0 = 0.23 := rfl

theorem bmtg2O_getD_0 : bmtg2O.getD 0 0 = 1.00 := rfl
theorem bmtg2O_getD_1 : bmtg2O.getD 1 0 = 0.26 := rfl
theorem bmtg2O_getD_2 : bmtg2O.getD 2 0 = 0.35 := rfl
theorem bmtg2O_getD_3 : bmtg2O.getD 3 0 = 0.29 := rfl
theorem bmtg2O_getD_4 : bmtg2O.getD 4 0 = 0.44 := rfl
theorem bmtg2O_getD_5 : bmtg2O.getD 5 0 = 0.36 := rfl
theorem bmtg2O_getD_6 : bmtg2O.getD 6 0 = 0.21 := rfl
theorem bmtg2O_getD_7 : bmtg2O.getD 7 0 = 0.78 := rfl
theorem bmtg2O_getD_8 : bmtg2O.getD 8 0 = 0.26 := rfl
theorem bmtg2O_getD_9 : bmtg2O.getD 9 0 = 0.25 := rfl
theorem bmtg2O_getD_10 : bmtg2O.getD 10 0 = 0.32 := rfl
theorem bmtg2O_getD_11 : bmtg2O.getD 11 0 = 0.26 := rfl

theorem pcpTie_getD_0 : pcpTie.getD 0 0 = sigO2 * (127/200) + sigM2 * (361/600) + 2 := rfl
theorem pcpTie_getD_1 : pcpTie.getD 1 0 = sigO2 * (-53/200) + sigM2 * (-83/600) + 2 := rfl
theorem pcpTie_getD_2 : pcpTie.getD 2 0 = sigO2 * (11/200) + sigM2 * (-29/600) + 2 := rfl
theorem pcpTie_getD_3 : pcpTie.getD 3 0 = sigO2 * (-53/200) + sigM2 * (-13/120) + 2 := rfl
theorem pcpTie_getD_4 : pcpTie.getD 4 0 = sigO2 * (33/200) + sigM2 * (1/24) + 2 := rfl
theorem pcpTie_getD_5 : pcpTie.getD 5 0 = sigO2 * (1/200) + sigM2 * (-23/600) + 2 := rfl
theorem pcpTie_getD_6 : pcpTie.getD 6 0 = sigO2 * (-53/200) + sigM2 * (-113/600) + 2 := rfl
theorem pcpTie_getD_7 : pcpTie.getD 7 0 = sigO2 * (81/200) + sigM2 * (229/600) + 2 := rfl
theorem pcpTie_getD_8 : pcpTie.getD 8 0 = sigO2 * (-53/200) + sigM2 * (-83/600) + 2 := rfl
theorem pcpTie_getD_9 : pcpTie.getD 9 0 = sigO2 * (3/200) + sigM2 * (-89/600) + 2 := rfl
theorem pcpTie_getD_10 : pcpTie.getD 10 0 = sigO2 * (-31/200) + sigM2 * (-47/600) + 2 := rfl
theorem pcpTie_getD_11 : pcpTie.getD 11 0 = sigO2 * (-13/200) + sigM2 * (-83/600) + 2 := rfl

theorem bmtg2M_mean : listMean bmtg2M = (73/200) := by
  unfold listMean bmtg2M
  norm_num [List.sum_cons]

theorem bmtg2M_std : stdSum bmtg2M (73/200) = sigM2 := by
  unfold stdSum bmtg2M sigM2
  norm_num [List.map_cons, List.sum_cons]

theorem bmtg2m_mean : listMean bmtg2m = (73/200) := by
  unfold listMean bmtg2m
  norm_num [List.sum_cons]

theorem bmtg2m_std : stdSum bmtg2m (73/200) = sigm2 := by
  unfold stdSum bmtg2m sigm2
  norm_num [List.map_cons, List.sum_cons]

theorem bmtg2O_mean : listMean bmtg2O = (239/600) := by
  unfold listMean bmtg2O
  norm_num [List.sum_cons]

theorem bmtg2O_std : stdSum bmtg2O (239/600) = sigO2 := by
  unfold stdSum bmtg2O sigO2
  norm_num [List.map_cons, List.sum_cons]

theorem pcpTie_mean : listMean pcpTie = 2 := by
  unfold listMean
  rw [pcpTie_length]
  unfold pcpTie
  simp only [List.sum_cons, List.sum_nil]
  norm_num
  ring_nf

/-- Reduction of a pcpTie correlation to the indexed sum with resolved
means and stds. -/
theorem modeCorr_tie_eval (prof : List ℝ) (hp : prof.length = 12) (muX sigX : ℝ)
    (hmu : listMean prof = muX) (hsig : stdSum prof muX = sigX) (s : ℤ) :
    modeCorr pcpTie prof s =
      (∑ i ∈ Finset.range 12, (pcpTie.getD i 0 - 2) *
        (prof.getD (((i : ℤ) - s) % 12).toNat 0 - muX)) / (stdSum pcpTie 2 * sigX) := by
  unfold modeCorr
  dsimp only
  rw [pcpTie_length, resizeProfile_twelve prof hp, pcpTie_mean, hmu, hsig,
    correlation_eq_sum, pcpTie_length]
  norm_num

theorem corrTieM_0 : modeCorr pcpTie bmtg2M 0 =
    (((9069:ℝ)/10000) * sigO2 + ((1423:ℝ)/2000) * sigM2) / (stdSum pcpTie 2 * sigM2) := by
  rw [modeCorr_tie_eval bmtg2M bmtg2M_length (73/200) sigM2 bmtg2M_mean bmtg2M_std 0]
  simp only [Finset.sum_range_succ, Finset.sum_range_zero, Nat.cast_ofNat,
    Nat.cast_zero, Nat.cast_one, zero_add]
  rw [show ((((0:ℤ)) - 0) % 12).toNat = 0 from by decide,
    show ((((1:ℤ)) - 0) % 12).toNat = 1 from by decide,
    show ((((2:ℤ)) - 0) % 12).toNat = 2 from by decide,
    show ((((3:ℤ)) - 0) % 12).toNat = 3 from by decide,
    show ((((4:ℤ)) - 0) % 12).toNat = 4 from by decide,
    show ((((5:ℤ)) - 0) % 12).toNat = 5 from by decide,
    show ((((6:ℤ)) - 0) % 12).toNat = 6 from by decide,
    show ((((7:ℤ)) - 0) % 12).toNat = 7 from by decide,
    show ((((8:ℤ)) - 0) % 12).toNat = 8 from by decide,
    show ((((9:ℤ)) - 0) % 12).toNat = 9 from by decide,
    show ((((10:ℤ)) - 0) % 12).toNat = 10 from by decide,
    show ((((11:ℤ)) - 0) % 12).toNat = 11 from by decide]
  rw [pcpTie_getD_0, pcpTie_getD_1, pcpTie_getD_2, pcpTie_getD_3, pcpTie_getD_4, pcpTie_getD_5, pcpTie_getD_6, pcpTie_getD_7, pcpTie_getD_8, pcpTie_getD_9, pcpTie_getD_10, pcpTie_getD_11, bmtg2M_getD_0, bmtg2M_getD_1, bmtg2M_getD_2, bmtg2M_getD_3, bmtg2M_getD_4, bmtg2M_getD_5, bmtg2M_getD_6, bmtg2M_getD_7, bmtg2M_getD_8, bmtg2M_getD_9, bmtg2M_getD_10, bmtg2M_getD_11]
  congr 1
  ring

theorem corrTieM_1 : modeCorr pcpTie bmtg2M 1 =
    (((-2469:ℝ)/5000) * sigO2 + ((-59:ℝ)/250) * sigM2) / (stdSum pcpTie 2 * sigM2) := by
  rw [modeCorr_tie_eval bmtg2M bmtg2M_length (73/200) sigM2 bmtg2M_mean bmtg2M_std 1]
  simp only [Finset.sum_range_succ, Finset.sum_range_zero, Nat.cast_ofNat,
    Nat.cast_zero, Nat.cast_one, zero_add]
  rw [show ((((0:ℤ)) - 1) % 12).toNat = 11 from by decide,
    show ((((1:ℤ)) - 1) % 12).toNat = 0 from by decide,
    show ((((2:ℤ)) - 1) % 12).toNat = 1 from by decide,
    show ((((3:ℤ)) - 1) % 12).toNat = 2 from by decide,
    show ((((4:ℤ)) - 1) % 12).toNat = 3 from by decide,
    show ((((5:ℤ)) - 1) % 12).toNat = 4 from by decide,
    show ((((6:ℤ)) - 1) % 12).toNat = 5 from by decide,
    show ((((7:ℤ)) - 1) % 12).toNat = 6 from by decide,
    show ((((8:ℤ)) - 1) % 12).toNat = 7 from by decide,
    show ((((9:ℤ)) - 1) % 12).toNat = 8 from by decide,
    show ((((10:ℤ)) - 1) % 12).toNat = 9 from by decide,
    show ((((11:ℤ)) - 1) % 12).toNat = 10 from by decide]
  rw [pcpTie_getD_0, pcpTie_getD_1, pcpTie_getD_2, pcpTie_getD_3, pcpTie_getD_4, pcpTie_getD_5, pcpTie_getD_6, pcpTie_getD_7, pcpTie_getD_8, pcpTie_getD_9, pcpTie_getD_10, pcpTie_getD_11, bmtg2M_getD_0, bmtg2M_getD_1, bmtg2M_getD_2, bmtg2M_getD_3, bmtg2M_getD_4, bmtg2M_getD_5, bmtg2M_getD_6, bmtg2M_getD_7, bmtg2M_getD_8, bmtg2M_getD_9, bmtg2M_getD_10, bmtg2M_getD_11]
  congr 1
  ring

theorem corrTieM_2 : modeCorr pcpTie bmtg2M 2 =
    (((133:ℝ)/1250) * sigO2 + ((-1077:ℝ)/10000) * sigM2) / (stdSum pcpTie 2 * sigM2) := by
  rw [modeCorr_tie_eval bmtg2M bmtg2M_length (73/200) sigM2 bmtg2M_mean bmtg2M_std 2]
  simp only [Finset.sum_range_succ, Finset.sum_range_zero, Nat.cast_ofNat,
    Nat.cast_zero, Nat.cast_one, zero_add]
  rw [show ((((0:ℤ)) - 2) % 12).toNat = 10 from by decide,
    show ((((1:ℤ)) - 2) % 12).toNat = 11 from by decide,
    show ((((2:ℤ)) - 2) % 12).toNat = 0 from by decide,
    show ((((3:ℤ)) - 2) % 12).toNat = 1 from by decide,
    show ((((4:ℤ)) - 2) % 12).toNat = 2 from by decide,
    show ((((5:ℤ)) - 2) % 12).toNat = 3 from by decide,
    show ((((6:ℤ)) - 2) % 12).toNat = 4 from by decide,
    show ((((7:ℤ)) - 2) % 12).toNat = 5 from by decide,
    show ((((8:ℤ)) - 2) % 12).toNat = 6 from by decide,
    show ((((9:ℤ)) - 2) % 12).toNat = 7 from by decide,
    show ((((10:ℤ)) - 2) % 12).toNat = 8 from by decide,
    show ((((11:ℤ)) - 2) % 12).toNat = 9 from by decide]
  rw [pcpTie_getD_0, pcpTie_getD_1, pcpTie_getD_2, pcpTie_getD_3, pcpTie_getD_4, pcpTie_getD_5, pcpTie_getD_6, pcpTie_getD_7, pcpTie_getD_8, pcpTie_getD_9, pcpTie_getD_10, pcpTie_getD_11, bmtg2M_getD_0, bmtg2M_getD_1, bmtg2M_getD_2, bmtg2M_getD_3, bmtg2M_getD_4, bmtg2M_getD_5, bmtg2M_getD_6, bmtg2M_getD_7, bmtg2M_getD_8, bmtg2M_getD_9, bmtg2M_getD_10, bmtg2M_getD_11]
  congr 1
  ring

theorem corrTieM_3 : modeCorr pcpTie bmtg2M 3 =
    (((-157:ℝ)/2000) * sigO2 + ((1081:ℝ)/10000) * sigM2) / (stdSum pcpTie 2 * sigM2) := by
  rw [modeCorr_tie_eval bmtg2M bmtg2M_length (73/200) sigM2 bmtg2M_mean bmtg2M_std 3]
  simp only [Finset.sum_range_succ, Finset.sum_range_zero, Nat.cast_ofNat,
    Nat.cast_zero, Nat.cast_one, zero_add]
  rw [show ((((0:ℤ)) - 3) % 12).toNat = 9 from by decide,
    show ((((1:ℤ)) - 3) % 12).toNat = 10 from by decide,
    show ((((2:ℤ)) - 3) % 12).toNat = 11 from by decide,
    show ((((3:ℤ)) - 3) % 12).toNat = 0 from by decide,
    show ((((4:ℤ)) - 3) % 12).toNat = 1 from by decide,
    show ((((5:ℤ)) - 3) % 12).toNat = 2 from by decide,
    show ((((6:ℤ)) - 3) % 12).toNat = 3 from by decide,
    show ((((7:ℤ)) - 3) % 12).toNat = 4 from by decide,
    show ((((8:ℤ)) - 3) % 12).toNat = 5 from by decide,
    show ((((9:ℤ)) - 3) % 12).toNat = 6 from by decide,
    show ((((10:ℤ)) - 3) % 12).toNat = 7 from by decide,
    show ((((11:ℤ)) - 3) % 12).toNat = 8 from by decide]
  rw [pcpTie_getD_0, pcpTie_getD_1, pcpTie_getD_2, pcpTie_getD_3, pcpTie_getD_4, pcpTie_getD_5, pcpTie_getD_6, pcpTie_getD_7, pcpTie_getD_8, pcpTie_getD_9, pcpTie_getD_10, pcpTie_getD_11, bmtg2M_getD_0, bmtg2M_getD_1, bmtg2M_getD_2, bmtg2M_getD_3, bmtg2M_getD_4, bmtg2M_getD_5, bmtg2M_getD_6, bmtg2M_getD_7, bmtg2M_getD_8, bmtg2M_getD_9, bmtg2M_getD_10, bmtg2M_getD_11]
  congr 1
  ring

theorem corrTieM_4 : modeCorr pcpTie bmtg2M 4 =
    (((-2109:ℝ)/10000) * sigO2 + ((-2807:ℝ)/10000) * sigM2) / (stdSum pcpTie 2 * sigM2) := by
  rw [modeCorr_tie_eval bmtg2M bmtg2M_length (73/200) sigM2 bmtg2M_mean bmtg2M_std 4]
  simp only [Finset.sum_range_succ, Finset.sum_range_zero, Nat.cast_ofNat,
    Nat.cast_zero, Nat.cast_one, zero_add]
  rw [show ((((0:ℤ)) - 4) % 12).toNat = 8 from by decide,
    show ((((1:ℤ)) - 4) % 12).toNat = 9 from by decide,
    show ((((2:ℤ)) - 4) % 12).toNat = 10 from by decide,
    show ((((3:ℤ)) - 4) % 12).toNat = 11 from by decide,
    show ((((4:ℤ)) - 4) % 12).toNat = 0 from by decide,
    show ((((5:ℤ)) - 4) % 12).toNat = 1 from by decide,
    show ((((6:ℤ)) - 4) % 12).toNat = 2 from by decide,
    show ((((7:ℤ)) - 4) % 12).toNat = 3 from by decide,
    show ((((8:ℤ)) - 4) % 12).toNat = 4 from by decide,
    show ((((9:ℤ)) - 4) % 12).toNat = 5 from by decide,
    show ((((10:ℤ)) - 4) % 12).toNat = 6 from by decide,
    show ((((11:ℤ)) - 4) % 12).toNat = 7 from by decide]
  rw [pcpTie_getD_0, pcpTie_getD_1, pcpTie_getD_2, pcpTie_getD_3, pcpTie_getD_4, pcpTie_getD_5, pcpTie_getD_6, pcpTie_getD_7, pcpTie_getD_8, pcpTie_getD_9, pcpTie_getD_10, pcpTie_getD_11, bmtg2M_getD_0, bmtg2M_getD_1, bmtg2M_getD_2, bmtg2M_getD_3, bmtg2M_getD_4, bmtg2M_getD_5, bmtg2M_getD_6, bmtg2M_getD_7, bmtg2M_getD_8, bmtg2M_getD_9, bmtg2M_getD_10, bmtg2M_getD_11]
  congr 1
  ring

theorem corrTieM_5 : modeCorr pcpTie bmtg2M 5 =
    (((2717:ℝ)/5000) * sigO2 + ((3887:ℝ)/10000) * sigM2) / (stdSum pcpTie 2 * sigM2) := by
  rw [modeCorr_tie_eval bmtg2M bmtg2M_length (73/200) sigM2 bmtg2M_mean bmtg2M_std 5]
  simp only [Finset.sum_range_succ, Finset.sum_range_zero, Nat.cast_ofNat,
    Nat.cast_zero, Nat.cast_one, zero_add]
  rw [show ((((0:ℤ)) - 5) % 12).toNat = 7 from by decide,
    show ((((1:ℤ)) - 5) % 12).toNat = 8 from by decide,
    show ((((2:ℤ)) - 5) % 12).toNat = 9 from by decide,
    show ((((3:ℤ)) - 5) % 12).toNat = 10 from by decide,
    show ((((4:ℤ)) - 5) % 12).toNat = 11 from by decide,
    show ((((5:ℤ)) - 5) % 12).toNat = 0 from by decide,
    show ((((6:ℤ)) - 5) % 12).toNat = 1 from by decide,
    show ((((7:ℤ)) - 5) % 12).toNat = 2 from by decide,
    show ((((8:ℤ)) - 5) % 12).toNat = 3 from by decide,
    show ((((9:ℤ)) - 5) % 12).toNat = 4 from by decide,
    show ((((10:ℤ)) - 5) % 12).toNat = 5 from by decide,
    show ((((11:ℤ)) - 5) % 12).toNat = 6 from by decide]
  rw [pcpTie_getD_0, pcpTie_getD_1, pcpTie_getD_2, pcpTie_getD_3, pcpTie_getD_4, pcpTie_getD_5, pcpTie_getD_6, pcpTie_getD_7, pcpTie_getD_8, pcpTie_getD_9, pcpTie_getD_10, pcpTie_getD_11, bmtg2M_getD_0, bmtg2M_getD_1, bmtg2M_getD_2, bmtg2M_getD_3, bmtg2M_getD_4, bmtg2M_getD_5, bmtg2M_getD_6, bmtg2M_getD_7, bmtg2M_getD_8, bmtg2M_getD_9, bmtg2M_getD_10, bmtg2M_getD_11]
  congr 1
  ring

theorem corrTieM_6 : modeCorr pcpTie bmtg2M 6 =
    (((-6401:ℝ)/10000) * sigO2 + ((-4109:ℝ)/10000) * sigM2) / (stdSum pcpTie 2 * sigM2) := by
  rw [modeCorr_tie_eval bmtg2M bmtg2M_length (73/200) sigM2 bmtg2M_mean bmtg2M_std 6]
  simp only [Finset.sum_range_succ, Finset.sum_range_zero, Nat.cast_ofNat,
    Nat.cast_zero, Nat.cast_one, zero_add]
  rw [show ((((0:ℤ)) - 6) % 12).toNat = 6 from by decide,
    show ((((1:ℤ)) - 6) % 12).toNat = 7 from by decide,
    show ((((2:ℤ)) - 6) % 12).toNat = 8 from by decide,
    show ((((3:ℤ)) - 6) % 12).toNat = 9 from by decide,
    show ((((4:ℤ)) - 6) % 12).toNat = 10 from by decide,
    show ((((5:ℤ)) - 6) % 12).toNat = 11 from by decide,
    show ((((6:ℤ)) - 6) % 12).toNat = 0 from by decide,
    show ((((7:ℤ)) - 6) % 12).toNat = 1 from by decide,
    show ((((8:ℤ)) - 6) % 12).toNat = 2 from by decide,
    show ((((9:ℤ)) - 6) % 12).toNat = 3 from by decide,
    show ((((10:ℤ)) - 6) % 12).toNat = 4 from by decide,
    show ((((11:ℤ)) - 6) % 12).toNat = 5 from by decide]
  rw [pcpTie_getD_0, pcpTie_getD_1, pcpTie_getD_2, pcpTie_getD_3, pcpTie_getD_4, pcpTie_getD_5, pcpTie_getD_6, pcpTie_getD_7, pcpTie_getD_8, pcpTie_getD_9, pcpTie_getD_10, pcpTie_getD_11, bmtg2M_getD_0, bmtg2M_getD_1, bmtg2M_getD_2, bmtg2M_getD_3, bmtg2M_getD_4, bmtg2M_getD_5, bmtg2M_getD_6, bmtg2M_getD_7, bmtg2M_getD_8, bmtg2M_getD_9, bmtg2M_getD_10, bmtg2M_getD_11]
  congr 1
  ring

theorem corrTieM_7 : modeCorr pcpTie bmtg2M 7 =
    (((2717:ℝ)/5000) * sigO2 + ((841:ℝ)/2500) * sigM2) / (stdSum pcpTie 2 * sigM2) := by
  rw [modeCorr_tie_eval bmtg2M bmtg2M_length (73/200) sigM2 bmtg2M_mean bmtg2M_std 7]
  simp only [Finset.sum_range_succ, Finset.sum_range_zero, Nat.cast_ofNat,
    Nat.cast_zero, Nat.cast_one, zero_add]
  rw [show ((((0:ℤ)) - 7) % 12).toNat = 5 from by decide,
    show ((((1:ℤ)) - 7) % 12).toNat = 6 from by decide,
    show ((((2:ℤ)) - 7) % 12).toNat = 7 from by decide,
    show ((((3:ℤ)) - 7) % 12).toNat = 8 from by decide,
    show ((((4:ℤ)) - 7) % 12).toNat = 9 from by decide,
    show ((((5:ℤ)) - 7) % 12).toNat = 10 from by decide,
    show ((((6:ℤ)) - 7) % 12).toNat = 11 from by decide,
    show ((((7:ℤ)) - 7) % 12).toNat = 0 from by decide,
    show ((((8:ℤ)) - 7) % 12).toNat = 1 from by decide,
    show ((((9:ℤ)) - 7) % 12).toNat = 2 from by decide,
    show ((((10:ℤ)) - 7) % 12).toNat = 3 from by decide,
    show ((((11:ℤ)) - 7) % 12).toNat = 4 from by decide]
  rw [pcpTie_getD_0, pcpTie_getD_1, pcpTie_getD_2, pcpTie_getD_3, pcpTie_getD_4, pcpTie_getD_5, pcpTie_getD_6, pcpTie_getD_7, pcpTie_getD_8, pcpTie_getD_9, pcpTie_getD_10, pcpTie_getD_11, bmtg2M_getD_0, bmtg2M_getD_1, bmtg2M_getD_2, bmtg2M_getD_3, bmtg2M_getD_4, bmtg2M_getD_5, bmtg2M_getD_6, bmtg2M_getD_7, bmtg2M_getD_8, bmtg2M_getD_9, bmtg2M_getD_10, bmtg2M_getD_11]
  congr 1
  ring

theorem corrTieM_8 : modeCorr pcpTie bmtg2M 8 =
    (((-2109:ℝ)/10000) * sigO2 + ((441:ℝ)/10000) * sigM2) / (stdSum pcpTie 2 * sigM2) := by
  rw [modeCorr_tie_eval bmtg2M bmtg2M_length (73/200) sigM2 bmtg2M_mean bmtg2M_std 8]
  simp only [Finset.sum_range_succ, Finset.sum_range_zero, Nat.cast_ofNat,
    Nat.cast_zero, Nat.cast_one, zero_add]
  rw [show ((((0:ℤ)) - 8) % 12).toNat = 4 from by decide,
    show ((((1:ℤ)) - 8) % 12).toNat = 5 from by decide,
    show ((((2:ℤ)) - 8) % 12).toNat = 6 from by decide,
    show ((((3:ℤ)) - 8) % 12).toNat = 7 from by decide,
    show ((((4:ℤ)) - 8) % 12).toNat = 8 from by decide,
    show ((((5:ℤ)) - 8) % 12).toNat = 9 from by decide,
    show ((((6:ℤ)) - 8) % 12).toNat = 10 from by decide,
    show ((((7:ℤ)) - 8) % 12).toNat = 11 from by decide,
    show ((((8:ℤ)) - 8) % 12).toNat = 0 from by decide,
    show ((((9:ℤ)) - 8) % 12).toNat = 1 from by decide,
    show ((((10:ℤ)) - 8) % 12).toNat = 2 from by decide,
    show ((((11:ℤ)) - 8) % 12).toNat = 3 from by decide]
  rw [pcpTie_getD_0, pcpTie_getD_1, pcpTie_getD_2, pcpTie_getD_3, pcpTie_getD_4, pcpTie_getD_5, pcpTie_getD_6, pcpTie_getD_7, pcpTie_getD_8, pcpTie_getD_9, pcpTie_getD_10, pcpTie_getD_11, bmtg2M_getD_0, bmtg2M_getD_1, bmtg2M_getD_2, bmtg2M_getD_3, bmtg2M_getD_4, bmtg2M_getD_5, bmtg2M_getD_6, bmtg2M_getD_7, bmtg2M_getD_8, bmtg2M_getD_9, bmtg2M_getD_10, bmtg2M_getD_11]
  congr 1
  ring

theorem corrTieM_9 : modeCorr pcpTie bmtg2M 9 =
    (((-157:ℝ)/2000) * sigO2 + ((-163:ℝ)/625) * sigM2) / (stdSum pcpTie 2 * sigM2) := by
  rw [modeCorr_tie_eval bmtg2M bmtg2M_length (73/200) sigM2 bmtg2M_mean bmtg2M_std 9]
  simp only [Finset.sum_range_succ, Finset.sum_range_zero, Nat.cast_ofNat,
    Nat.cast_zero, Nat.cast_one, zero_add]
  rw [show ((((0:ℤ)) - 9) % 12).toNat = 3 from by decide,
    show ((((1:ℤ)) - 9) % 12).toNat = 4 from by decide,
    show ((((2:ℤ)) - 9) % 12).toNat = 5 from by decide,
    show ((((3:ℤ)) - 9) % 12).toNat = 6 from by decide,
    show ((((4:ℤ)) - 9) % 12).toNat = 7 from by decide,
    show ((((5:ℤ)) - 9) % 12).toNat = 8 from by decide,
    show ((((6:ℤ)) - 9) % 12).toNat = 9 from by decide,
    show ((((7:ℤ)) - 9) % 12).toNat = 10 from by decide,
    show ((((8:ℤ)) - 9) % 12).toNat = 11 from by decide,
    show ((((9:ℤ)) - 9) % 12).toNat = 0 from by decide,
    show ((((10:ℤ)) - 9) % 12).toNat = 1 from by decide,
    show ((((11:ℤ)) - 9) % 12).toNat = 2 from by decide]
  rw [pcpTie_getD_0, pcpTie_getD_1, pcpTie_getD_2, pcpTie_getD_3, pcpTie_getD_4, pcpTie_getD_5, pcpTie_getD_6, pcpTie_getD_7, pcpTie_getD_8, pcpTie_getD_9, pcpTie_getD_10, pcpTie_getD_11, bmtg2M_getD_0, bmtg2M_getD_1, bmtg2M_getD_2, bmtg2M_getD_3, bmtg2M_getD_4, bmtg2M_getD_5, bmtg2M_getD_6, bmtg2M_getD_7, bmtg2M_getD_8, bmtg2M_getD_9, bmtg2M_getD_10, bmtg2M_getD_11]
  congr 1
  ring

theorem corrTieM_10 : modeCorr pcpTie bmtg2M 10 =
    (((133:ℝ)/1250) * sigO2 + ((1083:ℝ)/10000) * sigM2) / (stdSum pcpTie 2 * sigM2) := by
  rw [modeCorr_tie_eval bmtg2M bmtg2M_length (73/200) sigM2 bmtg2M_mean bmtg2M_std 10]
  simp only [Finset.sum_range_succ, Finset.sum_range_zero, Nat.cast_ofNat,
    Nat.cast_zero, Nat.cast_one, zero_add]
  rw [show ((((0:ℤ)) - 10) % 12).toNat = 2 from by decide,
    show ((((1:ℤ)) - 10) % 12).toNat = 3 from by decide,
    show ((((2:ℤ)) - 10) % 12).toNat = 4 from by decide,
    show ((((3:ℤ)) - 10) % 12).toNat = 5 from by decide,
    show ((((4:ℤ)) - 10) % 12).toNat = 6 from by decide,
    show ((((5:ℤ)) - 10) % 12).toNat = 7 from by decide,
    show ((((6:ℤ)) - 10) % 12).toNat = 8 from by decide,
    show ((((7:ℤ)) - 10) % 12).toNat = 9 from by decide,
    show ((((8:ℤ)) - 10) % 12).toNat = 10 from by decide,
    show ((((9:ℤ)) - 10) % 12).toNat = 11 from by decide,
    show ((((10:ℤ)) - 10) % 12).toNat = 0 from by decide,
    show ((((11:ℤ)) - 10) % 12).toNat = 1 from by decide]
  rw [pcpTie_getD_0, pcpTie_getD_1, pcpTie_getD_2, pcpTie_getD_3, pcpTie_getD_4, pcpTie_getD_5, pcpTie_getD_6, pcpTie_getD_7, pcpTie_getD_8, pcpTie_getD_9, pcpTie_getD_10, pcpTie_getD_11, bmtg2M_getD_0, bmtg2M_getD_1, bmtg2M_getD_2, bmtg2M_getD_3, bmtg2M_getD_4, bmtg2M_getD_5, bmtg2M_getD_6, bmtg2M_getD_7, bmtg2M_getD_8, bmtg2M_getD_9, bmtg2M_getD_10, bmtg2M_getD_11]
  congr 1
  ring

theorem corrTieM_11 : modeCorr pcpTie bmtg2M 11 =
    (((-2469:ℝ)/5000) * sigO2 + ((-401:ℝ)/1000) * sigM2) / (stdSum pcpTie 2 * sigM2) := by
  rw [modeCorr_tie_eval bmtg2M bmtg2M_length (73/200) sigM2 bmtg2M_mean bmtg2M_std 11]
  simp only [Finset.sum_range_succ, Finset.sum_range_zero, Nat.cast_ofNat,
    Nat.cast_zero, Nat.cast_one, zero_add]
  rw [show ((((0:ℤ)) - 11) % 12).toNat = 1 from by decide,
    show ((((1:ℤ)) - 11) % 12).toNat = 2 from by decide,
    show ((((2:ℤ)) - 11) % 12).toNat = 3 from by decide,
    show ((((3:ℤ)) - 11) % 12).toNat = 4 from by decide,
    show ((((4:ℤ)) - 11) % 12).toNat = 5 from by decide,
    show ((((5:ℤ)) - 11) % 12).toNat = 6 from by decide,
    show ((((6:ℤ)) - 11) % 12).toNat = 7 from by decide,
    show ((((7:ℤ)) - 11) % 12).toNat = 8 from by decide,
    show ((((8:ℤ)) - 11) % 12).toNat = 9 from by decide,
    show ((((9:ℤ)) - 11) % 12).toNat = 10 from by decide,
    show ((((10:ℤ)) - 11) % 12).toNat = 11 from by decide,
    show ((((11:ℤ)) - 11) % 12).toNat = 0 from by decide]
  rw [pcpTie_getD_0, pcpTie_getD_1, pcpTie_getD_2, pcpTie_getD_3, pcpTie_getD_4, pcpTie_getD_5, pcpTie_getD_6, pcpTie_getD_7, pcpTie_getD_8, pcpTie_getD_9, pcpTie_getD_10, pcpTie_getD_11, bmtg2M_getD_0, bmtg2M_getD_1, bmtg2M_getD_2, bmtg2M_getD_3, bmtg2M_getD_4, bmtg2M_getD_5, bmtg2M_getD_6, bmtg2M_getD_7, bmtg2M_getD_8, bmtg2M_getD_9, bmtg2M_getD_10, bmtg2M_getD_11]
  congr 1
  ring

theorem corrTiem_0 : modeCorr pcpTie bmtg2m 0 =
    (((3489:ℝ)/5000) * sigO2 + ((1681:ℝ)/2500) * sigM2) / (stdSum pcpTie 2 * sigm2) := by
  rw [modeCorr_tie_eval bmtg2m bmtg2m_length (73/200) sigm2 bmtg2m_mean bmtg2m_std 0]
  simp only [Finset.sum_range_succ, Finset.sum_range_zero, Nat.cast_ofNat,
    Nat.cast_zero, Nat.cast_one, zero_add]
  rw [show ((((0:ℤ)) - 0) % 12).toNat = 0 from by decide,
    show ((((1:ℤ)) - 0) % 12).toNat = 1 from by decide,
    show ((((2:ℤ)) - 0) % 12).toNat = 2 from by decide,
    show ((((3:ℤ)) - 0) % 12).toNat = 3 from by decide,
    show ((((4:ℤ)) - 0) % 12).toNat = 4 from by decide,
    show ((((5:ℤ)) - 0) % 12).toNat = 5 from by decide,
    show ((((6:ℤ)) - 0) % 12).toNat = 6 from by decide,
    show ((((7:ℤ)) - 0) % 12).toNat = 7 from by decide,
    show ((((8:ℤ)) - 0) % 12).toNat = 8 from by decide,
    show ((((9:ℤ)) - 0) % 12).toNat = 9 from by decide,
    show ((((10:ℤ)) - 0) % 12).toNat = 10 from by decide,
    show ((((11:ℤ)) - 0) % 12).toNat = 11 from by decide]
  rw [pcpTie_getD_0, pcpTie_getD_1, pcpTie_getD_2, pcpTie_getD_3, pcpTie_getD_4, pcpTie_getD_5, pcpTie_getD_6, pcpTie_getD_7, pcpTie_getD_8, pcpTie_getD_9, pcpTie_getD_10, pcpTie_getD_11, bmtg2m_getD_0, bmtg2m_getD_1, bmtg2m_getD_2, bmtg2m_getD_3, bmtg2m_getD_4, bmtg2m_getD_5, bmtg2m_getD_6, bmtg2m_getD_7, bmtg2m_getD_8, bmtg2m_getD_9, bmtg2m_getD_10, bmtg2m_getD_11]
  congr 1
  ring

theorem corrTiem_1 : modeCorr pcpTie bmtg2m 1 =
    (((-4381:ℝ)/10000) * sigO2 + ((-701:ℝ)/2500) * sigM2) / (stdSum pcpTie 2 * sigm2) := by
  rw [modeCorr_tie_eval bmtg2m bmtg2m_length (73/200) sigm2 bmtg2m_mean bmtg2m_std 1]
  simp only [Finset.sum_range_succ, Finset.sum_range_zero, Nat.cast_ofNat,
    Nat.cast_zero, Nat.cast_one, zero_add]
  rw [show ((((0:ℤ)) - 1) % 12).toNat = 11 from by decide,
    show ((((1:ℤ)) - 1) % 12).toNat = 0 from by decide,
    show ((((2:ℤ)) - 1) % 12).toNat = 1 from by decide,
    show ((((3:ℤ)) - 1) % 12).toNat = 2 from by decide,
    show ((((4:ℤ)) - 1) % 12).toNat = 3 from by decide,
    show ((((5:ℤ)) - 1) % 12).toNat = 4 from by decide,
    show ((((6:ℤ)) - 1) % 12).toNat = 5 from by decide,
    show ((((7:ℤ)) - 1) % 12).toNat = 6 from by decide,
    show ((((8:ℤ)) - 1) % 12).toNat = 7 from by decide,
    show ((((9:ℤ)) - 1) % 12).toNat = 8 from by decide,
    show ((((10:ℤ)) - 1) % 12).toNat = 9 from by decide,
    show ((((11:ℤ)) - 1) % 12).toNat = 10 from by decide]
  rw [pcpTie_getD_0, pcpTie_getD_1, pcpTie_getD_2, pcpTie_getD_3, pcpTie_getD_4, pcpTie_getD_5, pcpTie_getD_6, pcpTie_getD_7, pcpTie_getD_8, pcpTie_getD_9, pcpTie_getD_10, pcpTie_getD_11, bmtg2m_getD_0, bmtg2m_getD_1, bmtg2m_getD_2, bmtg2m_getD_3, bmtg2m_getD_4, bmtg2m_getD_5, bmtg2m_getD_6, bmtg2m_getD_7, bmtg2m_getD_8, bmtg2m_getD_9, bmtg2m_getD_10, bmtg2m_getD_11]
  congr 1
  ring

theorem corrTiem_2 : modeCorr pcpTie bmtg2m 2 =
    (((3089:ℝ)/10000) * sigO2 + ((117:ℝ)/1250) * sigM2) / (stdSum pcpTie 2 * sigm2) := by
  rw [modeCorr_tie_eval bmtg2m bmtg2m_length (73/200) sigm2 bmtg2m_mean bmtg2m_std 2]
  simp only [Finset.sum_range_succ, Finset.sum_range_zero, Nat.cast_ofNat,
    Nat.cast_zero, Nat.cast_one, zero_add]
  rw [show ((((0:ℤ)) - 2) % 12).toNat = 10 from by decide,
    show ((((1:ℤ)) - 2) % 12).toNat = 11 from by decide,
    show ((((2:ℤ)) - 2) % 12).toNat = 0 from by decide,
    show ((((3:ℤ)) - 2) % 12).toNat = 1 from by decide,
    show ((((4:ℤ)) - 2) % 12).toNat = 2 from by decide,
    show ((((5:ℤ)) - 2) % 12).toNat = 3 from by decide,
    show ((((6:ℤ)) - 2) % 12).toNat = 4 from by decide,
    show ((((7:ℤ)) - 2) % 12).toNat = 5 from by decide,
    show ((((8:ℤ)) - 2) % 12).toNat = 6 from by decide,
    show ((((9:ℤ)) - 2) % 12).toNat = 7 from by decide,
    show ((((10:ℤ)) - 2) % 12).toNat = 8 from by decide,
    show ((((11:ℤ)) - 2) % 12).toNat = 9 from by decide]
  rw [pcpTie_getD_0, pcpTie_getD_1, pcpTie_getD_2, pcpTie_getD_3, pcpTie_getD_4, pcpTie_getD_5, pcpTie_getD_6, pcpTie_getD_7, pcpTie_getD_8, pcpTie_getD_9, pcpTie_getD_10, pcpTie_getD_11, bmtg2m_getD_0, bmtg2m_getD_1, bmtg2m_getD_2, bmtg2m_getD_3, bmtg2m_getD_4, bmtg2m_getD_5, bmtg2m_getD_6, bmtg2m_getD_7, bmtg2m_getD_8, bmtg2m_getD_9, bmtg2m_getD_10, bmtg2m_getD_11]
  congr 1
  ring

theorem corrTiem_3 : modeCorr pcpTie bmtg2m 3 =
    (((-312:ℝ)/625) * sigO2 + ((-101:ℝ)/400) * sigM2) / (stdSum pcpTie 2 * sigm2) := by
  rw [modeCorr_tie_eval bmtg2m bmtg2m_length (73/200) sigm2 bmtg2m_mean bmtg2m_std 3]
  simp only [Finset.sum_range_succ, Finset.sum_range_zero, Nat.cast_ofNat,
    Nat.cast_zero, Nat.cast_one, zero_add]
  rw [show ((((0:ℤ)) - 3) % 12).toNat = 9 from by decide,
    show ((((1:ℤ)) - 3) % 12).toNat = 10 from by decide,
    show ((((2:ℤ)) - 3) % 12).toNat = 11 from by decide,
    show ((((3:ℤ)) - 3) % 12).toNat = 0 from by decide,
    show ((((4:ℤ)) - 3) % 12).toNat = 1 from by decide,
    show ((((5:ℤ)) - 3) % 12).toNat = 2 from by decide,
    show ((((6:ℤ)) - 3) % 12).toNat = 3 from by decide,
    show ((((7:ℤ)) - 3) % 12).toNat = 4 from by decide,
    show ((((8:ℤ)) - 3) % 12).toNat = 5 from by decide,
    show ((((9:ℤ)) - 3) % 12).toNat = 6 from by decide,
    show ((((10:ℤ)) - 3) % 12).toNat = 7 from by decide,
    show ((((11:ℤ)) - 3) % 12).toNat = 8 from by decide]
  rw [pcpTie_getD_0, pcpTie_getD_1, pcpTie_getD_2, pcpTie_getD_3, pcpTie_getD_4, pcpTie_getD_5, pcpTie_getD_6, pcpTie_getD_7, pcpTie_getD_8, pcpTie_getD_9, pcpTie_getD_10, pcpTie_getD_11, bmtg2m_getD_0, bmtg2m_getD_1, bmtg2m_getD_2, bmtg2m_getD_3, bmtg2m_getD_4, bmtg2m_getD_5, bmtg2m_getD_6, bmtg2m_getD_7, bmtg2m_getD_8, bmtg2m_getD_9, bmtg2m_getD_10, bmtg2m_getD_11]
  congr 1
  ring

theorem corrTiem_4 : modeCorr pcpTie bmtg2m 4 =
    (((501:ℝ)/2500) * sigO2 + ((39:ℝ)/2500) * sigM2) / (stdSum pcpTie 2 * sigm2) := by
  rw [modeCorr_tie_eval bmtg2m bmtg2m_length (73/200) sigm2 bmtg2m_mean bmtg2m_std 4]
  simp only [Finset.sum_range_succ, Finset.sum_range_zero, Nat.cast_ofNat,
    Nat.cast_zero, Nat.cast_one, zero_add]
  rw [show ((((0:ℤ)) - 4) % 12).toNat = 8 from by decide,
    show ((((1:ℤ)) - 4) % 12).toNat = 9 from by decide,
    show ((((2:ℤ)) - 4) % 12).toNat = 10 from by decide,
    show ((((3:ℤ)) - 4) % 12).toNat = 11 from by decide,
    show ((((4:ℤ)) - 4) % 12).toNat = 0 from by decide,
    show ((((5:ℤ)) - 4) % 12).toNat = 1 from by decide,
    show ((((6:ℤ)) - 4) % 12).toNat = 2 from by decide,
    show ((((7:ℤ)) - 4) % 12).toNat = 3 from by decide,
    show ((((8:ℤ)) - 4) % 12).toNat = 4 from by decide,
    show ((((9:ℤ)) - 4) % 12).toNat = 5 from by decide,
    show ((((10:ℤ)) - 4) % 12).toNat = 6 from by decide,
    show ((((11:ℤ)) - 4) % 12).toNat = 7 from by decide]
  rw [pcpTie_getD_0, pcpTie_getD_1, pcpTie_getD_2, pcpTie_getD_3, pcpTie_getD_4, pcpTie_getD_5, pcpTie_getD_6, pcpTie_getD_7, pcpTie_getD_8, pcpTie_getD_9, pcpTie_getD_10, pcpTie_getD_11, bmtg2m_getD_0, bmtg2m_getD_1, bmtg2m_getD_2, bmtg2m_getD_3, bmtg2m_getD_4, bmtg2m_getD_5, bmtg2m_getD_6, bmtg2m_getD_7, bmtg2m_getD_8, bmtg2m_getD_9, bmtg2m_getD_10, bmtg2m_getD_11]
  congr 1
  ring

theorem corrTiem_5 : modeCorr pcpTie bmtg2m 5 =
    (((363:ℝ)/1250) * sigO2 + ((767:ℝ)/2500) * sigM2) / (stdSum pcpTie 2 * sigm2) := by
  rw [modeCorr_tie_eval bmtg2m bmtg2m_length (73/200) sigm2 bmtg2m_mean bmtg2m_std 5]
  simp only [Finset.sum_range_succ, Finset.sum_range_zero, Nat.cast_ofNat,
    Nat.cast_zero, Nat.cast_one, zero_add]
  rw [show ((((0:ℤ)) - 5) % 12).toNat = 7 from by decide,
    show ((((1:ℤ)) - 5) % 12).toNat = 8 from by decide,
    show ((((2:ℤ)) - 5) % 12).toNat = 9 from by decide,
    show ((((3:ℤ)) - 5) % 12).toNat = 10 from by decide,
    show ((((4:ℤ)) - 5) % 12).toNat = 11 from by decide,
    show ((((5:ℤ)) - 5) % 12).toNat = 0 from by decide,
    show ((((6:ℤ)) - 5) % 12).toNat = 1 from by decide,
    show ((((7:ℤ)) - 5) % 12).toNat = 2 from by decide,
    show ((((8:ℤ)) - 5) % 12).toNat = 3 from by decide,
    show ((((9:ℤ)) - 5) % 12).toNat = 4 from by decide,
    show ((((10:ℤ)) - 5) % 12).toNat = 5 from by decide,
    show ((((11:ℤ)) - 5) % 12).toNat = 6 from by decide]
  rw [pcpTie_getD_0, pcpTie_getD_1, pcpTie_getD_2, pcpTie_getD_3, pcpTie_getD_4, pcpTie_getD_5, pcpTie_getD_6, pcpTie_getD_7, pcpTie_getD_8, pcpTie_getD_9, pcpTie_getD_10, pcpTie_getD_11, bmtg2m_getD_0, bmtg2m_getD_1, bmtg2m_getD_2, bmtg2m_getD_3, bmtg2m_getD_4, bmtg2m_getD_5, bmtg2m_getD_6, bmtg2m_getD_7, bmtg2m_getD_8, bmtg2m_getD_9, bmtg2m_getD_10, bmtg2m_getD_11]
  congr 1
  ring

theorem corrTiem_6 : modeCorr pcpTie bmtg2m 6 =
    (((-183:ℝ)/400) * sigO2 + ((-781:ℝ)/2000) * sigM2) / (stdSum pcpTie 2 * sigm2) := by
  rw [modeCorr_tie_eval bmtg2m bmtg2m_length (73/200) sigm2 bmtg2m_mean bmtg2m_std 6]
  simp only [Finset.sum_range_succ, Finset.sum_range_zero, Nat.cast_ofNat,
    Nat.cast_zero, Nat.cast_one, zero_add]
  rw [show ((((0:ℤ)) - 6) % 12).toNat = 6 from by decide,
    show ((((1:ℤ)) - 6) % 12).toNat = 7 from by decide,
    show ((((2:ℤ)) - 6) % 12).toNat = 8 from by decide,
    show ((((3:ℤ)) - 6) % 12).toNat = 9 from by decide,
    show ((((4:ℤ)) - 6) % 12).toNat = 10 from by decide,
    show ((((5:ℤ)) - 6) % 12).toNat = 11 from by decide,
    show ((((6:ℤ)) - 6) % 12).toNat = 0 from by decide,
    show ((((7:ℤ)) - 6) % 12).toNat = 1 from by decide,
    show ((((8:ℤ)) - 6) % 12).toNat = 2 from by decide,
    show ((((9:ℤ)) - 6) % 12).toNat = 3 from by decide,
    show ((((10:ℤ)) - 6) % 12).toNat = 4 from by decide,
    show ((((11:ℤ)) - 6) % 12).toNat = 5 from by decide]
  rw [pcpTie_getD_0, pcpTie_getD_1, pcpTie_getD_2, pcpTie_getD_3, pcpTie_getD_4, pcpTie_getD_5, pcpTie_getD_6, pcpTie_getD_7, pcpTie_getD_8, pcpTie_getD_9, pcpTie_getD_10, pcpTie_getD_11, bmtg2m_getD_0, bmtg2m_getD_1, bmtg2m_getD_2, bmtg2m_getD_3, bmtg2m_getD_4, bmtg2m_getD_5, bmtg2m_getD_6, bmtg2m_getD_7, bmtg2m_getD_8, bmtg2m_getD_9, bmtg2m_getD_10, bmtg2m_getD_11]
  congr 1
  ring

theorem corrTiem_7 : modeCorr pcpTie bmtg2m 7 =
    (((2231:ℝ)/5000) * sigO2 + ((3383:ℝ)/10000) * sigM2) / (stdSum pcpTie 2 * sigm2) := by
  rw [modeCorr_tie_eval bmtg2m bmtg2m_length (73/200) sigm2 bmtg2m_mean bmtg2m_std 7]
  simp only [Finset.sum_range_succ, Finset.sum_range_zero, Nat.cast_ofNat,
    Nat.cast_zero, Nat.cast_one, zero_add]
  rw [show ((((0:ℤ)) - 7) % 12).toNat = 5 from by decide,
    show ((((1:ℤ)) - 7) % 12).toNat = 6 from by decide,
    show ((((2:ℤ)) - 7) % 12).toNat = 7 from by decide,
    show ((((3:ℤ)) - 7) % 12).toNat = 8 from by decide,
    show ((((4:ℤ)) - 7) % 12).toNat = 9 from by decide,
    show ((((5:ℤ)) - 7) % 12).toNat = 10 from by decide,
    show ((((6:ℤ)) - 7) % 12).toNat = 11 from by decide,
    show ((((7:ℤ)) - 7) % 12).toNat = 0 from by decide,
    show ((((8:ℤ)) - 7) % 12).toNat = 1 from by decide,
    show ((((9:ℤ)) - 7) % 12).toNat = 2 from by decide,
    show ((((10:ℤ)) - 7) % 12).toNat = 3 from by decide,
    show ((((11:ℤ)) - 7) % 12).toNat = 4 from by decide]
  rw [pcpTie_getD_0, pcpTie_getD_1, pcpTie_getD_2, pcpTie_getD_3, pcpTie_getD_4, pcpTie_getD_5, pcpTie_getD_6, pcpTie_getD_7, pcpTie_getD_8, pcpTie_getD_9, pcpTie_getD_10, pcpTie_getD_11, bmtg2m_getD_0, bmtg2m_getD_1, bmtg2m_getD_2, bmtg2m_getD_3, bmtg2m_getD_4, bmtg2m_getD_5, bmtg2m_getD_6, bmtg2m_getD_7, bmtg2m_getD_8, bmtg2m_getD_9, bmtg2m_getD_10, bmtg2m_getD_11]
  congr 1
  ring

theorem corrTiem_8 : modeCorr pcpTie bmtg2m 8 =
    (((-4249:ℝ)/10000) * sigO2 + ((-1823:ℝ)/10000) * sigM2) / (stdSum pcpTie 2 * sigm2) := by
  rw [modeCorr_tie_eval bmtg2m bmtg2m_length (73/200) sigm2 bmtg2m_mean bmtg2m_std 8]
  simp only [Finset.sum_range_succ, Finset.sum_range_zero, Nat.cast_ofNat,
    Nat.cast_zero, Nat.cast_one, zero_add]
  rw [show ((((0:ℤ)) - 8) % 12).toNat = 4 from by decide,
    show ((((1:ℤ)) - 8) % 12).toNat = 5 from by decide,
    show ((((2:ℤ)) - 8) % 12).toNat = 6 from by decide,
    show ((((3:ℤ)) - 8) % 12).toNat = 7 from by decide,
    show ((((4:ℤ)) - 8) % 12).toNat = 8 from by decide,
    show ((((5:ℤ)) - 8) % 12).toNat = 9 from by decide,
    show ((((6:ℤ)) - 8) % 12).toNat = 10 from by decide,
    show ((((7:ℤ)) - 8) % 12).toNat = 11 from by decide,
    show ((((8:ℤ)) - 8) % 12).toNat = 0 from by decide,
    show ((((9:ℤ)) - 8) % 12).toNat = 1 from by decide,
    show ((((10:ℤ)) - 8) % 12).toNat = 2 from by decide,
    show ((((11:ℤ)) - 8) % 12).toNat = 3 from by decide]
  rw [pcpTie_getD_0, pcpTie_getD_1, pcpTie_getD_2, pcpTie_getD_3, pcpTie_getD_4, pcpTie_getD_5, pcpTie_getD_6, pcpTie_getD_7, pcpTie_getD_8, pcpTie_getD_9, pcpTie_getD_10, pcpTie_getD_11, bmtg2m_getD_0, bmtg2m_getD_1, bmtg2m_getD_2, bmtg2m_getD_3, bmtg2m_getD_4, bmtg2m_getD_5, bmtg2m_getD_6, bmtg2m_getD_7, bmtg2m_getD_8, bmtg2m_getD_9, bmtg2m_getD_10, bmtg2m_getD_11]
  congr 1
  ring

theorem corrTiem_9 : modeCorr pcpTie bmtg2m 9 =
    (((1737:ℝ)/5000) * sigO2 + ((179:ℝ)/2000) * sigM2) / (stdSum pcpTie 2 * sigm2) := by
  rw [modeCorr_tie_eval bmtg2m bmtg2m_length (73/200) sigm2 bmtg2m_mean bmtg2m_std 9]
  simp only [Finset.sum_range_succ, Finset.sum_range_zero, Nat.cast_ofNat,
    Nat.cast_zero, Nat.cast_one, zero_add]
  rw [show ((((0:ℤ)) - 9) % 12).toNat = 3 from by decide,
    show ((((1:ℤ)) - 9) % 12).toNat = 4 from by decide,
    show ((((2:ℤ)) - 9) % 12).toNat = 5 from by decide,
    show ((((3:ℤ)) - 9) % 12).toNat = 6 from by decide,
    show ((((4:ℤ)) - 9) % 12).toNat = 7 from by decide,
    show ((((5:ℤ)) - 9) % 12).toNat = 8 from by decide,
    show ((((6:ℤ)) - 9) % 12).toNat = 9 from by decide,
    show ((((7:ℤ)) - 9) % 12).toNat = 10 from by decide,
    show ((((8:ℤ)) - 9) % 12).toNat = 11 from by decide,
    show ((((9:ℤ)) - 9) % 12).toNat = 0 from by decide,
    show ((((10:ℤ)) - 9) % 12).toNat = 1 from by decide,
    show ((((11:ℤ)) - 9) % 12).toNat = 2 from by decide]
  rw [pcpTie_getD_0, pcpTie_getD_1, pcpTie_getD_2, pcpTie_getD_3, pcpTie_getD_4, pcpTie_getD_5, pcpTie_getD_6, pcpTie_getD_7, pcpTie_getD_8, pcpTie_getD_9, pcpTie_getD_10, pcpTie_getD_11, bmtg2m_getD_0, bmtg2m_getD_1, bmtg2m_getD_2, bmtg2m_getD_3, bmtg2m_getD_4, bmtg2m_getD_5, bmtg2m_getD_6, bmtg2m_getD_7, bmtg2m_getD_8, bmtg2m_getD_9, bmtg2m_getD_10, bmtg2m_getD_11]
  congr 1
  ring

theorem corrTiem_10 : modeCorr pcpTie bmtg2m 10 =
    (((-2397:ℝ)/10000) * sigO2 + ((-569:ℝ)/5000) * sigM2) / (stdSum pcpTie 2 * sigm2) := by
  rw [modeCorr_tie_eval bmtg2m bmtg2m_length (73/200) sigm2 bmtg2m_mean bmtg2m_std 10]
  simp only [Finset.sum_range_succ, Finset.sum_range_zero, Nat.cast_ofNat,
    Nat.cast_zero, Nat.cast_one, zero_add]
  rw [show ((((0:ℤ)) - 10) % 12).toNat = 2 from by decide,
    show ((((1:ℤ)) - 10) % 12).toNat = 3 from by decide,
    show ((((2:ℤ)) - 10) % 12).toNat = 4 from by decide,
    show ((((3:ℤ)) - 10) % 12).toNat = 5 from by decide,
    show ((((4:ℤ)) - 10) % 12).toNat = 6 from by decide,
    show ((((5:ℤ)) - 10) % 12).toNat = 7 from by decide,
    show ((((6:ℤ)) - 10) % 12).toNat = 8 from by decide,
    show ((((7:ℤ)) - 10) % 12).toNat = 9 from by decide,
    show ((((8:ℤ)) - 10) % 12).toNat = 10 from by decide,
    show ((((9:ℤ)) - 10) % 12).toNat = 11 from by decide,
    show ((((10:ℤ)) - 10) % 12).toNat = 0 from by decide,
    show ((((11:ℤ)) - 10) % 12).toNat = 1 from by decide]
  rw [pcpTie_getD_0, pcpTie_getD_1, pcpTie_getD_2, pcpTie_getD_3, pcpTie_getD_4, pcpTie_getD_5, pcpTie_getD_6, pcpTie_getD_7, pcpTie_getD_8, pcpTie_getD_9, pcpTie_getD_10, pcpTie_getD_11, bmtg2m_getD_0, bmtg2m_getD_1, bmtg2m_getD_2, bmtg2m_getD_3, bmtg2m_getD_4, bmtg2m_getD_5, bmtg2m_getD_6, bmtg2m_getD_7, bmtg2m_getD_8, bmtg2m_getD_9, bmtg2m_getD_10, bmtg2m_getD_11]
  congr 1
  ring

theorem corrTiem_11 : modeCorr pcpTie bmtg2m 11 =
    (((-2317:ℝ)/10000) * sigO2 + ((-2967:ℝ)/10000) * sigM2) / (stdSum pcpTie 2 * sigm2) := by
  rw [modeCorr_tie_eval bmtg2m bmtg2m_length (73/200) sigm2 bmtg2m_mean bmtg2m_std 11]
  simp only [Finset.sum_range_succ, Finset.sum_range_zero, Nat.cast_ofNat,
    Nat.cast_zero, Nat.cast_one, zero_add]
  rw [show ((((0:ℤ)) - 11) % 12).toNat = 1 from by decide,
    show ((((1:ℤ)) - 11) % 12).toNat = 2 from by decide,
    show ((((2:ℤ)) - 11) % 12).toNat = 3 from by decide,
    show ((((3:ℤ)) - 11) % 12).toNat = 4 from by decide,
    show ((((4:ℤ)) - 11) % 12).toNat = 5 from by decide,
    show ((((5:ℤ)) - 11) % 12).toNat = 6 from by decide,
    show ((((6:ℤ)) - 11) % 12).toNat = 7 from by decide,
    show ((((7:ℤ)) - 11) % 12).toNat = 8 from by decide,
    show ((((8:ℤ)) - 11) % 12).toNat = 9 from by decide,
    show ((((9:ℤ)) - 11) % 12).toNat = 10 from by decide,
    show ((((10:ℤ)) - 11) % 12).toNat = 11 from by decide,
    show ((((11:ℤ)) - 11) % 12).toNat = 0 from by decide]
  rw [pcpTie_getD_0, pcpTie_getD_1, pcpTie_getD_2, pcpTie_getD_3, pcpTie_getD_4, pcpTie_getD_5, pcpTie_getD_6, pcpTie_getD_7, pcpTie_getD_8, pcpTie_getD_9, pcpTie_getD_10, pcpTie_getD_11, bmtg2m_getD_0, bmtg2m_getD_1, bmtg2m_getD_2, bmtg2m_getD_3, bmtg2m_getD_4, bmtg2m_getD_5, bmtg2m_getD_6, bmtg2m_getD_7, bmtg2m_getD_8, bmtg2m_getD_9, bmtg2m_getD_10, bmtg2m_getD_11]
  congr 1
  ring

theorem corrTieO_0 : modeCorr pcpTie bmtg2O 0 =
    (((1423:ℝ)/2000) * sigO2 + ((19379:ℝ)/30000) * sigM2) / (stdSum pcpTie 2 * sigO2) := by
  rw [modeCorr_tie_eval bmtg2O bmtg2O_length (239/600) sigO2 bmtg2O_mean bmtg2O_std 0]
  simp only [Finset.sum_range_succ, Finset.sum_range_zero, Nat.cast_ofNat,
    Nat.cast_zero, Nat.cast_one, zero_add]
  rw [show ((((0:ℤ)) - 0) % 12).toNat = 0 from by decide,
    show ((((1:ℤ)) - 0) % 12).toNat = 1 from by decide,
    show ((((2:ℤ)) - 0) % 12).toNat = 2 from by decide,
    show ((((3:ℤ)) - 0) % 12).toNat = 3 from by decide,
    show ((((4:ℤ)) - 0) % 12).toNat = 4 from by decide,
    show ((((5:ℤ)) - 0) % 12).toNat = 5 from by decide,
    show ((((6:ℤ)) - 0) % 12).toNat = 6 from by decide,
    show ((((7:ℤ)) - 0) % 12).toNat = 7 from by decide,
    show ((((8:ℤ)) - 0) % 12).toNat = 8 from by decide,
    show ((((9:ℤ)) - 0) % 12).toNat = 9 from by decide,
    show ((((10:ℤ)) - 0) % 12).toNat = 10 from by decide,
    show ((((11:ℤ)) - 0) % 12).toNat = 11 from by decide]
  rw [pcpTie_getD_0, pcpTie_getD_1, pcpTie_getD_2, pcpTie_getD_3, pcpTie_getD_4, pcpTie_getD_5, pcpTie_getD_6, pcpTie_getD_7, pcpTie_getD_8, pcpTie_getD_9, pcpTie_getD_10, pcpTie_getD_11, bmtg2O_getD_0, bmtg2O_getD_1, bmtg2O_getD_2, bmtg2O_getD_3, bmtg2O_getD_4, bmtg2O_getD_5, bmtg2O_getD_6, bmtg2O_getD_7, bmtg2O_getD_8, bmtg2O_getD_9, bmtg2O_getD_10, bmtg2O_getD_11]
  congr 1
  ring

theorem corrTieO_1 : modeCorr pcpTie bmtg2O 1 =
    (((-401:ℝ)/1000) * sigO2 + ((-3527:ℝ)/15000) * sigM2) / (stdSum pcpTie 2 * sigO2) := by
  rw [modeCorr_tie_eval bmtg2O bmtg2O_length (239/600) sigO2 bmtg2O_mean bmtg2O_std 1]
  simp only [Finset.sum_range_succ, Finset.sum_range_zero, Nat.cast_ofNat,
    Nat.cast_zero, Nat.cast_one, zero_add]
  rw [show ((((0:ℤ)) - 1) % 12).toNat = 11 from by decide,
    show ((((1:ℤ)) - 1) % 12).toNat = 0 from by decide,
    show ((((2:ℤ)) - 1) % 12).toNat = 1 from by decide,
    show ((((3:ℤ)) - 1) % 12).toNat = 2 from by decide,
    show ((((4:ℤ)) - 1) % 12).toNat = 3 from by decide,
    show ((((5:ℤ)) - 1) % 12).toNat = 4 from by decide,
    show ((((6:ℤ)) - 1) % 12).toNat = 5 from by decide,
    show ((((7:ℤ)) - 1) % 12).toNat = 6 from by decide,
    show ((((8:ℤ)) - 1) % 12).toNat = 7 from by decide,
    show ((((9:ℤ)) - 1) % 12).toNat = 8 from by decide,
    show ((((10:ℤ)) - 1) % 12).toNat = 9 from by decide,
    show ((((11:ℤ)) - 1) % 12).toNat = 10 from by decide]
  rw [pcpTie_getD_0, pcpTie_getD_1, pcpTie_getD_2, pcpTie_getD_3, pcpTie_getD_4, pcpTie_getD_5, pcpTie_getD_6, pcpTie_getD_7, pcpTie_getD_8, pcpTie_getD_9, pcpTie_getD_10, pcpTie_getD_11, bmtg2O_getD_0, bmtg2O_getD_1, bmtg2O_getD_2, bmtg2O_getD_3, bmtg2O_getD_4, bmtg2O_getD_5, bmtg2O_getD_6, bmtg2O_getD_7, bmtg2O_getD_8, bmtg2O_getD_9, bmtg2O_getD_10, bmtg2O_getD_11]
  congr 1
  ring

theorem corrTieO_2 : modeCorr pcpTie bmtg2O 2 =
    (((1083:ℝ)/10000) * sigO2 + ((-1849:ℝ)/30000) * sigM2) / (stdSum pcpTie 2 * sigO2) := by
  rw [modeCorr_tie_eval bmtg2O bmtg2O_length (239/600) sigO2 bmtg2O_mean bmtg2O_std 2]
  simp only [Finset.sum_range_succ, Finset.sum_range_zero, Nat.cast_ofNat,
    Nat.cast_zero, Nat.cast_one, zero_add]
  rw [show ((((0:ℤ)) - 2) % 12).toNat = 10 from by decide,
    show ((((1:ℤ)) - 2) % 12).toNat = 11 from by decide,
    show ((((2:ℤ)) - 2) % 12).toNat = 0 from by decide,
    show ((((3:ℤ)) - 2) % 12).toNat = 1 from by decide,
    show ((((4:ℤ)) - 2) % 12).toNat = 2 from by decide,
    show ((((5:ℤ)) - 2) % 12).toNat = 3 from by decide,
    show ((((6:ℤ)) - 2) % 12).toNat = 4 from by decide,
    show ((((7:ℤ)) - 2) % 12).toNat = 5 from by decide,
    show ((((8:ℤ)) - 2) % 12).toNat = 6 from by decide,
    show ((((9:ℤ)) - 2) % 12).toNat = 7 from by decide,
    show ((((10:ℤ)) - 2) % 12).toNat = 8 from by decide,
    show ((((11:ℤ)) - 2) % 12).toNat = 9 from by decide]
  rw [pcpTie_getD_0, pcpTie_getD_1, pcpTie_getD_2, pcpTie_getD_3, pcpTie_getD_4, pcpTie_getD_5, pcpTie_getD_6, pcpTie_getD_7, pcpTie_getD_8, pcpTie_getD_9, pcpTie_getD_10, pcpTie_getD_11, bmtg2O_getD_0, bmtg2O_getD_1, bmtg2O_getD_2, bmtg2O_getD_3, bmtg2O_getD_4, bmtg2O_getD_5, bmtg2O_getD_6, bmtg2O_getD_7, bmtg2O_getD_8, bmtg2O_getD_9, bmtg2O_getD_10, bmtg2O_getD_11]
  congr 1
  ring

theorem corrTieO_3 : modeCorr pcpTie bmtg2O 3 =
    (((-163:ℝ)/625) * sigO2 + ((-2461:ℝ)/30000) * sigM2) / (stdSum pcpTie 2 * sigO2) := by
  rw [modeCorr_tie_eval bmtg2O bmtg2O_length (239/600) sigO2 bmtg2O_mean bmtg2O_std 3]
  simp only [Finset.sum_range_succ, Finset.sum_range_zero, Nat.cast_ofNat,
    Nat.cast_zero, Nat.cast_one, zero_add]
  rw [show ((((0:ℤ)) - 3) % 12).toNat = 9 from by decide,
    show ((((1:ℤ)) - 3) % 12).toNat = 10 from by decide,
    show ((((2:ℤ)) - 3) % 12).toNat = 11 from by decide,
    show ((((3:ℤ)) - 3) % 12).toNat = 0 from by decide,
    show ((((4:ℤ)) - 3) % 12).toNat = 1 from by decide,
    show ((((5:ℤ)) - 3) % 12).toNat = 2 from by decide,
    show ((((6:ℤ)) - 3) % 12).toNat = 3 from by decide,
    show ((((7:ℤ)) - 3) % 12).toNat = 4 from by decide,
    show ((((8:ℤ)) - 3) % 12).toNat = 5 from by decide,
    show ((((9:ℤ)) - 3) % 12).toNat = 6 from by decide,
    show ((((10:ℤ)) - 3) % 12).toNat = 7 from by decide,
    show ((((11:ℤ)) - 3) % 12).toNat = 8 from by decide]
  rw [pcpTie_getD_0, pcpTie_getD_1, pcpTie_getD_2, pcpTie_getD_3, pcpTie_getD_4, pcpTie_getD_5, pcpTie_getD_6, pcpTie_getD_7, pcpTie_getD_8, pcpTie_getD_9, pcpTie_getD_10, pcpTie_getD_11, bmtg2O_getD_0, bmtg2O_getD_1, bmtg2O_getD_2, bmtg2O_getD_3, bmtg2O_getD_4, bmtg2O_getD_5, bmtg2O_getD_6, bmtg2O_getD_7, bmtg2O_getD_8, bmtg2O_getD_9, bmtg2O_getD_10, bmtg2O_getD_11]
  congr 1
  ring

theorem corrTieO_4 : modeCorr pcpTie bmtg2O 4 =
    (((441:ℝ)/10000) * sigO2 + ((-1259:ℝ)/15000) * sigM2) / (stdSum pcpTie 2 * sigO2) := by
  rw [modeCorr_tie_eval bmtg2O bmtg2O_length (239/600) sigO2 bmtg2O_mean bmtg2O_std 4]
  simp only [Finset.sum_range_succ, Finset.sum_range_zero, Nat.cast_ofNat,
    Nat.cast_zero, Nat.cast_one, zero_add]
  rw [show ((((0:ℤ)) - 4) % 12).toNat = 8 from by decide,
    show ((((1:ℤ)) - 4) % 12).toNat = 9 from by decide,
    show ((((2:ℤ)) - 4) % 12).toNat = 10 from by decide,
    show ((((3:ℤ)) - 4) % 12).toNat = 11 from by decide,
    show ((((4:ℤ)) - 4) % 12).toNat = 0 from by decide,
    show ((((5:ℤ)) - 4) % 12).toNat = 1 from by decide,
    show ((((6:ℤ)) - 4) % 12).toNat = 2 from by decide,
    show ((((7:ℤ)) - 4) % 12).toNat = 3 from by decide,
    show ((((8:ℤ)) - 4) % 12).toNat = 4 from by decide,
    show ((((9:ℤ)) - 4) % 12).toNat = 5 from by decide,
    show ((((10:ℤ)) - 4) % 12).toNat = 6 from by decide,
    show ((((11:ℤ)) - 4) % 12).toNat = 7 from by decide]
  rw [pcpTie_getD_0, pcpTie_getD_1, pcpTie_getD_2, pcpTie_getD_3, pcpTie_getD_4, pcpTie_getD_5, pcpTie_getD_6, pcpTie_getD_7, pcpTie_getD_8, pcpTie_getD_9, pcpTie_getD_10, pcpTie_getD_11, bmtg2O_getD_0, bmtg2O_getD_1, bmtg2O_getD_2, bmtg2O_getD_3, bmtg2O_getD_4, bmtg2O_getD_5, bmtg2O_getD_6, bmtg2O_getD_7, bmtg2O_getD_8, bmtg2O_getD_9, bmtg2O_getD_10, bmtg2O_getD_11]
  congr 1
  ring

theorem corrTieO_5 : modeCorr pcpTie bmtg2O 5 =
    (((841:ℝ)/2500) * sigO2 + ((527:ℝ)/1875) * sigM2) / (stdSum pcpTie 2 * sigO2) := by
  rw [modeCorr_tie_eval bmtg2O bmtg2O_length (239/600) sigO2 bmtg2O_mean bmtg2O_std 5]
  simp only [Finset.sum_range_succ, Finset.sum_range_zero, Nat.cast_ofNat,
    Nat.cast_zero, Nat.cast_one, zero_add]
  rw [show ((((0:ℤ)) - 5) % 12).toNat = 7 from by decide,
    show ((((1:ℤ)) - 5) % 12).toNat = 8 from by decide,
    show ((((2:ℤ)) - 5) % 12).toNat = 9 from by decide,
    show ((((3:ℤ)) - 5) % 12).toNat = 10 from by decide,
    show ((((4:ℤ)) - 5) % 12).toNat = 11 from by decide,
    show ((((5:ℤ)) - 5) % 12).toNat = 0 from by decide,
    show ((((6:ℤ)) - 5) % 12).toNat = 1 from by decide,
    show ((((7:ℤ)) - 5) % 12).toNat = 2 from by decide,
    show ((((8:ℤ)) - 5) % 12).toNat = 3 from by decide,
    show ((((9:ℤ)) - 5) % 12).toNat = 4 from by decide,
    show ((((10:ℤ)) - 5) % 12).toNat = 5 from by decide,
    show ((((11:ℤ)) - 5) % 12).toNat = 6 from by decide]
  rw [pcpTie_getD_0, pcpTie_getD_1, pcpTie_getD_2, pcpTie_getD_3, pcpTie_getD_4, pcpTie_getD_5, pcpTie_getD_6, pcpTie_getD_7, pcpTie_getD_8, pcpTie_getD_9, pcpTie_getD_10, pcpTie_getD_11, bmtg2O_getD_0, bmtg2O_getD_1, bmtg2O_getD_2, bmtg2O_getD_3, bmtg2O_getD_4, bmtg2O_getD_5, bmtg2O_getD_6, bmtg2O_getD_7, bmtg2O_getD_8, bmtg2O_getD_9, bmtg2O_getD_10, bmtg2O_getD_11]
  congr 1
  ring

theorem corrTieO_6 : modeCorr pcpTie bmtg2O 6 =
    (((-4109:ℝ)/10000) * sigO2 + ((-8479:ℝ)/30000) * sigM2) / (stdSum pcpTie 2 * sigO2) := by
  rw [modeCorr_tie_eval bmtg2O bmtg2O_length (239/600) sigO2 bmtg2O_mean bmtg2O_std 6]
  simp only [Finset.sum_range_succ, Finset.sum_range_zero, Nat.cast_ofNat,
    Nat.cast_zero, Nat.cast_one, zero_add]
  rw [show ((((0:ℤ)) - 6) % 12).toNat = 6 from by decide,
    show ((((1:ℤ)) - 6) % 12).toNat = 7 from by decide,
    show ((((2:ℤ)) - 6) % 12).toNat = 8 from by decide,
    show ((((3:ℤ)) - 6) % 12).toNat = 9 from by decide,
    show ((((4:ℤ)) - 6) % 12).toNat = 10 from by decide,
    show ((((5:ℤ)) - 6) % 12).toNat = 11 from by decide,
    show ((((6:ℤ)) - 6) % 12).toNat = 0 from by decide,
    show ((((7:ℤ)) - 6) % 12).toNat = 1 from by decide,
    show ((((8:ℤ)) - 6) % 12).toNat = 2 from by decide,
    show ((((9:ℤ)) - 6) % 12).toNat = 3 from by decide,
    show ((((10:ℤ)) - 6) % 12).toNat = 4 from by decide,
    show ((((11:ℤ)) - 6) % 12).toNat = 5 from by decide]
  rw [pcpTie_getD_0, pcpTie_getD_1, pcpTie_getD_2, pcpTie_getD_3, pcpTie_getD_4, pcpTie_getD_5, pcpTie_getD_6, pcpTie_getD_7, pcpTie_getD_8, pcpTie_getD_9, pcpTie_getD_10, pcpTie_getD_11, bmtg2O_getD_0, bmtg2O_getD_1, bmtg2O_getD_2, bmtg2O_getD_3, bmtg2O_getD_4, bmtg2O_getD_5, bmtg2O_getD_6, bmtg2O_getD_7, bmtg2O_getD_8, bmtg2O_getD_9, bmtg2O_getD_10, bmtg2O_getD_11]
  congr 1
  ring

theorem corrTieO_7 : modeCorr pcpTie bmtg2O 7 =
    (((3887:ℝ)/10000) * sigO2 + ((527:ℝ)/1875) * sigM2) / (stdSum pcpTie 2 * sigO2) := by
  rw [modeCorr_tie_eval bmtg2O bmtg2O_length (239/600) sigO2 bmtg2O_mean bmtg2O_std 7]
  simp only [Finset.sum_range_succ, Finset.sum_range_zero, Nat.cast_ofNat,
    Nat.cast_zero, Nat.cast_one, zero_add]
  rw [show ((((0:ℤ)) - 7) % 12).toNat = 5 from by decide,
    show ((((1:ℤ)) - 7) % 12).toNat = 6 from by decide,
    show ((((2:ℤ)) - 7) % 12).toNat = 7 from by decide,
    show ((((3:ℤ)) - 7) % 12).toNat = 8 from by decide,
    show ((((4:ℤ)) - 7) % 12).toNat = 9 from by decide,
    show ((((5:ℤ)) - 7) % 12).toNat = 10 from by decide,
    show ((((6:ℤ)) - 7) % 12).toNat = 11 from by decide,
    show ((((7:ℤ)) - 7) % 12).toNat = 0 from by decide,
    show ((((8:ℤ)) - 7) % 12).toNat = 1 from by decide,
    show ((((9:ℤ)) - 7) % 12).toNat = 2 from by decide,
    show ((((10:ℤ)) - 7) % 12).toNat = 3 from by decide,
    show ((((11:ℤ)) - 7) % 12).toNat = 4 from by decide]
  rw [pcpTie_getD_0, pcpTie_getD_1, pcpTie_getD_2, pcpTie_getD_3, pcpTie_getD_4, pcpTie_getD_5, pcpTie_getD_6, pcpTie_getD_7, pcpTie_getD_8, pcpTie_getD_9, pcpTie_getD_10, pcpTie_getD_11, bmtg2O_getD_0, bmtg2O_getD_1, bmtg2O_getD_2, bmtg2O_getD_3, bmtg2O_getD_4, bmtg2O_getD_5, bmtg2O_getD_6, bmtg2O_getD_7, bmtg2O_getD_8, bmtg2O_getD_9, bmtg2O_getD_10, bmtg2O_getD_11]
  congr 1
  ring

theorem corrTieO_8 : modeCorr pcpTie bmtg2O 8 =
    (((-2807:ℝ)/10000) * sigO2 + ((-1259:ℝ)/15000) * sigM2) / (stdSum pcpTie 2 * sigO2) := by
  rw [modeCorr_tie_eval bmtg2O bmtg2O_length (239/600) sigO2 bmtg2O_mean bmtg2O_std 8]
  simp only [Finset.sum_range_succ, Finset.sum_range_zero, Nat.cast_ofNat,
    Nat.cast_zero, Nat.cast_one, zero_add]
  rw [show ((((0:ℤ)) - 8) % 12).toNat = 4 from by decide,
    show ((((1:ℤ)) - 8) % 12).toNat = 5 from by decide,
    show ((((2:ℤ)) - 8) % 12).toNat = 6 from by decide,
    show ((((3:ℤ)) - 8) % 12).toNat = 7 from by decide,
    show ((((4:ℤ)) - 8) % 12).toNat = 8 from by decide,
    show ((((5:ℤ)) - 8) % 12).toNat = 9 from by decide,
    show ((((6:ℤ)) - 8) % 12).toNat = 10 from by decide,
    show ((((7:ℤ)) - 8) % 12).toNat = 11 from by decide,
    show ((((8:ℤ)) - 8) % 12).toNat = 0 from by decide,
    show ((((9:ℤ)) - 8) % 12).toNat = 1 from by decide,
    show ((((10:ℤ)) - 8) % 12).toNat = 2 from by decide,
    show ((((11:ℤ)) - 8) % 12).toNat = 3 from by decide]
  rw [pcpTie_getD_0, pcpTie_getD_1, pcpTie_getD_2, pcpTie_getD_3, pcpTie_getD_4, pcpTie_getD_5, pcpTie_getD_6, pcpTie_getD_7, pcpTie_getD_8, pcpTie_getD_9, pcpTie_getD_10, pcpTie_getD_11, bmtg2O_getD_0, bmtg2O_getD_1, bmtg2O_getD_2, bmtg2O_getD_3, bmtg2O_getD_4, bmtg2O_getD_5, bmtg2O_getD_6, bmtg2O_getD_7, bmtg2O_getD_8, bmtg2O_getD_9, bmtg2O_getD_10, bmtg2O_getD_11]
  congr 1
  ring

theorem corrTieO_9 : modeCorr pcpTie bmtg2O 9 =
    (((1081:ℝ)/10000) * sigO2 + ((-2461:ℝ)/30000) * sigM2) / (stdSum pcpTie 2 * sigO2) := by
  rw [modeCorr_tie_eval bmtg2O bmtg2O_length (239/600) sigO2 bmtg2O_mean bmtg2O_std 9]
  simp only [Finset.sum_range_succ, Finset.sum_range_zero, Nat.cast_ofNat,
    Nat.cast_zero, Nat.cast_one, zero_add]
  rw [show ((((0:ℤ)) - 9) % 12).toNat = 3 from by decide,
    show ((((1:ℤ)) - 9) % 12).toNat = 4 from by decide,
    show ((((2:ℤ)) - 9) % 12).toNat = 5 from by decide,
    show ((((3:ℤ)) - 9) % 12).toNat = 6 from by decide,
    show ((((4:ℤ)) - 9) % 12).toNat = 7 from by decide,
    show ((((5:ℤ)) - 9) % 12).toNat = 8 from by decide,
    show ((((6:ℤ)) - 9) % 12).toNat = 9 from by decide,
    show ((((7:ℤ)) - 9) % 12).toNat = 10 from by decide,
    show ((((8:ℤ)) - 9) % 12).toNat = 11 from by decide,
    show ((((9:ℤ)) - 9) % 12).toNat = 0 from by decide,
    show ((((10:ℤ)) - 9) % 12).toNat = 1 from by decide,
    show ((((11:ℤ)) - 9) % 12).toNat = 2 from by decide]
  rw [pcpTie_getD_0, pcpTie_getD_1, pcpTie_getD_2, pcpTie_getD_3, pcpTie_getD_4, pcpTie_getD_5, pcpTie_getD_6, pcpTie_getD_7, pcpTie_getD_8, pcpTie_getD_9, pcpTie_getD_10, pcpTie_getD_11, bmtg2O_getD_0, bmtg2O_getD_1, bmtg2O_getD_2, bmtg2O_getD_3, bmtg2O_getD_4, bmtg2O_getD_5, bmtg2O_getD_6, bmtg2O_getD_7, bmtg2O_getD_8, bmtg2O_getD_9, bmtg2O_getD_10, bmtg2O_getD_11]
  congr 1
  ring

theorem corrTieO_10 : modeCorr pcpTie bmtg2O 10 =
    (((-1077:ℝ)/10000) * sigO2 + ((-1849:ℝ)/30000) * sigM2) / (stdSum pcpTie 2 * sigO2) := by
  rw [modeCorr_tie_eval bmtg2O bmtg2O_length (239/600) sigO2 bmtg2O_mean bmtg2O_std 10]
  simp only [Finset.sum_range_succ, Finset.sum_range_zero, Nat.cast_ofNat,
    Nat.cast_zero, Nat.cast_one, zero_add]
  rw [show ((((0:ℤ)) - 10) % 12).toNat = 2 from by decide,
    show ((((1:ℤ)) - 10) % 12).toNat = 3 from by decide,
    show ((((2:ℤ)) - 10) % 12).toNat = 4 from by decide,
    show ((((3:ℤ)) - 10) % 12).toNat = 5 from by decide,
    show ((((4:ℤ)) - 10) % 12).toNat = 6 from by decide,
    show ((((5:ℤ)) - 10) % 12).toNat = 7 from by decide,
    show ((((6:ℤ)) - 10) % 12).toNat = 8 from by decide,
    show ((((7:ℤ)) - 10) % 12).toNat = 9 from by decide,
    show ((((8:ℤ)) - 10) % 12).toNat = 10 from by decide,
    show ((((9:ℤ)) - 10) % 12).toNat = 11 from by decide,
    show ((((10:ℤ)) - 10) % 12).toNat = 0 from by decide,
    show ((((11:ℤ)) - 10) % 12).toNat = 1 from by decide]
  rw [pcpTie_getD_0, pcpTie_getD_1, pcpTie_getD_2, pcpTie_getD_3, pcpTie_getD_4, pcpTie_getD_5, pcpTie_getD_6, pcpTie_getD_7, pcpTie_getD_8, pcpTie_getD_9, pcpTie_getD_10, pcpTie_getD_11, bmtg2O_getD_0, bmtg2O_getD_1, bmtg2O_getD_2, bmtg2O_getD_3, bmtg2O_getD_4, bmtg2O_getD_5, bmtg2O_getD_6, bmtg2O_getD_7, bmtg2O_getD_8, bmtg2O_getD_9, bmtg2O_getD_10, bmtg2O_getD_11]
  congr 1
  ring

theorem corrTieO_11 : modeCorr pcpTie bmtg2O 11 =
    (((-59:ℝ)/250) * sigO2 + ((-3527:ℝ)/15000) * sigM2) / (stdSum pcpTie 2 * sigO2) := by
  rw [modeCorr_tie_eval bmtg2O bmtg2O_length (239/600) sigO2 bmtg2O_mean bmtg2O_std 11]
  simp only [Finset.sum_range_succ, Finset.sum_range_zero, Nat.cast_ofNat,
    Nat.cast_zero, Nat.cast_one, zero_add]
  rw [show ((((0:ℤ)) - 11) % 12).toNat = 1 from by decide,
    show ((((1:ℤ)) - 11) % 12).toNat = 2 from by decide,
    show ((((2:ℤ)) - 11) % 12).toNat = 3 from by decide,
    show ((((3:ℤ)) - 11) % 12).toNat = 4 from by decide,
    show ((((4:ℤ)) - 11) % 12).toNat = 5 from by decide,
    show ((((5:ℤ)) - 11) % 12).toNat = 6 from by decide,
    show ((((6:ℤ)) - 11) % 12).toNat = 7 from by decide,
    show ((((7:ℤ)) - 11) % 12).toNat = 8 from by decide,
    show ((((8:ℤ)) - 11) % 12).toNat = 9 from by decide,
    show ((((9:ℤ)) - 11) % 12).toNat = 10 from by decide,
    show ((((10:ℤ)) - 11) % 12).toNat = 11 from by decide,
    show ((((11:ℤ)) - 11) % 12).toNat = 0 from by decide]
  rw [pcpTie_getD_0, pcpTie_getD_1, pcpTie_getD_2, pcpTie_getD_3, pcpTie_getD_4, pcpTie_getD_5, pcpTie_getD_6, pcpTie_getD_7, pcpTie_getD_8, pcpTie_getD_9, pcpTie_getD_10, pcpTie_getD_11, bmtg2O_getD_0, bmtg2O_getD_1, bmtg2O_getD_2, bmtg2O_getD_3, bmtg2O_getD_4, bmtg2O_getD_5, bmtg2O_getD_6, bmtg2O_getD_7, bmtg2O_getD_8, bmtg2O_getD_9, bmtg2O_getD_10, bmtg2O_getD_11]
  congr 1
  ring

theorem scanTieM : scanMode (modeCorr pcpTie bmtg2M) 12 =
    ⟨(((9069:ℝ)/10000) * sigO2 + ((1423:ℝ)/2000) * sigM2) / (stdSum pcpTie 2 * sigM2), -1, 0⟩ := by
  have hx0 : (0:ℝ) ≤ sigM2 := Real.sqrt_nonneg _
  have hy0 : (0:ℝ) ≤ sigO2 := Real.sqrt_nonneg _
  have hsig0 : (0:ℝ) ≤ sigM2 := Real.sqrt_nonneg _
  have hD : (0:ℝ) ≤ stdSum pcpTie 2 * sigM2 := mul_nonneg (stdSum_nonneg _ _) hsig0
  rw [← corrTieM_0]
  apply scanMode_twelve_peak0
  · rw [corrTieM_0]
    have hnum : (0:ℝ) ≤ ((9069:ℝ)/10000) * sigO2 + ((1423:ℝ)/2000) * sigM2 := by positivity
    exact lt_of_lt_of_le (by norm_num) (div_nonneg hnum hD)
  · intro s h1 h11
    interval_cases s
    · rw [corrTieM_1, corrTieM_0]
      exact div_le_div_nonneg_denom (by nlinarith [hx0, hy0]) hD
    · rw [corrTieM_2, corrTieM_0]
      exact div_le_div_nonneg_denom (by nlinarith [hx0, hy0]) hD
    · rw [corrTieM_3, corrTieM_0]
      exact div_le_div_nonneg_denom (by nlinarith [hx0, hy0]) hD
    · rw [corrTieM_4, corrTieM_0]
      exact div_le_div_nonneg_denom (by nlinarith [hx0, hy0]) hD
    · rw [corrTieM_5, corrTieM_0]
      exact div_le_div_nonneg_denom (by nlinarith [hx0, hy0]) hD
    · rw [corrTieM_6, corrTieM_0]
      exact div_le_div_nonneg_denom (by nlinarith [hx0, hy0]) hD
    · rw [corrTieM_7, corrTieM_0]
      exact div_le_div_nonneg_denom (by nlinarith [hx0, hy0]) hD
    · rw [corrTieM_8, corrTieM_0]
      exact div_le_div_nonneg_denom (by nlinarith [hx0, hy0]) hD
    · rw [corrTieM_9, corrTieM_0]
      exact div_le_div_nonneg_denom (by nlinarith [hx0, hy0]) hD
    · rw [corrTieM_10, corrTieM_0]
      exact div_le_div_nonneg_denom (by nlinarith [hx0, hy0]) hD
    · rw [corrTieM_11, corrTieM_0]
      exact div_le_div_nonneg_denom (by nlinarith [hx0, hy0]) hD

theorem scanTiem : scanMode (modeCorr pcpTie bmtg2m) 12 =
    ⟨(((3489:ℝ)/5000) * sigO2 + ((1681:ℝ)/2500) * sigM2) / (stdSum pcpTie 2 * sigm2), -1, 0⟩ := by
  have hx0 : (0:ℝ) ≤ sigM2 := Real.sqrt_nonneg _
  have hy0 : (0:ℝ) ≤ sigO2 := Real.sqrt_nonneg _
  have hsig0 : (0:ℝ) ≤ sigm2 := Real.sqrt_nonneg _
  have hD : (0:ℝ) ≤ stdSum pcpTie 2 * sigm2 := mul_nonneg (stdSum_nonneg _ _) hsig0
  rw [← corrTiem_0]
  apply scanMode_twelve_peak0
  · rw [corrTiem_0]
    have hnum : (0:ℝ) ≤ ((3489:ℝ)/5000) * sigO2 + ((1681:ℝ)/2500) * sigM2 := by positivity
    exact lt_of_lt_of_le (by norm_num) (div_nonneg hnum hD)
  · intro s h1 h11
    interval_cases s
    · rw [corrTiem_1, corrTiem_0]
      exact div_le_div_nonneg_denom (by nlinarith [hx0, hy0]) hD
    · rw [corrTiem_2, corrTiem_0]
      exact div_le_div_nonneg_denom (by nlinarith [hx0, hy0]) hD
    · rw [corrTiem_3, corrTiem_0]
      exact div_le_div_nonneg_denom (by nlinarith [hx0, hy0]) hD
    · rw [corrTiem_4, corrTiem_0]
      exact div_le_div_nonneg_denom (by nlinarith [hx0, hy0]) hD
    · rw [corrTiem_5, corrTiem_0]
      exact div_le_div_nonneg_denom (by nlinarith [hx0, hy0]) hD
    · rw [corrTiem_6, corrTiem_0]
      exact div_le_div_nonneg_denom (by nlinarith [hx0, hy0]) hD
    · rw [corrTiem_7, corrTiem_0]
      exact div_le_div_nonneg_denom (by nlinarith [hx0, hy0]) hD
    · rw [corrTiem_8, corrTiem_0]
      exact div_le_div_nonneg_denom (by nlinarith [hx0, hy0]) hD
    · rw [corrTiem_9, corrTiem_0]
      exact div_le_div_nonneg_denom (by nlinarith [hx0, hy0]) hD
    · rw [corrTiem_10, corrTiem_0]
      exact div_le_div_nonneg_denom (by nlinarith [hx0, hy0]) hD
    · rw [corrTiem_11, corrTiem_0]
      exact div_le_div_nonneg_denom (by nlinarith [hx0, hy0]) hD

theorem scanTieO : scanMode (modeCorr pcpTie bmtg2O) 12 =
    ⟨(((1423:ℝ)/2000) * sigO2 + ((19379:ℝ)/30000) * sigM2) / (stdSum pcpTie 2 * sigO2), -1, 0⟩ := by
  have hx0 : (0:ℝ) ≤ sigM2 := Real.sqrt_nonneg _
  have hy0 : (0:ℝ) ≤ sigO2 := Real.sqrt_nonneg _
  have hsig0 : (0:ℝ) ≤ sigO2 := Real.sqrt_nonneg _
  have hD : (0:ℝ) ≤ stdSum pcpTie 2 * sigO2 := mul_nonneg (stdSum_nonneg _ _) hsig0
  rw [← corrTieO_0]
  apply scanMode_twelve_peak0
  · rw [corrTieO_0]
    have hnum : (0:ℝ) ≤ ((1423:ℝ)/2000) * sigO2 + ((19379:ℝ)/30000) * sigM2 := by positivity
    exact lt_of_lt_of_le (by norm_num) (div_nonneg hnum hD)
  · intro s h1 h11
    interval_cases s
    · rw [corrTieO_1, corrTieO_0]
      exact div_le_div_nonneg_denom (by nlinarith [hx0, hy0]) hD
    · rw [corrTieO_2, corrTieO_0]
      exact div_le_div_nonneg_denom (by nlinarith [hx0, hy0]) hD
    · rw [corrTieO_3, corrTieO_0]
      exact div_le_div_nonneg_denom (by nlinarith [hx0, hy0]) hD
    · rw [corrTieO_4, corrTieO_0]
      exact div_le_div_nonneg_denom (by nlinarith [hx0, hy0]) hD
    · rw [corrTieO_5, corrTieO_0]
      exact div_le_div_nonneg_denom (by nlinarith [hx0, hy0]) hD
    · rw [corrTieO_6, corrTieO_0]
      exact div_le_div_nonneg_denom (by nlinarith [hx0, hy0]) hD
    · rw [corrTieO_7, corrTieO_0]
      exact div_le_div_nonneg_denom (by nlinarith [hx0, hy0]) hD
    · rw [corrTieO_8, corrTieO_0]
      exact div_le_div_nonneg_denom (by nlinarith [hx0, hy0]) hD
    · rw [corrTieO_9, corrTieO_0]
      exact div_le_div_nonneg_denom (by nlinarith [hx0, hy0]) hD
    · rw [corrTieO_10, corrTieO_0]
      exact div_le_div_nonneg_denom (by nlinarith [hx0, hy0]) hD
    · rw [corrTieO_11, corrTieO_0]
      exact div_le_div_nonneg_denom (by nlinarith [hx0, hy0]) hD

theorem pcpTie_std_pos : 0 < stdSum pcpTie 2 := by
  have hxp : (0:ℝ) < sigM2 := Real.sqrt_pos.mpr (by norm_num)
  have hyp : (0:ℝ) < sigO2 := Real.sqrt_pos.mpr (by norm_num)
  have hx2m : sigM2 * sigM2 = 9069/10000 := Real.mul_self_sqrt (by norm_num)
  have hy2m : sigO2 * sigO2 = 19379/30000 := Real.mul_self_sqrt (by norm_num)
  have hxy : (0:ℝ) < sigM2 * sigO2 := mul_pos hxp hyp
  unfold stdSum
  apply Real.sqrt_pos.mpr
  have hsum : ((pcpTie.map (fun x => (x - 2) * (x - 2))).sum) =
      2 * (9069/10000) * (19379/30000) + 2 * (1423/2000) * (sigM2 * sigO2) := by
    unfold pcpTie
    simp only [List.map_cons, List.map_nil, List.sum_cons, List.sum_nil]
    linear_combination (9069/10000 : ℝ) * hy2m + (19379/30000 : ℝ) * hx2m
  rw [hsum]
  nlinarith [hxy]

/-- C2 counterexample: with the bmtg2 profiles and the engineered PCP,
every per-shift correlation is an ordinary finite real, yet
`Key2::compute` throws the key-not-found error, because the major and
other maxima tie exactly and the minor maximum is strictly below, so the
three-branch cascade falls through and `keyIndex` keeps its `-1`
initialisation. -/
theorem c2_counterexample_key2_tie :
    key2Compute bmtg2M bmtg2m bmtg2O pcpTie = .error .keyNotFound := by
  have hxp : (0:ℝ) < sigM2 := Real.sqrt_pos.mpr (by norm_num)
  have hyp : (0:ℝ) < sigO2 := Real.sqrt_pos.mpr (by norm_num)
  have hzp : (0:ℝ) < sigm2 := Real.sqrt_pos.mpr (by norm_num)
  have hx2m : sigM2 * sigM2 = 9069/10000 := Real.mul_self_sqrt (by norm_num)
  have hy2m : sigO2 * sigO2 = 19379/30000 := Real.mul_self_sqrt (by norm_num)
  have hsp : (0:ℝ) < stdSum pcpTie 2 := pcpTie_std_pos
  -- the exact tie between the major and other maxima
  have hEq2 : (((9069:ℝ)/10000) * sigO2 + ((1423:ℝ)/2000) * sigM2) / (stdSum pcpTie 2 * sigM2) =
      ((((1423:ℝ)/2000)) * sigO2 + (((19379:ℝ)/30000)) * sigM2) / (stdSum pcpTie 2 * sigO2) := by
    rw [mul_comm (stdSum pcpTie 2) sigM2, mul_comm (stdSum pcpTie 2) sigO2, ← div_div, ← div_div]
    congr 1
    rw [div_eq_div_iff (ne_of_gt hxp) (ne_of_gt hyp)]
    linear_combination (9069/10000 : ℝ) * hy2m - (19379/30000 : ℝ) * hx2m
  -- the minor maximum is strictly below the major maximum
  have hxl : (9523:ℝ)/10000 < sigM2 := lt_sqrt_of_sq (by norm_num) (by norm_num)
  have hxu : sigM2 < (9524:ℝ)/10000 := sqrt_lt_of_sq (by norm_num) (by norm_num)
  have hyl : (8037:ℝ)/10000 < sigO2 := lt_sqrt_of_sq (by norm_num) (by norm_num)
  have hyu : sigO2 < (8038:ℝ)/10000 := sqrt_lt_of_sq (by norm_num) (by norm_num)
  have hzl : (8895:ℝ)/10000 < sigm2 := lt_sqrt_of_sq (by norm_num) (by norm_num)
  have hzu : sigm2 < (8896:ℝ)/10000 := sqrt_lt_of_sq (by norm_num) (by norm_num)
  have hxy_u : sigM2 * sigO2 < (76556:ℝ)/100000 := by nlinarith
  have hyz_l : (71488:ℝ)/100000 < sigO2 * sigm2 := by nlinarith
  have hxz_l : (84704:ℝ)/100000 < sigM2 * sigm2 := by nlinarith
  have hLt : (((3489:ℝ)/5000) * sigO2 + ((1681:ℝ)/2500) * sigM2) / (stdSum pcpTie 2 * sigm2) <
      (((9069:ℝ)/10000) * sigO2 + ((1423:ℝ)/2000) * sigM2) / (stdSum pcpTie 2 * sigM2) := by
    rw [mul_comm (stdSum pcpTie 2) sigm2, mul_comm (stdSum pcpTie 2) sigM2, ← div_div, ← div_div]
    rw [div_lt_div_iff_of_pos_right hsp]
    rw [div_lt_div_iff hzp hxp]
    nlinarith [hxy_u, hyz_l, hxz_l, hx2m]
  -- assemble
  unfold key2Compute
  dsimp only
  rw [if_neg (by rw [pcpTie_length]; norm_num)]
  simp only [pcpTie_length]
  rw [scanTieM, scanTiem, scanTieO]
  have hpick : key2Pick
      ⟨(((9069:ℝ)/10000) * sigO2 + ((1423:ℝ)/2000) * sigM2) / (stdSum pcpTie 2 * sigM2), -1, 0⟩
      ⟨(((3489:ℝ)/5000) * sigO2 + ((1681:ℝ)/2500) * sigM2) / (stdSum pcpTie 2 * sigm2), -1, 0⟩
      ⟨(((1423:ℝ)/2000) * sigO2 + ((19379:ℝ)/30000) * sigM2) / (stdSum pcpTie 2 * sigO2), -1, 0⟩ =
      none := by
    unfold key2Pick
    dsimp only
    rw [if_neg, if_neg, if_neg]
    · rintro ⟨h1, h2⟩
      rw [hEq2] at h1
      exact lt_irrefl _ h1
    · rintro ⟨h1, h2⟩
      exact absurd h1 (not_le.mpr hLt)
    · rintro ⟨h1, h2⟩
      rw [hEq2] at h2
      exact lt_irrefl _ h2
  rw [hpick]

/-! ## Constant-PCP evaluation (for witnesses) -/

theorem replicate_mean : listMean (List.replicate 12 (1 : ℝ)) = 1 := by
  unfold listMean
  rw [List.sum_replicate, List.length_replicate]
  norm_num

theorem modeCorr_const (prof : List ℝ) (s : ℤ) :
    modeCorr (List.replicate 12 (1 : ℝ)) prof s = 0 := by
  unfold modeCorr
  dsimp only
  rw [correlation_eq_sum]
  have hzero : ∀ i ∈ Finset.range (List.replicate 12 (1 : ℝ)).length,
      ((List.replicate 12 (1 : ℝ)).getD i 0 - listMean (List.replicate 12 (1 : ℝ))) *
        ((resizeProfile prof (List.replicate 12 (1 : ℝ)).length).getD
          (((i : ℤ) - s) % ((List.replicate 12 (1 : ℝ)).length : ℤ)).toNat 0 -
          listMean (resizeProfile prof (List.replicate 12 (1 : ℝ)).length)) = 0 := by
    intro i hi
    have hlt : i < (List.replicate 12 (1 : ℝ)).length := Finset.mem_range.mp hi
    have hone : (List.replicate 12 (1 : ℝ)).getD i 0 = 1 := by
      rw [List.getD_eq_getElem _ _ hlt]
      exact List.getElem_replicate 1 hlt
    rw [hone, replicate_mean]
    ring
  rw [Finset.sum_eq_zero hzero, zero_div]

theorem scanMode_const (prof : List ℝ) :
    scanMode (modeCorr (List.replicate 12 (1 : ℝ)) prof) 12 = ⟨0, -1, 0⟩ := by
  have h := scanMode_twelve_peak0 (modeCorr (List.replicate 12 (1 : ℝ)) prof)
    (by rw [modeCorr_const]; norm_num)
    (by intro s h1 h11; rw [modeCorr_const, modeCorr_const])
  rw [h, modeCorr_const]

theorem keyEDM_const_eval :
    keyEDMCompute temperleyM temperleym (List.replicate 12 (1 : ℝ)) =
      .ok ⟨"A", "major", 0, 0⟩ := by
  unfold keyEDMCompute
  dsimp only
  rw [if_neg (by norm_num)]
  simp only [List.length_replicate]
  rw [scanMode_const, scanMode_const]
  rw [show keyEDMPick ⟨0, -1, 0⟩ ⟨0, -1, 0⟩ = (Scale.MAJOR, ⟨0, -1, 0⟩) from by
    unfold keyEDMPick; rw [if_pos (le_refl _)]]
  rw [show resolveKeyIndex (ScanState.mk 0 (-1) 0).keyIndex ((12 : ℕ) : ℤ) = 0 from by decide]
  rw [if_neg (by norm_num)]
  norm_num [keyEDMScaleLabel, keyNames]

/-- Witness for C10: concrete index bounds at shift 13, N = 24, and a full
run of KeyEDM on a constant PCP of length 12 returning the label "A". -/
theorem c10_key_index_bounds_witness :
    (0 ≤ resolveKeyIndex 13 24 ∧ resolveKeyIndex 13 24 ≤ 11) ∧ "A" ∈ keyNames := by
  constructor
  · exact c10_key_index_bounds.1 13 24 (by norm_num) (by norm_num) (by norm_num) (by norm_num)
  · exact c10_key_index_bounds.2.2 temperleyM temperleym (List.replicate 12 (1 : ℝ))
      ⟨"A", "major", 0, 0⟩ keyEDM_const_eval

/-! ## Rotation infrastructure (claim C8) -/

theorem listMean_rotate (l : List ℝ) (k : ℕ) : listMean (l.rotate k) = listMean l := by
  unfold listMean
  rw [List.length_rotate, (l.rotate_perm k).sum_eq]

theorem stdSum_rotate (l : List ℝ) (k : ℕ) (m : ℝ) : stdSum (l.rotate k) m = stdSum l m := by
  unfold stdSum
  rw [((l.rotate_perm k).map (fun x => (x - m) * (x - m))).sum_eq]

theorem getD_rotate (l : List ℝ) (k i : ℕ) (hi : i < l.length) :
    (l.rotate k).getD i 0 = l.getD ((i + k) % l.length) 0 := by
  have h1 : i < (l.rotate k).length := by rw [List.length_rotate]; exact hi
  have h2 : (i + k) % l.length < l.length := Nat.mod_lt _ (by omega)
  rw [List.getD_eq_getElem _ _ h1, List.getD_eq_getElem _ _ h2, List.getElem_rotate]

/-- Dropping an inner modulus in a subtraction under the same modulus. -/
theorem emod_sub_emod_left (a b n : ℤ) : (a % n - b) % n = (a - b) % n := by
  conv_lhs => rw [Int.sub_emod, Int.emod_emod_of_dvd a dvd_rfl]
  rw [← Int.sub_emod]

/-- The correlation of one mode depends on the shift only modulo N. -/
theorem modeCorr_congr_emod (pcp prof : List ℝ) (s t : ℤ)
    (hst : s % (pcp.length : ℤ) = t % (pcp.length : ℤ)) :
    modeCorr pcp prof s = modeCorr pcp prof t := by
  unfold modeCorr
  dsimp only
  rw [correlation_eq_sum, correlation_eq_sum]
  congr 1
  refine Finset.sum_congr rfl ?_
  intro i _
  have hidx : ((i : ℤ) - s) % (pcp.length : ℤ) = ((i : ℤ) - t) % (pcp.length : ℤ) := by
    rw [Int.sub_emod ((i : ℤ)) s, hst, ← Int.sub_emod]
  rw [hidx]

/-- Rotating the PCP backward by `n` bins shifts every mode correlation by
`n`: `corr_rotated(s) = corr(s - n)`. -/
theorem modeCorr_rotate (pcp prof : List ℝ) (n : ℕ) (hn : n ≤ pcp.length)
    (hpos : 0 < pcp.length) (s : ℤ) :
    modeCorr (pcp.rotate (pcp.length - n)) prof s = modeCorr pcp prof (s - (n : ℤ)) := by
  have hb0 : (0 : ℤ) < (pcp.length : ℤ) := by exact_mod_cast hpos
  unfold modeCorr
  dsimp only
  rw [correlation_eq_sum, correlation_eq_sum, listMean_rotate, stdSum_rotate]
  simp only [List.length_rotate]
  congr 1
  refine Finset.sum_nbij' (fun i => (i + (pcp.length - n)) % pcp.length)
    (fun j => (j + n) % pcp.length) ?_ ?_ ?_ ?_ ?_
  · intro i _
    exact Finset.mem_range.mpr (Nat.mod_lt _ (by omega))
  · intro j _
    exact Finset.mem_range.mpr (Nat.mod_lt _ (by omega))
  · intro i hi
    dsimp only
    have hiN : i < pcp.length := Finset.mem_range.mp hi
    rw [Nat.mod_add_mod, show i + (pcp.length - n) + n = i + pcp.length by omega,
      Nat.add_mod_right, Nat.mod_eq_of_lt hiN]
  · intro j hj
    dsimp only
    have hjN : j < pcp.length := Finset.mem_range.mp hj
    rw [Nat.mod_add_mod, show j + n + (pcp.length - n) = j + pcp.length by omega,
      Nat.add_mod_right, Nat.mod_eq_of_lt hjN]
  · intro i hi
    dsimp only
    have hiN : i < pcp.length := Finset.mem_range.mp hi
    rw [getD_rotate pcp (pcp.length - n) i hiN]
    congr 2
    have hcast : (((i + (pcp.length - n)) % pcp.length : ℕ) : ℤ) =
        ((i : ℤ) + ((pcp.length : ℤ) - (n : ℤ))) % (pcp.length : ℤ) := by
      rw [Int.natCast_mod]
      congr 1
      push_cast [Nat.cast_sub hn]
      ring
    rw [hcast, emod_sub_emod_left]
    have harith : (i : ℤ) + ((pcp.length : ℤ) - (n : ℤ)) - (s - (n : ℤ)) =
        ((i : ℤ) - s) + (pcp.length : ℤ) * 1 := by ring
    rw [harith, Int.add_mul_emod_self_left]

/-! ## Unique-peak scan lemmas (claim C8) -/

theorem foldl_scanStep_peak (corr : ℤ → ℝ) (p : ℤ) :
    ∀ (l : List ℤ) (st : ScanState), p ∈ l → (∀ s ∈ l, s ≠ p → corr s < corr p) →
      st.max < corr p →
      (l.foldl (scanStep corr) st).max = corr p ∧ (l.foldl (scanStep corr) st).keyIndex = p := by
  intro l
  induction l with
  | nil => intro st hp; cases hp
  | cons a t ih =>
    intro st hp hlt hmax
    rw [List.foldl_cons]
    by_cases hap : a = p
    · subst hap
      rw [show scanStep corr st a = ⟨corr a, st.max, a⟩ from by
        unfold scanStep; rw [if_pos hmax]]
      have hconst : t.foldl (scanStep corr) ⟨corr a, st.max, a⟩ = ⟨corr a, st.max, a⟩ := by
        apply foldl_scanStep_const
        intro s hs
        by_cases hsp : s = a
        · subst hsp; exact le_refl _
        · exact le_of_lt (hlt s (List.mem_cons_of_mem a hs) hsp)
      rw [hconst]
      exact ⟨rfl, rfl⟩
    · have hpt : p ∈ t := by
        rcases List.mem_cons.mp hp with rfl | hpt
        · exact absurd rfl hap
        · exact hpt
      have hmax' : (scanStep corr st a).max < corr p := by
        unfold scanStep
        split_ifs with hgt
        · exact hlt a (List.mem_cons_self a t) hap
        · exact hmax
      exact ih (scanStep corr st a) hpt
        (fun s hs => hlt s (List.mem_cons_of_mem a hs)) hmax'

theorem scanMode_peak (corr : ℤ → ℝ) (N : ℕ) (p : ℤ) (hp0 : 0 ≤ p) (hpN : p < (N : ℤ))
    (hgt : -1 < corr p)
    (huniq : ∀ s : ℤ, 0 ≤ s → s < (N : ℤ) → s ≠ p → corr s < corr p) :
    (scanMode corr N).max = corr p ∧ (scanMode corr N).keyIndex = p := by
  unfold scanMode
  apply foldl_scanStep_peak
  · simp only [List.mem_map, List.mem_range]
    refine ⟨p.toNat, by omega, by omega⟩
  · intro s hs hsp
    simp only [List.mem_map, List.mem_range] at hs
    obtain ⟨k, hk, rfl⟩ := hs
    exact huniq _ (Int.ofNat_nonneg k) (by exact_mod_cast hk) hsp
  · exact hgt

/-! ## Key-index rotation (claim C8) -/

theorem resolveKeyIndex_eq_ediv (p N nn : ℤ) (hp0 : 0 ≤ p) (hN : N = 12 * nn) (hn : 0 < nn) :
    resolveKeyIndex p N = p / nn := by
  unfold resolveKeyIndex truncAddHalf
  have hNpos : (0 : ℤ) < N := by omega
  rw [Int.tdiv_eq_ediv (by positivity) (le_of_lt hNpos), hN, mul_comm p 12,
    Int.mul_ediv_mul_of_pos _ _ (by norm_num)]
  rw [if_pos (Int.ediv_nonneg hp0 (le_of_lt hn))]

theorem resolveKeyIndex_rotate (p nn N : ℤ) (hN : N = 12 * nn) (hn : 0 < nn)
    (hp0 : 0 ≤ p) (hpN : p < N) :
    resolveKeyIndex ((p + nn) % N) N = (resolveKeyIndex p N + 1) % 12 := by
  have hNpos : (0 : ℤ) < N := by omega
  have hmod0 : 0 ≤ (p + nn) % N := Int.emod_nonneg _ (by omega)
  rw [resolveKeyIndex_eq_ediv _ _ nn hmod0 hN hn, resolveKeyIndex_eq_ediv _ _ nn hp0 hN hn]
  rcases lt_or_le (p + nn) N with hlt | hge
  · rw [Int.emod_eq_of_lt (by omega) hlt]
    have hstep : (p + nn) / nn = p / nn + 1 := by
      have := Int.add_mul_ediv_right p 1 (show nn ≠ 0 by omega)
      rw [one_mul] at this
      omega
    rw [hstep]
    have hub : p / nn < 11 := Int.ediv_lt_of_lt_mul hn (by omega)
    have hlb : 0 ≤ p / nn := Int.ediv_nonneg hp0 (le_of_lt hn)
    rw [Int.emod_eq_of_lt (by omega) (by omega)]
  · have hm : (p + nn) % N = p + nn - N := by
      have h1 : (p + nn) % N = (p + nn - N) % N := by
        conv_lhs => rw [show p + nn = (p + nn - N) + N * 1 by ring, Int.add_mul_emod_self_left]
      rw [h1, Int.emod_eq_of_lt (by omega) (by omega)]
    rw [hm]
    have hz : (p + nn - N) / nn = 0 := Int.ediv_eq_zero_of_lt (by omega) (by omega)
    have h11 : p / nn = 11 := by
      have hub : p / nn < 12 := Int.ediv_lt_of_lt_mul hn (by omega)
      have hlb : 11 ≤ p / nn := (Int.le_ediv_iff_mul_le hn).mpr (by omega)
      omega
    rw [hz, h11]
    decide

/-- Rotating the PCP backward by one semitone (`N - n` bins) moves a unique
per-mode peak `p` to `(p + n) % N` with the same peak value. -/
theorem scanMode_rotate_peak (pcp prof : List ℝ) (n : ℕ) (hn : 0 < n)
    (hlen : pcp.length = 12 * n) (p : ℤ) (hp0 : 0 ≤ p) (hpN : p < (pcp.length : ℤ))
    (hgt : -1 < modeCorr pcp prof p)
    (hu : ∀ s : ℤ, 0 ≤ s → s < (pcp.length : ℤ) → s ≠ p →
      modeCorr pcp prof s < modeCorr pcp prof p) :
    (scanMode (modeCorr (pcp.rotate (pcp.length - n)) prof) pcp.length).max
        = modeCorr pcp prof p ∧
    (scanMode (modeCorr (pcp.rotate (pcp.length - n)) prof) pcp.length).keyIndex
        = (p + (n : ℤ)) % (pcp.length : ℤ) := by
  have hpos : 0 < pcp.length := by omega
  have hnle : n ≤ pcp.length := by omega
  have hb0 : (0 : ℤ) < (pcp.length : ℤ) := by exact_mod_cast hpos
  have hrot := modeCorr_rotate pcp prof n hnle hpos
  have hp'0 : 0 ≤ (p + (n : ℤ)) % (pcp.length : ℤ) := Int.emod_nonneg _ (ne_of_gt hb0)
  have hp'N : (p + (n : ℤ)) % (pcp.length : ℤ) < (pcp.length : ℤ) := Int.emod_lt_of_pos _ hb0
  have hval : modeCorr (pcp.rotate (pcp.length - n)) prof ((p + (n : ℤ)) % (pcp.length : ℤ))
      = modeCorr pcp prof p := by
    rw [hrot]
    apply modeCorr_congr_emod
    rw [emod_sub_emod_left, show p + (n : ℤ) - (n : ℤ) = p by ring]
  have huniq : ∀ s : ℤ, 0 ≤ s → s < (pcp.length : ℤ) →
      s ≠ (p + (n : ℤ)) % (pcp.length : ℤ) →
      modeCorr (pcp.rotate (pcp.length - n)) prof s <
        modeCorr (pcp.rotate (pcp.length - n)) prof ((p + (n : ℤ)) % (pcp.length : ℤ)) := by
    intro s hs0 hsN hsp
    rw [hrot, hval]
    have hcong : modeCorr pcp prof (s - (n : ℤ))
        = modeCorr pcp prof ((s - (n : ℤ)) % (pcp.length : ℤ)) :=
      modeCorr_congr_emod pcp prof _ _ (Int.emod_emod_of_dvd _ dvd_rfl).symm
    rw [hcong]
    have ht0 : 0 ≤ (s - (n : ℤ)) % (pcp.length : ℤ) := Int.emod_nonneg _ (ne_of_gt hb0)
    have htN : (s - (n : ℤ)) % (pcp.length : ℤ) < (pcp.length : ℤ) := Int.emod_lt_of_pos _ hb0
    have htp : (s - (n : ℤ)) % (pcp.length : ℤ) ≠ p := by
      intro hEq
      apply hsp
      have h1 : ((s - (n : ℤ)) % (pcp.length : ℤ) + (n : ℤ)) % (pcp.length : ℤ)
          = (p + (n : ℤ)) % (pcp.length : ℤ) := by rw [hEq]
      rw [Int.emod_add_emod, show s - (n : ℤ) + (n : ℤ) = s by ring,
        Int.emod_eq_of_lt hs0 hsN] at h1
      exact h1
    exact hu _ ht0 htN htp
  have hpeak := scanMode_peak (modeCorr (pcp.rotate (pcp.length - n)) prof) pcp.length
    ((p + (n : ℤ)) % (pcp.length : ℤ)) hp'0 hp'N (by rw [hval]; exact hgt) huniq
  exact ⟨by rw [hpeak.1, hval], hpeak.2⟩

/-- **C8** (amended).  For a PCP whose length is a positive multiple `12n` of
12, rotating the PCP backward by `N - n` bins (a one-semitone transposition)
leaves the scale and the strength reported by `KeyEDM::compute` unchanged,
and -- when each mode's maximum correlation is attained at a unique shift
that beats the `-1` initialisation -- moves the reported tonal-center label
exactly one position forward (mod 12) in the key-name alphabet.  (The
first-to-second relative strength is NOT claimed invariant: the tracked
second maximum depends on the scan order, and `c8_counterexample_relative_strength`
shows it genuinely changes.) -/
theorem c8_amended_rotation (Mprof mprof pcp : List ℝ) (n : ℕ)
    (hlen : pcp.length = 12 * n) (hn : 0 < n)
    (pM pm : ℤ)
    (hpM0 : 0 ≤ pM) (hpMN : pM < (pcp.length : ℤ))
    (hpm0 : 0 ≤ pm) (hpmN : pm < (pcp.length : ℤ))
    (hgtM : -1 < modeCorr pcp Mprof pM)
    (hgtm : -1 < modeCorr pcp mprof pm)
    (huM : ∀ s : ℤ, 0 ≤ s → s < (pcp.length : ℤ) → s ≠ pM →
      modeCorr pcp Mprof s < modeCorr pcp Mprof pM)
    (hum : ∀ s : ℤ, 0 ≤ s → s < (pcp.length : ℤ) → s ≠ pm →
      modeCorr pcp mprof s < modeCorr pcp mprof pm)
    (out out' : KeyOutput)
    (h : keyEDMCompute Mprof mprof pcp = .ok out)
    (h' : keyEDMCompute Mprof mprof (pcp.rotate (pcp.length - n)) = .ok out') :
    out'.scale = out.scale ∧ out'.strength = out.strength ∧
      ∃ k : ℕ, k < 12 ∧ out.key = keyNames.getD k "" ∧
        out'.key = keyNames.getD ((k + 1) % 12) "" := by
  have hNZ : ((pcp.length : ℕ) : ℤ) = 12 * (n : ℤ) := by exact_mod_cast hlen
  have hnZ : (0 : ℤ) < (n : ℤ) := by exact_mod_cast hn
  have hN12Z : (12 : ℤ) ≤ ((pcp.length : ℕ) : ℤ) := by omega
  obtain ⟨hsMmax, hsMidx⟩ := scanMode_peak (modeCorr pcp Mprof) pcp.length pM hpM0 hpMN hgtM huM
  obtain ⟨hsmmax, hsmidx⟩ := scanMode_peak (modeCorr pcp mprof) pcp.length pm hpm0 hpmN hgtm hum
  obtain ⟨hrMmax, hrMidx⟩ := scanMode_rotate_peak pcp Mprof n hn hlen pM hpM0 hpMN hgtM huM
  obtain ⟨hrmmax, hrmidx⟩ := scanMode_rotate_peak pcp mprof n hn hlen pm hpm0 hpmN hgtm hum
  unfold keyEDMCompute at h h'
  dsimp only at h h'
  rw [List.length_rotate] at h'
  rw [if_neg (by omega)] at h h'
  have hkeyM := resolveKeyIndex_rotate pM (n : ℤ) ((pcp.length : ℕ) : ℤ) hNZ hnZ hpM0 hpMN
  have hkeym := resolveKeyIndex_rotate pm (n : ℤ) ((pcp.length : ℕ) : ℤ) hNZ hnZ hpm0 hpmN
  by_cases hAB : modeCorr pcp Mprof pM ≥ modeCorr pcp mprof pm
  · have hpick : keyEDMPick (scanMode (modeCorr pcp Mprof) pcp.length)
        (scanMode (modeCorr pcp mprof) pcp.length)
        = (Scale.MAJOR, scanMode (modeCorr pcp Mprof) pcp.length) := by
      unfold keyEDMPick
      rw [hsMmax, hsmmax, if_pos hAB]
    have hpick' : keyEDMPick
        (scanMode (modeCorr (pcp.rotate (pcp.length - n)) Mprof) pcp.length)
        (scanMode (modeCorr (pcp.rotate (pcp.length - n)) mprof) pcp.length)
        = (Scale.MAJOR, scanMode (modeCorr (pcp.rotate (pcp.length - n)) Mprof) pcp.length) := by
      unfold keyEDMPick
      rw [hrMmax, hrmmax, if_pos hAB]
    rw [hpick] at h
    rw [hpick'] at h'
    dsimp only at h h'
    rw [hsMidx, hsMmax] at h
    rw [hrMidx, hrMmax] at h'
    rw [if_neg (not_lt.mpr (resolveKeyIndex_nonneg (by omega) hN12Z))] at h
    rw [if_neg (not_lt.mpr (resolveKeyIndex_nonneg
      (by have := Int.emod_nonneg (pM + (n : ℤ))
            (show ((pcp.length : ℕ) : ℤ) ≠ 0 by omega); omega) hN12Z))] at h'
    rw [Except.ok.injEq] at h h'
    subst h
    subst h'
    have hk0 : 0 ≤ resolveKeyIndex pM ((pcp.length : ℕ) : ℤ) :=
      resolveKeyIndex_nonneg (by omega) hN12Z
    have hk11 : resolveKeyIndex pM ((pcp.length : ℕ) : ℤ) ≤ 11 :=
      resolveKeyIndex_le_eleven (by omega) hpMN hN12Z
    refine ⟨rfl, rfl, (resolveKeyIndex pM ((pcp.length : ℕ) : ℤ)).toNat, by omega, rfl, ?_⟩
    have hidx : ((resolveKeyIndex pM ((pcp.length : ℕ) : ℤ) + 1) % 12).toNat
        = ((resolveKeyIndex pM ((pcp.length : ℕ) : ℤ)).toNat + 1) % 12 := by omega
    show keyNames.getD (resolveKeyIndex ((pM + (n : ℤ)) % ((pcp.length : ℕ) : ℤ))
      ((pcp.length : ℕ) : ℤ)).toNat "" = _
    rw [hkeyM, hidx]
  · have hBA : ¬ (scanMode (modeCorr pcp Mprof) pcp.length).max ≥
        (scanMode (modeCorr pcp mprof) pcp.length).max := by
      rw [hsMmax, hsmmax]; exact hAB
    have hBA' : ¬ (scanMode (modeCorr (pcp.rotate (pcp.length - n)) Mprof) pcp.length).max ≥
        (scanMode (modeCorr (pcp.rotate (pcp.length - n)) mprof) pcp.length).max := by
      rw [hrMmax, hrmmax]; exact hAB
    have hpick : keyEDMPick (scanMode (modeCorr pcp Mprof) pcp.length)
        (scanMode (modeCorr pcp mprof) pcp.length)
        = (Scale.MINOR, scanMode (modeCorr pcp mprof) pcp.length) := by
      unfold keyEDMPick
      rw [if_neg hBA]
    have hpick' : keyEDMPick
        (scanMode (modeCorr (pcp.rotate (pcp.length - n)) Mprof) pcp.length)
        (scanMode (modeCorr (pcp.rotate (pcp.length - n)) mprof) pcp.length)
        = (Scale.MINOR, scanMode (modeCorr (pcp.rotate (pcp.length - n)) mprof) pcp.length) := by
      unfold keyEDMPick
      rw [if_neg hBA']
    rw [hpick] at h
    rw [hpick'] at h'
    dsimp only at h h'
    rw [hsmidx, hsmmax] at h
    rw [hrmidx, hrmmax] at h'
    rw [if_neg (not_lt.mpr (resolveKeyIndex_nonneg (by omega) hN12Z))] at h
    rw [if_neg (not_lt.mpr (resolveKeyIndex_nonneg
      (by have := Int.emod_nonneg (pm + (n : ℤ))
            (show ((pcp.length : ℕ) : ℤ) ≠ 0 by omega); omega) hN12Z))] at h'
    rw [Except.ok.injEq] at h h'
    subst h
    subst h'
    have hk0 : 0 ≤ resolveKeyIndex pm ((pcp.length : ℕ) : ℤ) :=
      resolveKeyIndex_nonneg (by omega) hN12Z
    have hk11 : resolveKeyIndex pm ((pcp.length : ℕ) : ℤ) ≤ 11 :=
      resolveKeyIndex_le_eleven (by omega) hpmN hN12Z
    refine ⟨rfl, rfl, (resolveKeyIndex pm ((pcp.length : ℕ) : ℤ)).toNat, by omega, rfl, ?_⟩
    have hidx : ((resolveKeyIndex pm ((pcp.length : ℕ) : ℤ) + 1) % 12).toNat
        = ((resolveKeyIndex pm ((pcp.length : ℕ) : ℤ)).toNat + 1) % 12 := by omega
    show keyNames.getD (resolveKeyIndex ((pm + (n : ℤ)) % ((pcp.length : ℕ) : ℤ))
      ((pcp.length : ℕ) : ℤ)).toNat "" = _
    rw [hkeym, hidx]

/-! ## Claim C8: one-hot PCPs under the temperley profiles -/

theorem pcpE0_length : pcpE0.length = 12 := rfl
theorem pcpE1_length : pcpE1.length = 12 := rfl
theorem temperleyM_length : temperleyM.length = 12 := rfl
theorem temperleym_length : temperleym.length = 12 := rfl

/-- `pcpE1` is the one-semitone (one-bin, since N = 12) rotation of `pcpE0`. -/
theorem pcpE0_rotate : pcpE0.rotate (pcpE0.length - 1) = pcpE1 := by
  rw [pcpE0_length]
  rfl

theorem pcpE0_getD_0 : pcpE0.getD 0 0 = 1 := rfl
theorem pcpE0_getD_1 : pcpE0.getD 1 0 = 0 := rfl
theorem pcpE0_getD_2 : pcpE0.getD 2 0 = 0 := rfl
theorem pcpE0_getD_3 : pcpE0.getD 3 0 = 0 := rfl
theorem pcpE0_getD_4 : pcpE0.getD 4 0 = 0 := rfl
theorem pcpE0_getD_5 : pcpE0.getD 5 0 = 0 := rfl
theorem pcpE0_getD_6 : pcpE0.getD 6 0 = 0 := rfl
theorem pcpE0_getD_7 : pcpE0.getD 7 0 = 0 := rfl
theorem pcpE0_getD_8 : pcpE0.getD 8 0 = 0 := rfl
theorem pcpE0_getD_9 : pcpE0.getD 9 0 = 0 := rfl
theorem pcpE0_getD_10 : pcpE0.getD 10 0 = 0 := rfl
theorem pcpE0_getD_11 : pcpE0.getD 11 0 = 0 := rfl

theorem pcpE1_getD_0 : pcpE1.getD 0 0 = 0 := rfl
theorem pcpE1_getD_1 : pcpE1.getD 1 0 = 1 := rfl
theorem pcpE1_getD_2 : pcpE1.getD 2 0 = 0 := rfl
theorem pcpE1_getD_3 : pcpE1.getD 3 0 = 0 := rfl
theorem pcpE1_getD_4 : pcpE1.getD 4 0 = 0 := rfl
theorem pcpE1_getD_5 : pcpE1.getD 5 0 = 0 := rfl
theorem pcpE1_getD_6 : pcpE1.getD 6 0 = 0 := rfl
theorem pcpE1_getD_7 : pcpE1.getD 7 0 = 0 := rfl
theorem pcpE1_getD_8 : pcpE1.getD 8 0 = 0 := rfl
theorem pcpE1_getD_9 : pcpE1.getD 9 0 = 0 := rfl
theorem pcpE1_getD_10 : pcpE1.getD 10 0 = 0 := rfl
theorem pcpE1_getD_11 : pcpE1.getD 11 0 = 0 := rfl

theorem temperleyM_getD_0 : temperleyM.getD 0 0 = 5.0 := rfl
theorem temperleyM_getD_1 : temperleyM.getD 1 0 = 2.0 := rfl
theorem temperleyM_getD_2 : temperleyM.getD 2 0 = 3.5 := rfl
theorem temperleyM_getD_3 : temperleyM.getD 3 0 = 2.0 := rfl
theorem temperleyM_getD_4 : temperleyM.getD 4 0 = 4.5 := rfl
theorem temperleyM_getD_5 : temperleyM.getD 5 0 = 4.0 := rfl
theorem temperleyM_getD_6 : temperleyM.getD 6 0 = 2.0 := rfl
theorem temperleyM_getD_7 : temperleyM.getD 7 0 = 4.5 := rfl
theorem temperleyM_getD_8 : temperleyM.getD 8 0 = 2.0 := rfl
theorem temperleyM_getD_9 : temperleyM.getD 9 0 = 3.5 := rfl
theorem temperleyM_getD_10 : temperleyM.getD 10 0 = 1.5 := rfl
theorem temperleyM_getD_11 : temperleyM.getD 11 0 = 4.0 := rfl

theorem temperleym_getD_0 : temperleym.getD 0 0 = 5.0 := rfl
theorem temperleym_getD_1 : temperleym.getD 1 0 = 2.0 := rfl
theorem temperleym_getD_2 : temperleym.getD 2 0 = 3.5 := rfl
theorem temperleym_getD_3 : temperleym.getD 3 0 = 4.5 := rfl
theorem temperleym_getD_4 : temperleym.getD 4 0 = 2.0 := rfl
theorem temperleym_getD_5 : temperleym.getD 5 0 = 4.0 := rfl
theorem temperleym_getD_6 : temperleym.getD 6 0 = 2.0 := rfl
theorem temperleym_getD_7 : temperleym.getD 7 0 = 4.5 := rfl
theorem temperleym_getD_8 : temperleym.getD 8 0 = 3.5 := rfl
theorem temperleym_getD_9 : temperleym.getD 9 0 = 2.0 := rfl
theorem temperleym_getD_10 : temperleym.getD 10 0 = 1.5 := rfl
theorem temperleym_getD_11 : temperleym.getD 11 0 = 4.0 := rfl

theorem pcpE0_mean : listMean pcpE0 = 1/12 := by
  unfold listMean pcpE0
  norm_num [List.sum_cons]

theorem pcpE0_std : stdSum pcpE0 (1/12) = Real.sqrt (11/12) := by
  unfold stdSum pcpE0
  norm_num [List.map_cons, List.sum_cons]

theorem pcpE1_mean : listMean pcpE1 = 1/12 := by
  unfold listMean pcpE1
  norm_num [List.sum_cons]

theorem pcpE1_std : stdSum pcpE1 (1/12) = Real.sqrt (11/12) := by
  unfold stdSum pcpE1
  norm_num [List.map_cons, List.sum_cons]

theorem temperleyM_mean : listMean temperleyM = 77/24 := by
  unfold listMean temperleyM
  norm_num [List.sum_cons]

theorem temperleyM_std : stdSum temperleyM (77/24) = Real.sqrt (803/48) := by
  unfold stdSum temperleyM
  norm_num [List.map_cons, List.sum_cons]

theorem temperleym_mean : listMean temperleym = 77/24 := by
  unfold listMean temperleym
  norm_num [List.sum_cons]

theorem temperleym_std : stdSum temperleym (77/24) = Real.sqrt (803/48) := by
  unfold stdSum temperleym
  norm_num [List.map_cons, List.sum_cons]

theorem sqrtD_pos : 0 < Real.sqrt (11/12) * Real.sqrt (803/48) := by positivity

/-- The product of the two root factors exceeds 29/24 (squares: 841/576 <
8833/576). -/
theorem sqrtD_gt : (29/24 : ℝ) < Real.sqrt (11/12) * Real.sqrt (803/48) := by
  rw [← Real.sqrt_mul (by norm_num : (0:ℝ) ≤ 11/12)]
  rw [show (11/12 : ℝ) * (803/48) = 8833/576 by norm_num]
  exact lt_sqrt_of_sq (by norm_num) (by norm_num)

/-- Reduction of a pcpE0 correlation to the indexed sum with resolved
means and stds. -/
theorem modeCorr_pcpE0_eval (prof : List ℝ) (hp : prof.length = 12) (muX sigX : ℝ)
    (hmu : listMean prof = muX) (hsig : stdSum prof muX = sigX) (s : ℤ) :
    modeCorr pcpE0 prof s =
      (∑ i ∈ Finset.range 12, (pcpE0.getD i 0 - 1/12) *
        (prof.getD (((i : ℤ) - s) % 12).toNat 0 - muX)) / (Real.sqrt (11/12) * sigX) := by
  unfold modeCorr
  dsimp only
  rw [pcpE0_length, resizeProfile_twelve prof hp, pcpE0_mean, pcpE0_std, hmu, hsig,
    correlation_eq_sum, pcpE0_length]
  norm_num

/-- Reduction of a pcpE1 correlation to the indexed sum with resolved
means and stds. -/
theorem modeCorr_pcpE1_eval (prof : List ℝ) (hp : prof.length = 12) (muX sigX : ℝ)
    (hmu : listMean prof = muX) (hsig : stdSum prof muX = sigX) (s : ℤ) :
    modeCorr pcpE1 prof s =
      (∑ i ∈ Finset.range 12, (pcpE1.getD i 0 - 1/12) *
        (prof.getD (((i : ℤ) - s) % 12).toNat 0 - muX)) / (Real.sqrt (11/12) * sigX) := by
  unfold modeCorr
  dsimp only
  rw [pcpE1_length, resizeProfile_twelve prof hp, pcpE1_mean, pcpE1_std, hmu, hsig,
    correlation_eq_sum, pcpE1_length]
  norm_num

theorem corrE0M_0 : modeCorr pcpE0 temperleyM 0 =
    ((43:ℝ)/24) / (Real.sqrt (11/12) * Real.sqrt (803/48)) := by
  rw [modeCorr_pcpE0_eval temperleyM temperleyM_length (77/24) (Real.sqrt (803/48)) temperleyM_mean temperleyM_std 0]
  simp only [Finset.sum_range_succ, Finset.sum_range_zero, Nat.cast_ofNat,
    Nat.cast_zero, Nat.cast_one, zero_add]
  rw [show ((((0:ℤ)) - 0) % 12).toNat = 0 from by decide,
    show ((((1:ℤ)) - 0) % 12).toNat = 1 from by decide,
    show ((((2:ℤ)) - 0) % 12).toNat = 2 from by decide,
    show ((((3:ℤ)) - 0) % 12).toNat = 3 from by decide,
    show ((((4:ℤ)) - 0) % 12).toNat = 4 from by decide,
    show ((((5:ℤ)) - 0) % 12).toNat = 5 from by decide,
    show ((((6:ℤ)) - 0) % 12).toNat = 6 from by decide,
    show ((((7:ℤ)) - 0) % 12).toNat = 7 from by decide,
    show ((((8:ℤ)) - 0) % 12).toNat = 8 from by decide,
    show ((((9:ℤ)) - 0) % 12).toNat = 9 from by decide,
    show ((((10:ℤ)) - 0) % 12).toNat = 10 from by decide,
    show ((((11:ℤ)) - 0) % 12).toNat = 11 from by decide]
  rw [pcpE0_getD_0, pcpE0_getD_1, pcpE0_getD_2, pcpE0_getD_3, pcpE0_getD_4, pcpE0_getD_5, pcpE0_getD_6, pcpE0_getD_7, pcpE0_getD_8, pcpE0_getD_9, pcpE0_getD_10, pcpE0_getD_11, temperleyM_getD_0, temperleyM_getD_1, temperleyM_getD_2, temperleyM_getD_3, temperleyM_getD_4, temperleyM_getD_5, temperleyM_getD_6, temperleyM_getD_7, temperleyM_getD_8, temperleyM_getD_9, temperleyM_getD_10, temperleyM_getD_11]
  congr 1
  norm_num

theorem corrE0M_1 : modeCorr pcpE0 temperleyM 1 =
    ((19:ℝ)/24) / (Real.sqrt (11/12) * Real.sqrt (803/48)) := by
  rw [modeCorr_pcpE0_eval temperleyM temperleyM_length (77/24) (Real.sqrt (803/48)) temperleyM_mean temperleyM_std 1]
  simp only [Finset.sum_range_succ, Finset.sum_range_zero, Nat.cast_ofNat,
    Nat.cast_zero, Nat.cast_one, zero_add]
  rw [show ((((0:ℤ)) - 1) % 12).toNat = 11 from by decide,
    show ((((1:ℤ)) - 1) % 12).toNat = 0 from by decide,
    show ((((2:ℤ)) - 1) % 12).toNat = 1 from by decide,
    show ((((3:ℤ)) - 1) % 12).toNat = 2 from by decide,
    show ((((4:ℤ)) - 1) % 12).toNat = 3 from by decide,
    show ((((5:ℤ)) - 1) % 12).toNat = 4 from by decide,
    show ((((6:ℤ)) - 1) % 12).toNat = 5 from by decide,
    show ((((7:ℤ)) - 1) % 12).toNat = 6 from by decide,
    show ((((8:ℤ)) - 1) % 12).toNat = 7 from by decide,
    show ((((9:ℤ)) - 1) % 12).toNat = 8 from by decide,
    show ((((10:ℤ)) - 1) % 12).toNat = 9 from by decide,
    show ((((11:ℤ)) - 1) % 12).toNat = 10 from by decide]
  rw [pcpE0_getD_0, pcpE0_getD_1, pcpE0_getD_2, pcpE0_getD_3, pcpE0_getD_4, pcpE0_getD_5, pcpE0_getD_6, pcpE0_getD_7, pcpE0_getD_8, pcpE0_getD_9, pcpE0_getD_10, pcpE0_getD_11, temperleyM_getD_0, temperleyM_getD_1, temperleyM_getD_2, temperleyM_getD_3, temperleyM_getD_4, temperleyM_getD_5, temperleyM_getD_6, temperleyM_getD_7, temperleyM_getD_8, temperleyM_getD_9, temperleyM_getD_10, temperleyM_getD_11]
  congr 1
  norm_num

theorem corrE0M_2 : modeCorr pcpE0 temperleyM 2 =
    ((-41:ℝ)/24) / (Real.sqrt (11/12) * Real.sqrt (803/48)) := by
  rw [modeCorr_pcpE0_eval temperleyM temperleyM_length (77/24) (Real.sqrt (803/48)) temperleyM_mean temperleyM_std 2]
  simp only [Finset.sum_range_succ, Finset.sum_range_zero, Nat.cast_ofNat,
    Nat.cast_zero, Nat.cast_one, zero_add]
  rw [show ((((0:ℤ)) - 2) % 12).toNat = 10 from by decide,
    show ((((1:ℤ)) - 2) % 12).toNat = 11 from by decide,
    show ((((2:ℤ)) - 2) % 12).toNat = 0 from by decide,
    show ((((3:ℤ)) - 2) % 12).toNat = 1 from by decide,
    show ((((4:ℤ)) - 2) % 12).toNat = 2 from by decide,
    show ((((5:ℤ)) - 2) % 12).toNat = 3 from by decide,
    show ((((6:ℤ)) - 2) % 12).toNat = 4 from by decide,
    show ((((7:ℤ)) - 2) % 12).toNat = 5 from by decide,
    show ((((8:ℤ)) - 2) % 12).toNat = 6 from by decide,
    show ((((9:ℤ)) - 2) % 12).toNat = 7 from by decide,
    show ((((10:ℤ)) - 2) % 12).toNat = 8 from by decide,
    show ((((11:ℤ)) - 2) % 12).toNat = 9 from by decide]
  rw [pcpE0_getD_0, pcpE0_getD_1, pcpE0_getD_2, pcpE0_getD_3, pcpE0_getD_4, pcpE0_getD_5, pcpE0_getD_6, pcpE0_getD_7, pcpE0_getD_8, pcpE0_getD_9, pcpE0_getD_10, pcpE0_getD_11, temperleyM_getD_0, temperleyM_getD_1, temperleyM_getD_2, temperleyM_getD_3, temperleyM_getD_4, temperleyM_getD_5, temperleyM_getD_6, temperleyM_getD_7, temperleyM_getD_8, temperleyM_getD_9, temperleyM_getD_10, temperleyM_getD_11]
  congr 1
  norm_num

theorem corrE0M_3 : modeCorr pcpE0 temperleyM 3 =
    ((7:ℝ)/24) / (Real.sqrt (11/12) * Real.sqrt (803/48)) := by
  rw [modeCorr_pcpE0_eval temperleyM temperleyM_length (77/24) (Real.sqrt (803/48)) temperleyM_mean temperleyM_std 3]
  simp only [Finset.sum_range_succ, Finset.sum_range_zero, Nat.cast_ofNat,
    Nat.cast_zero, Nat.cast_one, zero_add]
  rw [show ((((0:ℤ)) - 3) % 12).toNat = 9 from by decide,
    show ((((1:ℤ)) - 3) % 12).toNat = 10 from by decide,
    show ((((2:ℤ)) - 3) % 12).toNat = 11 from by decide,
    show ((((3:ℤ)) - 3) % 12).toNat = 0 from by decide,
    show ((((4:ℤ)) - 3) % 12).toNat = 1 from by decide,
    show ((((5:ℤ)) - 3) % 12).toNat = 2 from by decide,
    show ((((6:ℤ)) - 3) % 12).toNat = 3 from by decide,
    show ((((7:ℤ)) - 3) % 12).toNat = 4 from by decide,
    show ((((8:ℤ)) - 3) % 12).toNat = 5 from by decide,
    show ((((9:ℤ)) - 3) % 12).toNat = 6 from by decide,
    show ((((10:ℤ)) - 3) % 12).toNat = 7 from by decide,
    show ((((11:ℤ)) - 3) % 12).toNat = 8 from by decide]
  rw [pcpE0_getD_0, pcpE0_getD_1, pcpE0_getD_2, pcpE0_getD_3, pcpE0_getD_4, pcpE0_getD_5, pcpE0_getD_6, pcpE0_getD_7, pcpE0_getD_8, pcpE0_getD_9, pcpE0_getD_10, pcpE0_getD_11, temperleyM_getD_0, temperleyM_getD_1, temperleyM_getD_2, temperleyM_getD_3, temperleyM_getD_4, temperleyM_getD_5, temperleyM_getD_6, temperleyM_getD_7, temperleyM_getD_8, temperleyM_getD_9, temperleyM_getD_10, temperleyM_getD_11]
  congr 1
  norm_num

theorem corrE0M_4 : modeCorr pcpE0 temperleyM 4 =
    ((-29:ℝ)/24) / (Real.sqrt (11/12) * Real.sqrt (803/48)) := by
  rw [modeCorr_pcpE0_eval temperleyM temperleyM_length (77/24) (Real.sqrt (803/48)) temperleyM_mean temperleyM_std 4]
  simp only [Finset.sum_range_succ, Finset.sum_range_zero, Nat.cast_ofNat,
    Nat.cast_zero, Nat.cast_one, zero_add]
  rw [show ((((0:ℤ)) - 4) % 12).toNat = 8 from by decide,
    show ((((1:ℤ)) - 4) % 12).toNat = 9 from by decide,
    show ((((2:ℤ)) - 4) % 12).toNat = 10 from by decide,
    show ((((3:ℤ)) - 4) % 12).toNat = 11 from by decide,
    show ((((4:ℤ)) - 4) % 12).toNat = 0 from by decide,
    show ((((5:ℤ)) - 4) % 12).toNat = 1 from by decide,
    show ((((6:ℤ)) - 4) % 12).toNat = 2 from by decide,
    show ((((7:ℤ)) - 4) % 12).toNat = 3 from by decide,
    show ((((8:ℤ)) - 4) % 12).toNat = 4 from by decide,
    show ((((9:ℤ)) - 4) % 12).toNat = 5 from by decide,
    show ((((10:ℤ)) - 4) % 12).toNat = 6 from by decide,
    show ((((11:ℤ)) - 4) % 12).toNat = 7 from by decide]
  rw [pcpE0_getD_0, pcpE0_getD_1, pcpE0_getD_2, pcpE0_getD_3, pcpE0_getD_4, pcpE0_getD_5, pcpE0_getD_6, pcpE0_getD_7, pcpE0_getD_8, pcpE0_getD_9, pcpE0_getD_10, pcpE0_getD_11, temperleyM_getD_0, temperleyM_getD_1, temperleyM_getD_2, temperleyM_getD_3, temperleyM_getD_4, temperleyM_getD_5, temperleyM_getD_6, temperleyM_getD_7, temperleyM_getD_8, temperleyM_getD_9, temperleyM_getD_10, temperleyM_getD_11]
  congr 1
  norm_num

theorem corrE0M_5 : modeCorr pcpE0 temperleyM 5 =
    ((31:ℝ)/24) / (Real.sqrt (11/12) * Real.sqrt (803/48)) := by
  rw [modeCorr_pcpE0_eval temperleyM temperleyM_length (77/24) (Real.sqrt (803/48)) temperleyM_mean temperleyM_std 5]
  simp only [Finset.sum_range_succ, Finset.sum_range_zero, Nat.cast_ofNat,
    Nat.cast_zero, Nat.cast_one, zero_add]
  rw [show ((((0:ℤ)) - 5) % 12).toNat = 7 from by decide,
    show ((((1:ℤ)) - 5) % 12).toNat = 8 from by decide,
    show ((((2:ℤ)) - 5) % 12).toNat = 9 from by decide,
    show ((((3:ℤ)) - 5) % 12).toNat = 10 from by decide,
    show ((((4:ℤ)) - 5) % 12).toNat = 11 from by decide,
    show ((((5:ℤ)) - 5) % 12).toNat = 0 from by decide,
    show ((((6:ℤ)) - 5) % 12).toNat = 1 from by decide,
    show ((((7:ℤ)) - 5) % 12).toNat = 2 from by decide,
    show ((((8:ℤ)) - 5) % 12).toNat = 3 from by decide,
    show ((((9:ℤ)) - 5) % 12).toNat = 4 from by decide,
    show ((((10:ℤ)) - 5) % 12).toNat = 5 from by decide,
    show ((((11:ℤ)) - 5) % 12).toNat = 6 from by decide]
  rw [pcpE0_getD_0, pcpE0_getD_1, pcpE0_getD_2, pcpE0_getD_3, pcpE0_getD_4, pcpE0_getD_5, pcpE0_getD_6, pcpE0_getD_7, pcpE0_getD_8, pcpE0_getD_9, pcpE0_getD_10, pcpE0_getD_11, temperleyM_getD_0, temperleyM_getD_1, temperleyM_getD_2, temperleyM_getD_3, temperleyM_getD_4, temperleyM_getD_5, temperleyM_getD_6, temperleyM_getD_7, temperleyM_getD_8, temperleyM_getD_9, temperleyM_getD_10, temperleyM_getD_11]
  congr 1
  norm_num

theorem corrE0M_6 : modeCorr pcpE0 temperleyM 6 =
    ((-29:ℝ)/24) / (Real.sqrt (11/12) * Real.sqrt (803/48)) := by
  rw [modeCorr_pcpE0_eval temperleyM temperleyM_length (77/24) (Real.sqrt (803/48)) temperleyM_mean temperleyM_std 6]
  simp only [Finset.sum_range_succ, Finset.sum_range_zero, Nat.cast_ofNat,
    Nat.cast_zero, Nat.cast_one, zero_add]
  rw [show ((((0:ℤ)) - 6) % 12).toNat = 6 from by decide,
    show ((((1:ℤ)) - 6) % 12).toNat = 7 from by decide,
    show ((((2:ℤ)) - 6) % 12).toNat = 8 from by decide,
    show ((((3:ℤ)) - 6) % 12).toNat = 9 from by decide,
    show ((((4:ℤ)) - 6) % 12).toNat = 10 from by decide,
    show ((((5:ℤ)) - 6) % 12).toNat = 11 from by decide,
    show ((((6:ℤ)) - 6) % 12).toNat = 0 from by decide,
    show ((((7:ℤ)) - 6) % 12).toNat = 1 from by decide,
    show ((((8:ℤ)) - 6) % 12).toNat = 2 from by decide,
    show ((((9:ℤ)) - 6) % 12).toNat = 3 from by decide,
    show ((((10:ℤ)) - 6) % 12).toNat = 4 from by decide,
    show ((((11:ℤ)) - 6) % 12).toNat = 5 from by decide]
  rw [pcpE0_getD_0, pcpE0_getD_1, pcpE0_getD_2, pcpE0_getD_3, pcpE0_getD_4, pcpE0_getD_5, pcpE0_getD_6, pcpE0_getD_7, pcpE0_getD_8, pcpE0_getD_9, pcpE0_getD_10, pcpE0_getD_11, temperleyM_getD_0, temperleyM_getD_1, temperleyM_getD_2, temperleyM_getD_3, temperleyM_getD_4, temperleyM_getD_5, temperleyM_getD_6, temperleyM_getD_7, temperleyM_getD_8, temperleyM_getD_9, temperleyM_getD_10, temperleyM_getD_11]
  congr 1
  norm_num

theorem corrE0M_7 : modeCorr pcpE0 temperleyM 7 =
    ((19:ℝ)/24) / (Real.sqrt (11/12) * Real.sqrt (803/48)) := by
  rw [modeCorr_pcpE0_eval temperleyM temperleyM_length (77/24) (Real.sqrt (803/48)) temperleyM_mean temperleyM_std 7]
  simp only [Finset.sum_range_succ, Finset.sum_range_zero, Nat.cast_ofNat,
    Nat.cast_zero, Nat.cast_one, zero_add]
  rw [show ((((0:ℤ)) - 7) % 12).toNat = 5 from by decide,
    show ((((1:ℤ)) - 7) % 12).toNat = 6 from by decide,
    show ((((2:ℤ)) - 7) % 12).toNat = 7 from by decide,
    show ((((3:ℤ)) - 7) % 12).toNat = 8 from by decide,
    show ((((4:ℤ)) - 7) % 12).toNat = 9 from by decide,
    show ((((5:ℤ)) - 7) % 12).toNat = 10 from by decide,
    show ((((6:ℤ)) - 7) % 12).toNat = 11 from by decide,
    show ((((7:ℤ)) - 7) % 12).toNat = 0 from by decide,
    show ((((8:ℤ)) - 7) % 12).toNat = 1 from by decide,
    show ((((9:ℤ)) - 7) % 12).toNat = 2 from by decide,
    show ((((10:ℤ)) - 7) % 12).toNat = 3 from by decide,
    show ((((11:ℤ)) - 7) % 12).toNat = 4 from by decide]
  rw [pcpE0_getD_0, pcpE0_getD_1, pcpE0_getD_2, pcpE0_getD_3, pcpE0_getD_4, pcpE0_getD_5, pcpE0_getD_6, pcpE0_getD_7, pcpE0_getD_8, pcpE0_getD_9, pcpE0_getD_10, pcpE0_getD_11, temperleyM_getD_0, temperleyM_getD_1, temperleyM_getD_2, temperleyM_getD_3, temperleyM_getD_4, temperleyM_getD_5, temperleyM_getD_6, temperleyM_getD_7, temperleyM_getD_8, temperleyM_getD_9, temperleyM_getD_10, temperleyM_getD_11]
  congr 1
  norm_num

theorem corrE0M_8 : modeCorr pcpE0 temperleyM 8 =
    ((31:ℝ)/24) / (Real.sqrt (11/12) * Real.sqrt (803/48)) := by
  rw [modeCorr_pcpE0_eval temperleyM temperleyM_length (77/24) (Real.sqrt (803/48)) temperleyM_mean temperleyM_std 8]
  simp only [Finset.sum_range_succ, Finset.sum_range_zero, Nat.cast_ofNat,
    Nat.cast_zero, Nat.cast_one, zero_add]
  rw [show ((((0:ℤ)) - 8) % 12).toNat = 4 from by decide,
    show ((((1:ℤ)) - 8) % 12).toNat = 5 from by decide,
    show ((((2:ℤ)) - 8) % 12).toNat = 6 from by decide,
    show ((((3:ℤ)) - 8) % 12).toNat = 7 from by decide,
    show ((((4:ℤ)) - 8) % 12).toNat = 8 from by decide,
    show ((((5:ℤ)) - 8) % 12).toNat = 9 from by decide,
    show ((((6:ℤ)) - 8) % 12).toNat = 10 from by decide,
    show ((((7:ℤ)) - 8) % 12).toNat = 11 from by decide,
    show ((((8:ℤ)) - 8) % 12).toNat = 0 from by decide,
    show ((((9:ℤ)) - 8) % 12).toNat = 1 from by decide,
    show ((((10:ℤ)) - 8) % 12).toNat = 2 from by decide,
    show ((((11:ℤ)) - 8) % 12).toNat = 3 from by decide]
  rw [pcpE0_getD_0, pcpE0_getD_1, pcpE0_getD_2, pcpE0_getD_3, pcpE0_getD_4, pcpE0_getD_5, pcpE0_getD_6, pcpE0_getD_7, pcpE0_getD_8, pcpE0_getD_9, pcpE0_getD_10, pcpE0_getD_11, temperleyM_getD_0, temperleyM_getD_1, temperleyM_getD_2, temperleyM_getD_3, temperleyM_getD_4, temperleyM_getD_5, temperleyM_getD_6, temperleyM_getD_7, temperleyM_getD_8, temperleyM_getD_9, temperleyM_getD_10, temperleyM_getD_11]
  congr 1
  norm_num

theorem corrE0M_9 : modeCorr pcpE0 temperleyM 9 =
    ((-29:ℝ)/24) / (Real.sqrt (11/12) * Real.sqrt (803/48)) := by
  rw [modeCorr_pcpE0_eval temperleyM temperleyM_length (77/24) (Real.sqrt (803/48)) temperleyM_mean temperleyM_std 9]
  simp only [Finset.sum_range_succ, Finset.sum_range_zero, Nat.cast_ofNat,
    Nat.cast_zero, Nat.cast_one, zero_add]
  rw [show ((((0:ℤ)) - 9) % 12).toNat = 3 from by decide,
    show ((((1:ℤ)) - 9) % 12).toNat = 4 from by decide,
    show ((((2:ℤ)) - 9) % 12).toNat = 5 from by decide,
    show ((((3:ℤ)) - 9) % 12).toNat = 6 from by decide,
    show ((((4:ℤ)) - 9) % 12).toNat = 7 from by decide,
    show ((((5:ℤ)) - 9) % 12).toNat = 8 from by decide,
    show ((((6:ℤ)) - 9) % 12).toNat = 9 from by decide,
    show ((((7:ℤ)) - 9) % 12).toNat = 10 from by decide,
    show ((((8:ℤ)) - 9) % 12).toNat = 11 from by decide,
    show ((((9:ℤ)) - 9) % 12).toNat = 0 from by decide,
    show ((((10:ℤ)) - 9) % 12).toNat = 1 from by decide,
    show ((((11:ℤ)) - 9) % 12).toNat = 2 from by decide]
  rw [pcpE0_getD_0, pcpE0_getD_1, pcpE0_getD_2, pcpE0_getD_3, pcpE0_getD_4, pcpE0_getD_5, pcpE0_getD_6, pcpE0_getD_7, pcpE0_getD_8, pcpE0_getD_9, pcpE0_getD_10, pcpE0_getD_11, temperleyM_getD_0, temperleyM_getD_1, temperleyM_getD_2, temperleyM_getD_3, temperleyM_getD_4, temperleyM_getD_5, temperleyM_getD_6, temperleyM_getD_7, temperleyM_getD_8, temperleyM_getD_9, temperleyM_getD_10, temperleyM_getD_11]
  congr 1
  norm_num

theorem corrE0M_10 : modeCorr pcpE0 temperleyM 10 =
    ((7:ℝ)/24) / (Real.sqrt (11/12) * Real.sqrt (803/48)) := by
  rw [modeCorr_pcpE0_eval temperleyM temperleyM_length (77/24) (Real.sqrt (803/48)) temperleyM_mean temperleyM_std 10]
  simp only [Finset.sum_range_succ, Finset.sum_range_zero, Nat.cast_ofNat,
    Nat.cast_zero, Nat.cast_one, zero_add]
  rw [show ((((0:ℤ)) - 10) % 12).toNat = 2 from by decide,
    show ((((1:ℤ)) - 10) % 12).toNat = 3 from by decide,
    show ((((2:ℤ)) - 10) % 12).toNat = 4 from by decide,
    show ((((3:ℤ)) - 10) % 12).toNat = 5 from by decide,
    show ((((4:ℤ)) - 10) % 12).toNat = 6 from by decide,
    show ((((5:ℤ)) - 10) % 12).toNat = 7 from by decide,
    show ((((6:ℤ)) - 10) % 12).toNat = 8 from by decide,
    show ((((7:ℤ)) - 10) % 12).toNat = 9 from by decide,
    show ((((8:ℤ)) - 10) % 12).toNat = 10 from by decide,
    show ((((9:ℤ)) - 10) % 12).toNat = 11 from by decide,
    show ((((10:ℤ)) - 10) % 12).toNat = 0 from by decide,
    show ((((11:ℤ)) - 10) % 12).toNat = 1 from by decide]
  rw [pcpE0_getD_0, pcpE0_getD_1, pcpE0_getD_2, pcpE0_getD_3, pcpE0_getD_4, pcpE0_getD_5, pcpE0_getD_6, pcpE0_getD_7, pcpE0_getD_8, pcpE0_getD_9, pcpE0_getD_10, pcpE0_getD_11, temperleyM_getD_0, temperleyM_getD_1, temperleyM_getD_2, temperleyM_getD_3, temperleyM_getD_4, temperleyM_getD_5, temperleyM_getD_6, temperleyM_getD_7, temperleyM_getD_8, temperleyM_getD_9, temperleyM_getD_10, temperleyM_getD_11]
  congr 1
  norm_num

theorem corrE0M_11 : modeCorr pcpE0 temperleyM 11 =
    ((-29:ℝ)/24) / (Real.sqrt (11/12) * Real.sqrt (803/48)) := by
  rw [modeCorr_pcpE0_eval temperleyM temperleyM_length (77/24) (Real.sqrt (803/48)) temperleyM_mean temperleyM_std 11]
  simp only [Finset.sum_range_succ, Finset.sum_range_zero, Nat.cast_ofNat,
    Nat.cast_zero, Nat.cast_one, zero_add]
  rw [show ((((0:ℤ)) - 11) % 12).toNat = 1 from by decide,
    show ((((1:ℤ)) - 11) % 12).toNat = 2 from by decide,
    show ((((2:ℤ)) - 11) % 12).toNat = 3 from by decide,
    show ((((3:ℤ)) - 11) % 12).toNat = 4 from by decide,
    show ((((4:ℤ)) - 11) % 12).toNat = 5 from by decide,
    show ((((5:ℤ)) - 11) % 12).toNat = 6 from by decide,
    show ((((6:ℤ)) - 11) % 12).toNat = 7 from by decide,
    show ((((7:ℤ)) - 11) % 12).toNat = 8 from by decide,
    show ((((8:ℤ)) - 11) % 12).toNat = 9 from by decide,
    show ((((9:ℤ)) - 11) % 12).toNat = 10 from by decide,
    show ((((10:ℤ)) - 11) % 12).toNat = 11 from by decide,
    show ((((11:ℤ)) - 11) % 12).toNat = 0 from by decide]
  rw [pcpE0_getD_0, pcpE0_getD_1, pcpE0_getD_2, pcpE0_getD_3, pcpE0_getD_4, pcpE0_getD_5, pcpE0_getD_6, pcpE0_getD_7, pcpE0_getD_8, pcpE0_getD_9, pcpE0_getD_10, pcpE0_getD_11, temperleyM_getD_0, temperleyM_getD_1, temperleyM_getD_2, temperleyM_getD_3, temperleyM_getD_4, temperleyM_getD_5, temperleyM_getD_6, temperleyM_getD_7, temperleyM_getD_8, temperleyM_getD_9, temperleyM_getD_10, temperleyM_getD_11]
  congr 1
  norm_num

theorem corrE0m_0 : modeCorr pcpE0 temperleym 0 =
    ((43:ℝ)/24) / (Real.sqrt (11/12) * Real.sqrt (803/48)) := by
  rw [modeCorr_pcpE0_eval temperleym temperleym_length (77/24) (Real.sqrt (803/48)) temperleym_mean temperleym_std 0]
  simp only [Finset.sum_range_succ, Finset.sum_range_zero, Nat.cast_ofNat,
    Nat.cast_zero, Nat.cast_one, zero_add]
  rw [show ((((0:ℤ)) - 0) % 12).toNat = 0 from by decide,
    show ((((1:ℤ)) - 0) % 12).toNat = 1 from by decide,
    show ((((2:ℤ)) - 0) % 12).toNat = 2 from by decide,
    show ((((3:ℤ)) - 0) % 12).toNat = 3 from by decide,
    show ((((4:ℤ)) - 0) % 12).toNat = 4 from by decide,
    show ((((5:ℤ)) - 0) % 12).toNat = 5 from by decide,
    show ((((6:ℤ)) - 0) % 12).toNat = 6 from by decide,
    show ((((7:ℤ)) - 0) % 12).toNat = 7 from by decide,
    show ((((8:ℤ)) - 0) % 12).toNat = 8 from by decide,
    show ((((9:ℤ)) - 0) % 12).toNat = 9 from by decide,
    show ((((10:ℤ)) - 0) % 12).toNat = 10 from by decide,
    show ((((11:ℤ)) - 0) % 12).toNat = 11 from by decide]
  rw [pcpE0_getD_0, pcpE0_getD_1, pcpE0_getD_2, pcpE0_getD_3, pcpE0_getD_4, pcpE0_getD_5, pcpE0_getD_6, pcpE0_getD_7, pcpE0_getD_8, pcpE0_getD_9, pcpE0_getD_10, pcpE0_getD_11, temperleym_getD_0, temperleym_getD_1, temperleym_getD_2, temperleym_getD_3, temperleym_getD_4, temperleym_getD_5, temperleym_getD_6, temperleym_getD_7, temperleym_getD_8, temperleym_getD_9, temperleym_getD_10, temperleym_getD_11]
  congr 1
  norm_num

theorem corrE0m_1 : modeCorr pcpE0 temperleym 1 =
    ((19:ℝ)/24) / (Real.sqrt (11/12) * Real.sqrt (803/48)) := by
  rw [modeCorr_pcpE0_eval temperleym temperleym_length (77/24) (Real.sqrt (803/48)) temperleym_mean temperleym_std 1]
  simp only [Finset.sum_range_succ, Finset.sum_range_zero, Nat.cast_ofNat,
    Nat.cast_zero, Nat.cast_one, zero_add]
  rw [show ((((0:ℤ)) - 1) % 12).toNat = 11 from by decide,
    show ((((1:ℤ)) - 1) % 12).toNat = 0 from by decide,
    show ((((2:ℤ)) - 1) % 12).toNat = 1 from by decide,
    show ((((3:ℤ)) - 1) % 12).toNat = 2 from by decide,
    show ((((4:ℤ)) - 1) % 12).toNat = 3 from by decide,
    show ((((5:ℤ)) - 1) % 12).toNat = 4 from by decide,
    show ((((6:ℤ)) - 1) % 12).toNat = 5 from by decide,
    show ((((7:ℤ)) - 1) % 12).toNat = 6 from by decide,
    show ((((8:ℤ)) - 1) % 12).toNat = 7 from by decide,
    show ((((9:ℤ)) - 1) % 12).toNat = 8 from by decide,
    show ((((10:ℤ)) - 1) % 12).toNat = 9 from by decide,
    show ((((11:ℤ)) - 1) % 12).toNat = 10 from by decide]
  rw [pcpE0_getD_0, pcpE0_getD_1, pcpE0_getD_2, pcpE0_getD_3, pcpE0_getD_4, pcpE0_getD_5, pcpE0_getD_6, pcpE0_getD_7, pcpE0_getD_8, pcpE0_getD_9, pcpE0_getD_10, pcpE0_getD_11, temperleym_getD_0, temperleym_getD_1, temperleym_getD_2, temperleym_getD_3, temperleym_getD_4, temperleym_getD_5, temperleym_getD_6, temperleym_getD_7, temperleym_getD_8, temperleym_getD_9, temperleym_getD_10, temperleym_getD_11]
  congr 1
  norm_num

theorem corrE0m_2 : modeCorr pcpE0 temperleym 2 =
    ((-41:ℝ)/24) / (Real.sqrt (11/12) * Real.sqrt (803/48)) := by
  rw [modeCorr_pcpE0_eval temperleym temperleym_length (77/24) (Real.sqrt (803/48)) temperleym_mean temperleym_std 2]
  simp only [Finset.sum_range_succ, Finset.sum_range_zero, Nat.cast_ofNat,
    Nat.cast_zero, Nat.cast_one, zero_add]
  rw [show ((((0:ℤ)) - 2) % 12).toNat = 10 from by decide,
    show ((((1:ℤ)) - 2) % 12).toNat = 11 from by decide,
    show ((((2:ℤ)) - 2) % 12).toNat = 0 from by decide,
    show ((((3:ℤ)) - 2) % 12).toNat = 1 from by decide,
    show ((((4:ℤ)) - 2) % 12).toNat = 2 from by decide,
    show ((((5:ℤ)) - 2) % 12).toNat = 3 from by decide,
    show ((((6:ℤ)) - 2) % 12).toNat = 4 from by decide,
    show ((((7:ℤ)) - 2) % 12).toNat = 5 from by decide,
    show ((((8:ℤ)) - 2) % 12).toNat = 6 from by decide,
    show ((((9:ℤ)) - 2) % 12).toNat = 7 from by decide,
    show ((((10:ℤ)) - 2) % 12).toNat = 8 from by decide,
    show ((((11:ℤ)) - 2) % 12).toNat = 9 from by decide]
  rw [pcpE0_getD_0, pcpE0_getD_1, pcpE0_getD_2, pcpE0_getD_3, pcpE0_getD_4, pcpE0_getD_5, pcpE0_getD_6, pcpE0_getD_7, pcpE0_getD_8, pcpE0_getD_9, pcpE0_getD_10, pcpE0_getD_11, temperleym_getD_0, temperleym_getD_1, temperleym_getD_2, temperleym_getD_3, temperleym_getD_4, temperleym_getD_5, temperleym_getD_6, temperleym_getD_7, temperleym_getD_8, temperleym_getD_9, temperleym_getD_10, temperleym_getD_11]
  congr 1
  norm_num

theorem corrE0m_3 : modeCorr pcpE0 temperleym 3 =
    ((-29:ℝ)/24) / (Real.sqrt (11/12) * Real.sqrt (803/48)) := by
  rw [modeCorr_pcpE0_eval temperleym temperleym_length (77/24) (Real.sqrt (803/48)) temperleym_mean temperleym_std 3]
  simp only [Finset.sum_range_succ, Finset.sum_range_zero, Nat.cast_ofNat,
    Nat.cast_zero, Nat.cast_one, zero_add]
  rw [show ((((0:ℤ)) - 3) % 12).toNat = 9 from by decide,
    show ((((1:ℤ)) - 3) % 12).toNat = 10 from by decide,
    show ((((2:ℤ)) - 3) % 12).toNat = 11 from by decide,
    show ((((3:ℤ)) - 3) % 12).toNat = 0 from by decide,
    show ((((4:ℤ)) - 3) % 12).toNat = 1 from by decide,
    show ((((5:ℤ)) - 3) % 12).toNat = 2 from by decide,
    show ((((6:ℤ)) - 3) % 12).toNat = 3 from by decide,
    show ((((7:ℤ)) - 3) % 12).toNat = 4 from by decide,
    show ((((8:ℤ)) - 3) % 12).toNat = 5 from by decide,
    show ((((9:ℤ)) - 3) % 12).toNat = 6 from by decide,
    show ((((10:ℤ)) - 3) % 12).toNat = 7 from by decide,
    show ((((11:ℤ)) - 3) % 12).toNat = 8 from by decide]
  rw [pcpE0_getD_0, pcpE0_getD_1, pcpE0_getD_2, pcpE0_getD_3, pcpE0_getD_4, pcpE0_getD_5, pcpE0_getD_6, pcpE0_getD_7, pcpE0_getD_8, pcpE0_getD_9, pcpE0_getD_10, pcpE0_getD_11, temperleym_getD_0, temperleym_getD_1, temperleym_getD_2, temperleym_getD_3, temperleym_getD_4, temperleym_getD_5, temperleym_getD_6, temperleym_getD_7, temperleym_getD_8, temperleym_getD_9, temperleym_getD_10, temperleym_getD_11]
  congr 1
  norm_num

theorem corrE0m_4 : modeCorr pcpE0 temperleym 4 =
    ((7:ℝ)/24) / (Real.sqrt (11/12) * Real.sqrt (803/48)) := by
  rw [modeCorr_pcpE0_eval temperleym temperleym_length (77/24) (Real.sqrt (803/48)) temperleym_mean temperleym_std 4]
  simp only [Finset.sum_range_succ, Finset.sum_range_zero, Nat.cast_ofNat,
    Nat.cast_zero, Nat.cast_one, zero_add]
  rw [show ((((0:ℤ)) - 4) % 12).toNat = 8 from by decide,
    show ((((1:ℤ)) - 4) % 12).toNat = 9 from by decide,
    show ((((2:ℤ)) - 4) % 12).toNat = 10 from by decide,
    show ((((3:ℤ)) - 4) % 12).toNat = 11 from by decide,
    show ((((4:ℤ)) - 4) % 12).toNat = 0 from by decide,
    show ((((5:ℤ)) - 4) % 12).toNat = 1 from by decide,
    show ((((6:ℤ)) - 4) % 12).toNat = 2 from by decide,
    show ((((7:ℤ)) - 4) % 12).toNat = 3 from by decide,
    show ((((8:ℤ)) - 4) % 12).toNat = 4 from by decide,
    show ((((9:ℤ)) - 4) % 12).toNat = 5 from by decide,
    show ((((10:ℤ)) - 4) % 12).toNat = 6 from by decide,
    show ((((11:ℤ)) - 4) % 12).toNat = 7 from by decide]
  rw [pcpE0_getD_0, pcpE0_getD_1, pcpE0_getD_2, pcpE0_getD_3, pcpE0_getD_4, pcpE0_getD_5, pcpE0_getD_6, pcpE0_getD_7, pcpE0_getD_8, pcpE0_getD_9, pcpE0_getD_10, pcpE0_getD_11, temperleym_getD_0, temperleym_getD_1, temperleym_getD_2, temperleym_getD_3, temperleym_getD_4, temperleym_getD_5, temperleym_getD_6, temperleym_getD_7, temperleym_getD_8, temperleym_getD_9, temperleym_getD_10, temperleym_getD_11]
  congr 1
  norm_num

theorem corrE0m_5 : modeCorr pcpE0 temperleym 5 =
    ((31:ℝ)/24) / (Real.sqrt (11/12) * Real.sqrt (803/48)) := by
  rw [modeCorr_pcpE0_eval temperleym temperleym_length (77/24) (Real.sqrt (803/48)) temperleym_mean temperleym_std 5]
  simp only [Finset.sum_range_succ, Finset.sum_range_zero, Nat.cast_ofNat,
    Nat.cast_zero, Nat.cast_one, zero_add]
  rw [show ((((0:ℤ)) - 5) % 12).toNat = 7 from by decide,
    show ((((1:ℤ)) - 5) % 12).toNat = 8 from by decide,
    show ((((2:ℤ)) - 5) % 12).toNat = 9 from by decide,
    show ((((3:ℤ)) - 5) % 12).toNat = 10 from by decide,
    show ((((4:ℤ)) - 5) % 12).toNat = 11 from by decide,
    show ((((5:ℤ)) - 5) % 12).toNat = 0 from by decide,
    show ((((6:ℤ)) - 5) % 12).toNat = 1 from by decide,
    show ((((7:ℤ)) - 5) % 12).toNat = 2 from by decide,
    show ((((8:ℤ)) - 5) % 12).toNat = 3 from by decide,
    show ((((9:ℤ)) - 5) % 12).toNat = 4 from by decide,
    show ((((10:ℤ)) - 5) % 12).toNat = 5 from by decide,
    show ((((11:ℤ)) - 5) % 12).toNat = 6 from by decide]
  rw [pcpE0_getD_0, pcpE0_getD_1, pcpE0_getD_2, pcpE0_getD_3, pcpE0_getD_4, pcpE0_getD_5, pcpE0_getD_6, pcpE0_getD_7, pcpE0_getD_8, pcpE0_getD_9, pcpE0_getD_10, pcpE0_getD_11, temperleym_getD_0, temperleym_getD_1, temperleym_getD_2, temperleym_getD_3, temperleym_getD_4, temperleym_getD_5, temperleym_getD_6, temperleym_getD_7, temperleym_getD_8, temperleym_getD_9, temperleym_getD_10, temperleym_getD_11]
  congr 1
  norm_num

theorem corrE0m_6 : modeCorr pcpE0 temperleym 6 =
    ((-29:ℝ)/24) / (Real.sqrt (11/12) * Real.sqrt (803/48)) := by
  rw [modeCorr_pcpE0_eval temperleym temperleym_length (77/24) (Real.sqrt (803/48)) temperleym_mean temperleym_std 6]
  simp only [Finset.sum_range_succ, Finset.sum_range_zero, Nat.cast_ofNat,
    Nat.cast_zero, Nat.cast_one, zero_add]
  rw [show ((((0:ℤ)) - 6) % 12).toNat = 6 from by decide,
    show ((((1:ℤ)) - 6) % 12).toNat = 7 from by decide,
    show ((((2:ℤ)) - 6) % 12).toNat = 8 from by decide,
    show ((((3:ℤ)) - 6) % 12).toNat = 9 from by decide,
    show ((((4:ℤ)) - 6) % 12).toNat = 10 from by decide,
    show ((((5:ℤ)) - 6) % 12).toNat = 11 from by decide,
    show ((((6:ℤ)) - 6) % 12).toNat = 0 from by decide,
    show ((((7:ℤ)) - 6) % 12).toNat = 1 from by decide,
    show ((((8:ℤ)) - 6) % 12).toNat = 2 from by decide,
    show ((((9:ℤ)) - 6) % 12).toNat = 3 from by decide,
    show ((((10:ℤ)) - 6) % 12).toNat = 4 from by decide,
    show ((((11:ℤ)) - 6) % 12).toNat = 5 from by decide]
  rw [pcpE0_getD_0, pcpE0_getD_1, pcpE0_getD_2, pcpE0_getD_3, pcpE0_getD_4, pcpE0_getD_5, pcpE0_getD_6, pcpE0_getD_7, pcpE0_getD_8, pcpE0_getD_9, pcpE0_getD_10, pcpE0_getD_11, temperleym_getD_0, temperleym_getD_1, temperleym_getD_2, temperleym_getD_3, temperleym_getD_4, temperleym_getD_5, temperleym_getD_6, temperleym_getD_7, temperleym_getD_8, temperleym_getD_9, temperleym_getD_10, temperleym_getD_11]
  congr 1
  norm_num

theorem corrE0m_7 : modeCorr pcpE0 temperleym 7 =
    ((19:ℝ)/24) / (Real.sqrt (11/12) * Real.sqrt (803/48)) := by
  rw [modeCorr_pcpE0_eval temperleym temperleym_length (77/24) (Real.sqrt (803/48)) temperleym_mean temperleym_std 7]
  simp only [Finset.sum_range_succ, Finset.sum_range_zero, Nat.cast_ofNat,
    Nat.cast_zero, Nat.cast_one, zero_add]
  rw [show ((((0:ℤ)) - 7) % 12).toNat = 5 from by decide,
    show ((((1:ℤ)) - 7) % 12).toNat = 6 from by decide,
    show ((((2:ℤ)) - 7) % 12).toNat = 7 from by decide,
    show ((((3:ℤ)) - 7) % 12).toNat = 8 from by decide,
    show ((((4:ℤ)) - 7) % 12).toNat = 9 from by decide,
    show ((((5:ℤ)) - 7) % 12).toNat = 10 from by decide,
    show ((((6:ℤ)) - 7) % 12).toNat = 11 from by decide,
    show ((((7:ℤ)) - 7) % 12).toNat = 0 from by decide,
    show ((((8:ℤ)) - 7) % 12).toNat = 1 from by decide,
    show ((((9:ℤ)) - 7) % 12).toNat = 2 from by decide,
    show ((((10:ℤ)) - 7) % 12).toNat = 3 from by decide,
    show ((((11:ℤ)) - 7) % 12).toNat = 4 from by decide]
  rw [pcpE0_getD_0, pcpE0_getD_1, pcpE0_getD_2, pcpE0_getD_3, pcpE0_getD_4, pcpE0_getD_5, pcpE0_getD_6, pcpE0_getD_7, pcpE0_getD_8, pcpE0_getD_9, pcpE0_getD_10, pcpE0_getD_11, temperleym_getD_0, temperleym_getD_1, temperleym_getD_2, temperleym_getD_3, temperleym_getD_4, temperleym_getD_5, temperleym_getD_6, temperleym_getD_7, temperleym_getD_8, temperleym_getD_9, temperleym_getD_10, temperleym_getD_11]
  congr 1
  norm_num

theorem corrE0m_8 : modeCorr pcpE0 temperleym 8 =
    ((-29:ℝ)/24) / (Real.sqrt (11/12) * Real.sqrt (803/48)) := by
  rw [modeCorr_pcpE0_eval temperleym temperleym_length (77/24) (Real.sqrt (803/48)) temperleym_mean temperleym_std 8]
  simp only [Finset.sum_range_succ, Finset.sum_range_zero, Nat.cast_ofNat,
    Nat.cast_zero, Nat.cast_one, zero_add]
  rw [show ((((0:ℤ)) - 8) % 12).toNat = 4 from by decide,
    show ((((1:ℤ)) - 8) % 12).toNat = 5 from by decide,
    show ((((2:ℤ)) - 8) % 12).toNat = 6 from by decide,
    show ((((3:ℤ)) - 8) % 12).toNat = 7 from by decide,
    show ((((4:ℤ)) - 8) % 12).toNat = 8 from by decide,
    show ((((5:ℤ)) - 8) % 12).toNat = 9 from by decide,
    show ((((6:ℤ)) - 8) % 12).toNat = 10 from by decide,
    show ((((7:ℤ)) - 8) % 12).toNat = 11 from by decide,
    show ((((8:ℤ)) - 8) % 12).toNat = 0 from by decide,
    show ((((9:ℤ)) - 8) % 12).toNat = 1 from by decide,
    show ((((10:ℤ)) - 8) % 12).toNat = 2 from by decide,
    show ((((11:ℤ)) - 8) % 12).toNat = 3 from by decide]
  rw [pcpE0_getD_0, pcpE0_getD_1, pcpE0_getD_2, pcpE0_getD_3, pcpE0_getD_4, pcpE0_getD_5, pcpE0_getD_6, pcpE0_getD_7, pcpE0_getD_8, pcpE0_getD_9, pcpE0_getD_10, pcpE0_getD_11, temperleym_getD_0, temperleym_getD_1, temperleym_getD_2, temperleym_getD_3, temperleym_getD_4, temperleym_getD_5, temperleym_getD_6, temperleym_getD_7, temperleym_getD_8, temperleym_getD_9, temperleym_getD_10, temperleym_getD_11]
  congr 1
  norm_num

theorem corrE0m_9 : modeCorr pcpE0 temperleym 9 =
    ((31:ℝ)/24) / (Real.sqrt (11/12) * Real.sqrt (803/48)) := by
  rw [modeCorr_pcpE0_eval temperleym temperleym_length (77/24) (Real.sqrt (803/48)) temperleym_mean temperleym_std 9]
  simp only [Finset.sum_range_succ, Finset.sum_range_zero, Nat.cast_ofNat,
    Nat.cast_zero, Nat.cast_one, zero_add]
  rw [show ((((0:ℤ)) - 9) % 12).toNat = 3 from by decide,
    show ((((1:ℤ)) - 9) % 12).toNat = 4 from by decide,
    show ((((2:ℤ)) - 9) % 12).toNat = 5 from by decide,
    show ((((3:ℤ)) - 9) % 12).toNat = 6 from by decide,
    show ((((4:ℤ)) - 9) % 12).toNat = 7 from by decide,
    show ((((5:ℤ)) - 9) % 12).toNat = 8 from by decide,
    show ((((6:ℤ)) - 9) % 12).toNat = 9 from by decide,
    show ((((7:ℤ)) - 9) % 12).toNat = 10 from by decide,
    show ((((8:ℤ)) - 9) % 12).toNat = 11 from by decide,
    show ((((9:ℤ)) - 9) % 12).toNat = 0 from by decide,
    show ((((10:ℤ)) - 9) % 12).toNat = 1 from by decide,
    show ((((11:ℤ)) - 9) % 12).toNat = 2 from by decide]
  rw [pcpE0_getD_0, pcpE0_getD_1, pcpE0_getD_2, pcpE0_getD_3, pcpE0_getD_4, pcpE0_getD_5, pcpE0_getD_6, pcpE0_getD_7, pcpE0_getD_8, pcpE0_getD_9, pcpE0_getD_10, pcpE0_getD_11, temperleym_getD_0, temperleym_getD_1, temperleym_getD_2, temperleym_getD_3, temperleym_getD_4, temperleym_getD_5, temperleym_getD_6, temperleym_getD_7, temperleym_getD_8, temperleym_getD_9, temperleym_getD_10, temperleym_getD_11]
  congr 1
  norm_num

theorem corrE0m_10 : modeCorr pcpE0 temperleym 10 =
    ((7:ℝ)/24) / (Real.sqrt (11/12) * Real.sqrt (803/48)) := by
  rw [modeCorr_pcpE0_eval temperleym temperleym_length (77/24) (Real.sqrt (803/48)) temperleym_mean temperleym_std 10]
  simp only [Finset.sum_range_succ, Finset.sum_range_zero, Nat.cast_ofNat,
    Nat.cast_zero, Nat.cast_one, zero_add]
  rw [show ((((0:ℤ)) - 10) % 12).toNat = 2 from by decide,
    show ((((1:ℤ)) - 10) % 12).toNat = 3 from by decide,
    show ((((2:ℤ)) - 10) % 12).toNat = 4 from by decide,
    show ((((3:ℤ)) - 10) % 12).toNat = 5 from by decide,
    show ((((4:ℤ)) - 10) % 12).toNat = 6 from by decide,
    show ((((5:ℤ)) - 10) % 12).toNat = 7 from by decide,
    show ((((6:ℤ)) - 10) % 12).toNat = 8 from by decide,
    show ((((7:ℤ)) - 10) % 12).toNat = 9 from by decide,
    show ((((8:ℤ)) - 10) % 12).toNat = 10 from by decide,
    show ((((9:ℤ)) - 10) % 12).toNat = 11 from by decide,
    show ((((10:ℤ)) - 10) % 12).toNat = 0 from by decide,
    show ((((11:ℤ)) - 10) % 12).toNat = 1 from by decide]
  rw [pcpE0_getD_0, pcpE0_getD_1, pcpE0_getD_2, pcpE0_getD_3, pcpE0_getD_4, pcpE0_getD_5, pcpE0_getD_6, pcpE0_getD_7, pcpE0_getD_8, pcpE0_getD_9, pcpE0_getD_10, pcpE0_getD_11, temperleym_getD_0, temperleym_getD_1, temperleym_getD_2, temperleym_getD_3, temperleym_getD_4, temperleym_getD_5, temperleym_getD_6, temperleym_getD_7, temperleym_getD_8, temperleym_getD_9, temperleym_getD_10, temperleym_getD_11]
  congr 1
  norm_num

theorem corrE0m_11 : modeCorr pcpE0 temperleym 11 =
    ((-29:ℝ)/24) / (Real.sqrt (11/12) * Real.sqrt (803/48)) := by
  rw [modeCorr_pcpE0_eval temperleym temperleym_length (77/24) (Real.sqrt (803/48)) temperleym_mean temperleym_std 11]
  simp only [Finset.sum_range_succ, Finset.sum_range_zero, Nat.cast_ofNat,
    Nat.cast_zero, Nat.cast_one, zero_add]
  rw [show ((((0:ℤ)) - 11) % 12).toNat = 1 from by decide,
    show ((((1:ℤ)) - 11) % 12).toNat = 2 from by decide,
    show ((((2:ℤ)) - 11) % 12).toNat = 3 from by decide,
    show ((((3:ℤ)) - 11) % 12).toNat = 4 from by decide,
    show ((((4:ℤ)) - 11) % 12).toNat = 5 from by decide,
    show ((((5:ℤ)) - 11) % 12).toNat = 6 from by decide,
    show ((((6:ℤ)) - 11) % 12).toNat = 7 from by decide,
    show ((((7:ℤ)) - 11) % 12).toNat = 8 from by decide,
    show ((((8:ℤ)) - 11) % 12).toNat = 9 from by decide,
    show ((((9:ℤ)) - 11) % 12).toNat = 10 from by decide,
    show ((((10:ℤ)) - 11) % 12).toNat = 11 from by decide,
    show ((((11:ℤ)) - 11) % 12).toNat = 0 from by decide]
  rw [pcpE0_getD_0, pcpE0_getD_1, pcpE0_getD_2, pcpE0_getD_3, pcpE0_getD_4, pcpE0_getD_5, pcpE0_getD_6, pcpE0_getD_7, pcpE0_getD_8, pcpE0_getD_9, pcpE0_getD_10, pcpE0_getD_11, temperleym_getD_0, temperleym_getD_1, temperleym_getD_2, temperleym_getD_3, temperleym_getD_4, temperleym_getD_5, temperleym_getD_6, temperleym_getD_7, temperleym_getD_8, temperleym_getD_9, temperleym_getD_10, temperleym_getD_11]
  congr 1
  norm_num

theorem corrE1M_0 : modeCorr pcpE1 temperleyM 0 =
    ((-29:ℝ)/24) / (Real.sqrt (11/12) * Real.sqrt (803/48)) := by
  rw [modeCorr_pcpE1_eval temperleyM temperleyM_length (77/24) (Real.sqrt (803/48)) temperleyM_mean temperleyM_std 0]
  simp only [Finset.sum_range_succ, Finset.sum_range_zero, Nat.cast_ofNat,
    Nat.cast_zero, Nat.cast_one, zero_add]
  rw [show ((((0:ℤ)) - 0) % 12).toNat = 0 from by decide,
    show ((((1:ℤ)) - 0) % 12).toNat = 1 from by decide,
    show ((((2:ℤ)) - 0) % 12).toNat = 2 from by decide,
    show ((((3:ℤ)) - 0) % 12).toNat = 3 from by decide,
    show ((((4:ℤ)) - 0) % 12).toNat = 4 from by decide,
    show ((((5:ℤ)) - 0) % 12).toNat = 5 from by decide,
    show ((((6:ℤ)) - 0) % 12).toNat = 6 from by decide,
    show ((((7:ℤ)) - 0) % 12).toNat = 7 from by decide,
    show ((((8:ℤ)) - 0) % 12).toNat = 8 from by decide,
    show ((((9:ℤ)) - 0) % 12).toNat = 9 from by decide,
    show ((((10:ℤ)) - 0) % 12).toNat = 10 from by decide,
    show ((((11:ℤ)) - 0) % 12).toNat = 11 from by decide]
  rw [pcpE1_getD_0, pcpE1_getD_1, pcpE1_getD_2, pcpE1_getD_3, pcpE1_getD_4, pcpE1_getD_5, pcpE1_getD_6, pcpE1_getD_7, pcpE1_getD_8, pcpE1_getD_9, pcpE1_getD_10, pcpE1_getD_11, temperleyM_getD_0, temperleyM_getD_1, temperleyM_getD_2, temperleyM_getD_3, temperleyM_getD_4, temperleyM_getD_5, temperleyM_getD_6, temperleyM_getD_7, temperleyM_getD_8, temperleyM_getD_9, temperleyM_getD_10, temperleyM_getD_11]
  congr 1
  norm_num

theorem corrE1M_1 : modeCorr pcpE1 temperleyM 1 =
    ((43:ℝ)/24) / (Real.sqrt (11/12) * Real.sqrt (803/48)) := by
  rw [modeCorr_pcpE1_eval temperleyM temperleyM_length (77/24) (Real.sqrt (803/48)) temperleyM_mean temperleyM_std 1]
  simp only [Finset.sum_range_succ, Finset.sum_range_zero, Nat.cast_ofNat,
    Nat.cast_zero, Nat.cast_one, zero_add]
  rw [show ((((0:ℤ)) - 1) % 12).toNat = 11 from by decide,
    show ((((1:ℤ)) - 1) % 12).toNat = 0 from by decide,
    show ((((2:ℤ)) - 1) % 12).toNat = 1 from by decide,
    show ((((3:ℤ)) - 1) % 12).toNat = 2 from by decide,
    show ((((4:ℤ)) - 1) % 12).toNat = 3 from by decide,
    show ((((5:ℤ)) - 1) % 12).toNat = 4 from by decide,
    show ((((6:ℤ)) - 1) % 12).toNat = 5 from by decide,
    show ((((7:ℤ)) - 1) % 12).toNat = 6 from by decide,
    show ((((8:ℤ)) - 1) % 12).toNat = 7 from by decide,
    show ((((9:ℤ)) - 1) % 12).toNat = 8 from by decide,
    show ((((10:ℤ)) - 1) % 12).toNat = 9 from by decide,
    show ((((11:ℤ)) - 1) % 12).toNat = 10 from by decide]
  rw [pcpE1_getD_0, pcpE1_getD_1, pcpE1_getD_2, pcpE1_getD_3, pcpE1_getD_4, pcpE1_getD_5, pcpE1_getD_6, pcpE1_getD_7, pcpE1_getD_8, pcpE1_getD_9, pcpE1_getD_10, pcpE1_getD_11, temperleyM_getD_0, temperleyM_getD_1, temperleyM_getD_2, temperleyM_getD_3, temperleyM_getD_4, temperleyM_getD_5, temperleyM_getD_6, temperleyM_getD_7, temperleyM_getD_8, temperleyM_getD_9, temperleyM_getD_10, temperleyM_getD_11]
  congr 1
  norm_num

theorem corrE1M_2 : modeCorr pcpE1 temperleyM 2 =
    ((19:ℝ)/24) / (Real.sqrt (11/12) * Real.sqrt (803/48)) := by
  rw [modeCorr_pcpE1_eval temperleyM temperleyM_length (77/24) (Real.sqrt (803/48)) temperleyM_mean temperleyM_std 2]
  simp only [Finset.sum_range_succ, Finset.sum_range_zero, Nat.cast_ofNat,
    Nat.cast_zero, Nat.cast_one, zero_add]
  rw [show ((((0:ℤ)) - 2) % 12).toNat = 10 from by decide,
    show ((((1:ℤ)) - 2) % 12).toNat = 11 from by decide,
    show ((((2:ℤ)) - 2) % 12).toNat = 0 from by decide,
    show ((((3:ℤ)) - 2) % 12).toNat = 1 from by decide,
    show ((((4:ℤ)) - 2) % 12).toNat = 2 from by decide,
    show ((((5:ℤ)) - 2) % 12).toNat = 3 from by decide,
    show ((((6:ℤ)) - 2) % 12).toNat = 4 from by decide,
    show ((((7:ℤ)) - 2) % 12).toNat = 5 from by decide,
    show ((((8:ℤ)) - 2) % 12).toNat = 6 from by decide,
    show ((((9:ℤ)) - 2) % 12).toNat = 7 from by decide,
    show ((((10:ℤ)) - 2) % 12).toNat = 8 from by decide,
    show ((((11:ℤ)) - 2) % 12).toNat = 9 from by decide]
  rw [pcpE1_getD_0, pcpE1_getD_1, pcpE1_getD_2, pcpE1_getD_3, pcpE1_getD_4, pcpE1_getD_5, pcpE1_getD_6, pcpE1_getD_7, pcpE1_getD_8, pcpE1_getD_9, pcpE1_getD_10, pcpE1_getD_11, temperleyM_getD_0, temperleyM_getD_1, temperleyM_getD_2, temperleyM_getD_3, temperleyM_getD_4, temperleyM_getD_5, temperleyM_getD_6, temperleyM_getD_7, temperleyM_getD_8, temperleyM_getD_9, temperleyM_getD_10, temperleyM_getD_11]
  congr 1
  norm_num

theorem corrE1M_3 : modeCorr pcpE1 temperleyM 3 =
    ((-41:ℝ)/24) / (Real.sqrt (11/12) * Real.sqrt (803/48)) := by
  rw [modeCorr_pcpE1_eval temperleyM temperleyM_length (77/24) (Real.sqrt (803/48)) temperleyM_mean temperleyM_std 3]
  simp only [Finset.sum_range_succ, Finset.sum_range_zero, Nat.cast_ofNat,
    Nat.cast_zero, Nat.cast_one, zero_add]
  rw [show ((((0:ℤ)) - 3) % 12).toNat = 9 from by decide,
    show ((((1:ℤ)) - 3) % 12).toNat = 10 from by decide,
    show ((((2:ℤ)) - 3) % 12).toNat = 11 from by decide,
    show ((((3:ℤ)) - 3) % 12).toNat = 0 from by decide,
    show ((((4:ℤ)) - 3) % 12).toNat = 1 from by decide,
    show ((((5:ℤ)) - 3) % 12).toNat = 2 from by decide,
    show ((((6:ℤ)) - 3) % 12).toNat = 3 from by decide,
    show ((((7:ℤ)) - 3) % 12).toNat = 4 from by decide,
    show ((((8:ℤ)) - 3) % 12).toNat = 5 from by decide,
    show ((((9:ℤ)) - 3) % 12).toNat = 6 from by decide,
    show ((((10:ℤ)) - 3) % 12).toNat = 7 from by decide,
    show ((((11:ℤ)) - 3) % 12).toNat = 8 from by decide]
  rw [pcpE1_getD_0, pcpE1_getD_1, pcpE1_getD_2, pcpE1_getD_3, pcpE1_getD_4, pcpE1_getD_5, pcpE1_getD_6, pcpE1_getD_7, pcpE1_getD_8, pcpE1_getD_9, pcpE1_getD_10, pcpE1_getD_11, temperleyM_getD_0, temperleyM_getD_1, temperleyM_getD_2, temperleyM_getD_3, temperleyM_getD_4, temperleyM_getD_5, temperleyM_getD_6, temperleyM_getD_7, temperleyM_getD_8, temperleyM_getD_9, temperleyM_getD_10, temperleyM_getD_11]
  congr 1
  norm_num

theorem corrE1M_4 : modeCorr pcpE1 temperleyM 4 =
    ((7:ℝ)/24) / (Real.sqrt (11/12) * Real.sqrt (803/48)) := by
  rw [modeCorr_pcpE1_eval temperleyM temperleyM_length (77/24) (Real.sqrt (803/48)) temperleyM_mean temperleyM_std 4]
  simp only [Finset.sum_range_succ, Finset.sum_range_zero, Nat.cast_ofNat,
    Nat.cast_zero, Nat.cast_one, zero_add]
  rw [show ((((0:ℤ)) - 4) % 12).toNat = 8 from by decide,
    show ((((1:ℤ)) - 4) % 12).toNat = 9 from by decide,
    show ((((2:ℤ)) - 4) % 12).toNat = 10 from by decide,
    show ((((3:ℤ)) - 4) % 12).toNat = 11 from by decide,
    show ((((4:ℤ)) - 4) % 12).toNat = 0 from by decide,
    show ((((5:ℤ)) - 4) % 12).toNat = 1 from by decide,
    show ((((6:ℤ)) - 4) % 12).toNat = 2 from by decide,
    show ((((7:ℤ)) - 4) % 12).toNat = 3 from by decide,
    show ((((8:ℤ)) - 4) % 12).toNat = 4 from by decide,
    show ((((9:ℤ)) - 4) % 12).toNat = 5 from by decide,
    show ((((10:ℤ)) - 4) % 12).toNat = 6 from by decide,
    show ((((11:ℤ)) - 4) % 12).toNat = 7 from by decide]
  rw [pcpE1_getD_0, pcpE1_getD_1, pcpE1_getD_2, pcpE1_getD_3, pcpE1_getD_4, pcpE1_getD_5, pcpE1_getD_6, pcpE1_getD_7, pcpE1_getD_8, pcpE1_getD_9, pcpE1_getD_10, pcpE1_getD_11, temperleyM_getD_0, temperleyM_getD_1, temperleyM_getD_2, temperleyM_getD_3, temperleyM_getD_4, temperleyM_getD_5, temperleyM_getD_6, temperleyM_getD_7, temperleyM_getD_8, temperleyM_getD_9, temperleyM_getD_10, temperleyM_getD_11]
  congr 1
  norm_num

theorem corrE1M_5 : modeCorr pcpE1 temperleyM 5 =
    ((-29:ℝ)/24) / (Real.sqrt (11/12) * Real.sqrt (803/48)) := by
  rw [modeCorr_pcpE1_eval temperleyM temperleyM_length (77/24) (Real.sqrt (803/48)) temperleyM_mean temperleyM_std 5]
  simp only [Finset.sum_range_succ, Finset.sum_range_zero, Nat.cast_ofNat,
    Nat.cast_zero, Nat.cast_one, zero_add]
  rw [show ((((0:ℤ)) - 5) % 12).toNat = 7 from by decide,
    show ((((1:ℤ)) - 5) % 12).toNat = 8 from by decide,
    show ((((2:ℤ)) - 5) % 12).toNat = 9 from by decide,
    show ((((3:ℤ)) - 5) % 12).toNat = 10 from by decide,
    show ((((4:ℤ)) - 5) % 12).toNat = 11 from by decide,
    show ((((5:ℤ)) - 5) % 12).toNat = 0 from by decide,
    show ((((6:ℤ)) - 5) % 12).toNat = 1 from by decide,
    show ((((7:ℤ)) - 5) % 12).toNat = 2 from by decide,
    show ((((8:ℤ)) - 5) % 12).toNat = 3 from by decide,
    show ((((9:ℤ)) - 5) % 12).toNat = 4 from by decide,
    show ((((10:ℤ)) - 5) % 12).toNat = 5 from by decide,
    show ((((11:ℤ)) - 5) % 12).toNat = 6 from by decide]
  rw [pcpE1_getD_0, pcpE1_getD_1, pcpE1_getD_2, pcpE1_getD_3, pcpE1_getD_4, pcpE1_getD_5, pcpE1_getD_6, pcpE1_getD_7, pcpE1_getD_8, pcpE1_getD_9, pcpE1_getD_10, pcpE1_getD_11, temperleyM_getD_0, temperleyM_getD_1, temperleyM_getD_2, temperleyM_getD_3, temperleyM_getD_4, temperleyM_getD_5, temperleyM_getD_6, temperleyM_getD_7, temperleyM_getD_8, temperleyM_getD_9, temperleyM_getD_10, temperleyM_getD_11]
  congr 1
  norm_num

theorem corrE1M_6 : modeCorr pcpE1 temperleyM 6 =
    ((31:ℝ)/24) / (Real.sqrt (11/12) * Real.sqrt (803/48)) := by
  rw [modeCorr_pcpE1_eval temperleyM temperleyM_length (77/24) (Real.sqrt (803/48)) temperleyM_mean temperleyM_std 6]
  simp only [Finset.sum_range_succ, Finset.sum_range_zero, Nat.cast_ofNat,
    Nat.cast_zero, Nat.cast_one, zero_add]
  rw [show ((((0:ℤ)) - 6) % 12).toNat = 6 from by decide,
    show ((((1:ℤ)) - 6) % 12).toNat = 7 from by decide,
    show ((((2:ℤ)) - 6) % 12).toNat = 8 from by decide,
    show ((((3:ℤ)) - 6) % 12).toNat = 9 from by decide,
    show ((((4:ℤ)) - 6) % 12).toNat = 10 from by decide,
    show ((((5:ℤ)) - 6) % 12).toNat = 11 from by decide,
    show ((((6:ℤ)) - 6) % 12).toNat = 0 from by decide,
    show ((((7:ℤ)) - 6) % 12).toNat = 1 from by decide,
    show ((((8:ℤ)) - 6) % 12).toNat = 2 from by decide,
    show ((((9:ℤ)) - 6) % 12).toNat = 3 from by decide,
    show ((((10:ℤ)) - 6) % 12).toNat = 4 from by decide,
    show ((((11:ℤ)) - 6) % 12).toNat = 5 from by decide]
  rw [pcpE1_getD_0, pcpE1_getD_1, pcpE1_getD_2, pcpE1_getD_3, pcpE1_getD_4, pcpE1_getD_5, pcpE1_getD_6, pcpE1_getD_7, pcpE1_getD_8, pcpE1_getD_9, pcpE1_getD_10, pcpE1_getD_11, temperleyM_getD_0, temperleyM_getD_1, temperleyM_getD_2, temperleyM_getD_3, temperleyM_getD_4, temperleyM_getD_5, temperleyM_getD_6, temperleyM_getD_7, temperleyM_getD_8, temperleyM_getD_9, temperleyM_getD_10, temperleyM_getD_11]
  congr 1
  norm_num

theorem corrE1M_7 : modeCorr pcpE1 temperleyM 7 =
    ((-29:ℝ)/24) / (Real.sqrt (11/12) * Real.sqrt (803/48)) := by
  rw [modeCorr_pcpE1_eval temperleyM temperleyM_length (77/24) (Real.sqrt (803/48)) temperleyM_mean temperleyM_std 7]
  simp only [Finset.sum_range_succ, Finset.sum_range_zero, Nat.cast_ofNat,
    Nat.cast_zero, Nat.cast_one, zero_add]
  rw [show ((((0:ℤ)) - 7) % 12).toNat = 5 from by decide,
    show ((((1:ℤ)) - 7) % 12).toNat = 6 from by decide,
    show ((((2:ℤ)) - 7) % 12).toNat = 7 from by decide,
    show ((((3:ℤ)) - 7) % 12).toNat = 8 from by decide,
    show ((((4:ℤ)) - 7) % 12).toNat = 9 from by decide,
    show ((((5:ℤ)) - 7) % 12).toNat = 10 from by decide,
    show ((((6:ℤ)) - 7) % 12).toNat = 11 from by decide,
    show ((((7:ℤ)) - 7) % 12).toNat = 0 from by decide,
    show ((((8:ℤ)) - 7) % 12).toNat = 1 from by decide,
    show ((((9:ℤ)) - 7) % 12).toNat = 2 from by decide,
    show ((((10:ℤ)) - 7) % 12).toNat = 3 from by decide,
    show ((((11:ℤ)) - 7) % 12).toNat = 4 from by decide]
  rw [pcpE1_getD_0, pcpE1_getD_1, pcpE1_getD_2, pcpE1_getD_3, pcpE1_getD_4, pcpE1_getD_5, pcpE1_getD_6, pcpE1_getD_7, pcpE1_getD_8, pcpE1_getD_9, pcpE1_getD_10, pcpE1_getD_11, temperleyM_getD_0, temperleyM_getD_1, temperleyM_getD_2, temperleyM_getD_3, temperleyM_getD_4, temperleyM_getD_5, temperleyM_getD_6, temperleyM_getD_7, temperleyM_getD_8, temperleyM_getD_9, temperleyM_getD_10, temperleyM_getD_11]
  congr 1
  norm_num

theorem corrE1M_8 : modeCorr pcpE1 temperleyM 8 =
    ((19:ℝ)/24) / (Real.sqrt (11/12) * Real.sqrt (803/48)) := by
  rw [modeCorr_pcpE1_eval temperleyM temperleyM_length (77/24) (Real.sqrt (803/48)) temperleyM_mean temperleyM_std 8]
  simp only [Finset.sum_range_succ, Finset.sum_range_zero, Nat.cast_ofNat,
    Nat.cast_zero, Nat.cast_one, zero_add]
  rw [show ((((0:ℤ)) - 8) % 12).toNat = 4 from by decide,
    show ((((1:ℤ)) - 8) % 12).toNat = 5 from by decide,
    show ((((2:ℤ)) - 8) % 12).toNat = 6 from by decide,
    show ((((3:ℤ)) - 8) % 12).toNat = 7 from by decide,
    show ((((4:ℤ)) - 8) % 12).toNat = 8 from by decide,
    show ((((5:ℤ)) - 8) % 12).toNat = 9 from by decide,
    show ((((6:ℤ)) - 8) % 12).toNat = 10 from by decide,
    show ((((7:ℤ)) - 8) % 12).toNat = 11 from by decide,
    show ((((8:ℤ)) - 8) % 12).toNat = 0 from by decide,
    show ((((9:ℤ)) - 8) % 12).toNat = 1 from by decide,
    show ((((10:ℤ)) - 8) % 12).toNat = 2 from by decide,
    show ((((11:ℤ)) - 8) % 12).toNat = 3 from by decide]
  rw [pcpE1_getD_0, pcpE1_getD_1, pcpE1_getD_2, pcpE1_getD_3, pcpE1_getD_4, pcpE1_getD_5, pcpE1_getD_6, pcpE1_getD_7, pcpE1_getD_8, pcpE1_getD_9, pcpE1_getD_10, pcpE1_getD_11, temperleyM_getD_0, temperleyM_getD_1, temperleyM_getD_2, temperleyM_getD_3, temperleyM_getD_4, temperleyM_getD_5, temperleyM_getD_6, temperleyM_getD_7, temperleyM_getD_8, temperleyM_getD_9, temperleyM_getD_10, temperleyM_getD_11]
  congr 1
  norm_num

theorem corrE1M_9 : modeCorr pcpE1 temperleyM 9 =
    ((31:ℝ)/24) / (Real.sqrt (11/12) * Real.sqrt (803/48)) := by
  rw [modeCorr_pcpE1_eval temperleyM temperleyM_length (77/24) (Real.sqrt (803/48)) temperleyM_mean temperleyM_std 9]
  simp only [Finset.sum_range_succ, Finset.sum_range_zero, Nat.cast_ofNat,
    Nat.cast_zero, Nat.cast_one, zero_add]
  rw [show ((((0:ℤ)) - 9) % 12).toNat = 3 from by decide,
    show ((((1:ℤ)) - 9) % 12).toNat = 4 from by decide,
    show ((((2:ℤ)) - 9) % 12).toNat = 5 from by decide,
    show ((((3:ℤ)) - 9) % 12).toNat = 6 from by decide,
    show ((((4:ℤ)) - 9) % 12).toNat = 7 from by decide,
    show ((((5:ℤ)) - 9) % 12).toNat = 8 from by decide,
    show ((((6:ℤ)) - 9) % 12).toNat = 9 from by decide,
    show ((((7:ℤ)) - 9) % 12).toNat = 10 from by decide,
    show ((((8:ℤ)) - 9) % 12).toNat = 11 from by decide,
    show ((((9:ℤ)) - 9) % 12).toNat = 0 from by decide,
    show ((((10:ℤ)) - 9) % 12).toNat = 1 from by decide,
    show ((((11:ℤ)) - 9) % 12).toNat = 2 from by decide]
  rw [pcpE1_getD_0, pcpE1_getD_1, pcpE1_getD_2, pcpE1_getD_3, pcpE1_getD_4, pcpE1_getD_5, pcpE1_getD_6, pcpE1_getD_7, pcpE1_getD_8, pcpE1_getD_9, pcpE1_getD_10, pcpE1_getD_11, temperleyM_getD_0, temperleyM_getD_1, temperleyM_getD_2, temperleyM_getD_3, temperleyM_getD_4, temperleyM_getD_5, temperleyM_getD_6, temperleyM_getD_7, temperleyM_getD_8, temperleyM_getD_9, temperleyM_getD_10, temperleyM_getD_11]
  congr 1
  norm_num

theorem corrE1M_10 : modeCorr pcpE1 temperleyM 10 =
    ((-29:ℝ)/24) / (Real.sqrt (11/12) * Real.sqrt (803/48)) := by
  rw [modeCorr_pcpE1_eval temperleyM temperleyM_length (77/24) (Real.sqrt (803/48)) temperleyM_mean temperleyM_std 10]
  simp only [Finset.sum_range_succ, Finset.sum_range_zero, Nat.cast_ofNat,
    Nat.cast_zero, Nat.cast_one, zero_add]
  rw [show ((((0:ℤ)) - 10) % 12).toNat = 2 from by decide,
    show ((((1:ℤ)) - 10) % 12).toNat = 3 from by decide,
    show ((((2:ℤ)) - 10) % 12).toNat = 4 from by decide,
    show ((((3:ℤ)) - 10) % 12).toNat = 5 from by decide,
    show ((((4:ℤ)) - 10) % 12).toNat = 6 from by decide,
    show ((((5:ℤ)) - 10) % 12).toNat = 7 from by decide,
    show ((((6:ℤ)) - 10) % 12).toNat = 8 from by decide,
    show ((((7:ℤ)) - 10) % 12).toNat = 9 from by decide,
    show ((((8:ℤ)) - 10) % 12).toNat = 10 from by decide,
    show ((((9:ℤ)) - 10) % 12).toNat = 11 from by decide,
    show ((((10:ℤ)) - 10) % 12).toNat = 0 from by decide,
    show ((((11:ℤ)) - 10) % 12).toNat = 1 from by decide]
  rw [pcpE1_getD_0, pcpE1_getD_1, pcpE1_getD_2, pcpE1_getD_3, pcpE1_getD_4, pcpE1_getD_5, pcpE1_getD_6, pcpE1_getD_7, pcpE1_getD_8, pcpE1_getD_9, pcpE1_getD_10, pcpE1_getD_11, temperleyM_getD_0, temperleyM_getD_1, temperleyM_getD_2, temperleyM_getD_3, temperleyM_getD_4, temperleyM_getD_5, temperleyM_getD_6, temperleyM_getD_7, temperleyM_getD_8, temperleyM_getD_9, temperleyM_getD_10, temperleyM_getD_11]
  congr 1
  norm_num

theorem corrE1M_11 : modeCorr pcpE1 temperleyM 11 =
    ((7:ℝ)/24) / (Real.sqrt (11/12) * Real.sqrt (803/48)) := by
  rw [modeCorr_pcpE1_eval temperleyM temperleyM_length (77/24) (Real.sqrt (803/48)) temperleyM_mean temperleyM_std 11]
  simp only [Finset.sum_range_succ, Finset.sum_range_zero, Nat.cast_ofNat,
    Nat.cast_zero, Nat.cast_one, zero_add]
  rw [show ((((0:ℤ)) - 11) % 12).toNat = 1 from by decide,
    show ((((1:ℤ)) - 11) % 12).toNat = 2 from by decide,
    show ((((2:ℤ)) - 11) % 12).toNat = 3 from by decide,
    show ((((3:ℤ)) - 11) % 12).toNat = 4 from by decide,
    show ((((4:ℤ)) - 11) % 12).toNat = 5 from by decide,
    show ((((5:ℤ)) - 11) % 12).toNat = 6 from by decide,
    show ((((6:ℤ)) - 11) % 12).toNat = 7 from by decide,
    show ((((7:ℤ)) - 11) % 12).toNat = 8 from by decide,
    show ((((8:ℤ)) - 11) % 12).toNat = 9 from by decide,
    show ((((9:ℤ)) - 11) % 12).toNat = 10 from by decide,
    show ((((10:ℤ)) - 11) % 12).toNat = 11 from by decide,
    show ((((11:ℤ)) - 11) % 12).toNat = 0 from by decide]
  rw [pcpE1_getD_0, pcpE1_getD_1, pcpE1_getD_2, pcpE1_getD_3, pcpE1_getD_4, pcpE1_getD_5, pcpE1_getD_6, pcpE1_getD_7, pcpE1_getD_8, pcpE1_getD_9, pcpE1_getD_10, pcpE1_getD_11, temperleyM_getD_0, temperleyM_getD_1, temperleyM_getD_2, temperleyM_getD_3, temperleyM_getD_4, temperleyM_getD_5, temperleyM_getD_6, temperleyM_getD_7, temperleyM_getD_8, temperleyM_getD_9, temperleyM_getD_10, temperleyM_getD_11]
  congr 1
  norm_num

theorem corrE1m_0 : modeCorr pcpE1 temperleym 0 =
    ((-29:ℝ)/24) / (Real.sqrt (11/12) * Real.sqrt (803/48)) := by
  rw [modeCorr_pcpE1_eval temperleym temperleym_length (77/24) (Real.sqrt (803/48)) temperleym_mean temperleym_std 0]
  simp only [Finset.sum_range_succ, Finset.sum_range_zero, Nat.cast_ofNat,
    Nat.cast_zero, Nat.cast_one, zero_add]
  rw [show ((((0:ℤ)) - 0) % 12).toNat = 0 from by decide,
    show ((((1:ℤ)) - 0) % 12).toNat = 1 from by decide,
    show ((((2:ℤ)) - 0) % 12).toNat = 2 from by decide,
    show ((((3:ℤ)) - 0) % 12).toNat = 3 from by decide,
    show ((((4:ℤ)) - 0) % 12).toNat = 4 from by decide,
    show ((((5:ℤ)) - 0) % 12).toNat = 5 from by decide,
    show ((((6:ℤ)) - 0) % 12).toNat = 6 from by decide,
    show ((((7:ℤ)) - 0) % 12).toNat = 7 from by decide,
    show ((((8:ℤ)) - 0) % 12).toNat = 8 from by decide,
    show ((((9:ℤ)) - 0) % 12).toNat = 9 from by decide,
    show ((((10:ℤ)) - 0) % 12).toNat = 10 from by decide,
    show ((((11:ℤ)) - 0) % 12).toNat = 11 from by decide]
  rw [pcpE1_getD_0, pcpE1_getD_1, pcpE1_getD_2, pcpE1_getD_3, pcpE1_getD_4, pcpE1_getD_5, pcpE1_getD_6, pcpE1_getD_7, pcpE1_getD_8, pcpE1_getD_9, pcpE1_getD_10, pcpE1_getD_11, temperleym_getD_0, temperleym_getD_1, temperleym_getD_2, temperleym_getD_3, temperleym_getD_4, temperleym_getD_5, temperleym_getD_6, temperleym_getD_7, temperleym_getD_8, temperleym_getD_9, temperleym_getD_10, temperleym_getD_11]
  congr 1
  norm_num

theorem corrE1m_1 : modeCorr pcpE1 temperleym 1 =
    ((43:ℝ)/24) / (Real.sqrt (11/12) * Real.sqrt (803/48)) := by
  rw [modeCorr_pcpE1_eval temperleym temperleym_length (77/24) (Real.sqrt (803/48)) temperleym_mean temperleym_std 1]
  simp only [Finset.sum_range_succ, Finset.sum_range_zero, Nat.cast_ofNat,
    Nat.cast_zero, Nat.cast_one, zero_add]
  rw [show ((((0:ℤ)) - 1) % 12).toNat = 11 from by decide,
    show ((((1:ℤ)) - 1) % 12).toNat = 0 from by decide,
    show ((((2:ℤ)) - 1) % 12).toNat = 1 from by decide,
    show ((((3:ℤ)) - 1) % 12).toNat = 2 from by decide,
    show ((((4:ℤ)) - 1) % 12).toNat = 3 from by decide,
    show ((((5:ℤ)) - 1) % 12).toNat = 4 from by decide,
    show ((((6:ℤ)) - 1) % 12).toNat = 5 from by decide,
    show ((((7:ℤ)) - 1) % 12).toNat = 6 from by decide,
    show ((((8:ℤ)) - 1) % 12).toNat = 7 from by decide,
    show ((((9:ℤ)) - 1) % 12).toNat = 8 from by decide,
    show ((((10:ℤ)) - 1) % 12).toNat = 9 from by decide,
    show ((((11:ℤ)) - 1) % 12).toNat = 10 from by decide]
  rw [pcpE1_getD_0, pcpE1_getD_1, pcpE1_getD_2, pcpE1_getD_3, pcpE1_getD_4, pcpE1_getD_5, pcpE1_getD_6, pcpE1_getD_7, pcpE1_getD_8, pcpE1_getD_9, pcpE1_getD_10, pcpE1_getD_11, temperleym_getD_0, temperleym_getD_1, temperleym_getD_2, temperleym_getD_3, temperleym_getD_4, temperleym_getD_5, temperleym_getD_6, temperleym_getD_7, temperleym_getD_8, temperleym_getD_9, temperleym_getD_10, temperleym_getD_11]
  congr 1
  norm_num

theorem corrE1m_2 : modeCorr pcpE1 temperleym 2 =
    ((19:ℝ)/24) / (Real.sqrt (11/12) * Real.sqrt (803/48)) := by
  rw [modeCorr_pcpE1_eval temperleym temperleym_length (77/24) (Real.sqrt (803/48)) temperleym_mean temperleym_std 2]
  simp only [Finset.sum_range_succ, Finset.sum_range_zero, Nat.cast_ofNat,
    Nat.cast_zero, Nat.cast_one, zero_add]
  rw [show ((((0:ℤ)) - 2) % 12).toNat = 10 from by decide,
    show ((((1:ℤ)) - 2) % 12).toNat = 11 from by decide,
    show ((((2:ℤ)) - 2) % 12).toNat = 0 from by decide,
    show ((((3:ℤ)) - 2) % 12).toNat = 1 from by decide,
    show ((((4:ℤ)) - 2) % 12).toNat = 2 from by decide,
    show ((((5:ℤ)) - 2) % 12).toNat = 3 from by decide,
    show ((((6:ℤ)) - 2) % 12).toNat = 4 from by decide,
    show ((((7:ℤ)) - 2) % 12).toNat = 5 from by decide,
    show ((((8:ℤ)) - 2) % 12).toNat = 6 from by decide,
    show ((((9:ℤ)) - 2) % 12).toNat = 7 from by decide,
    show ((((10:ℤ)) - 2) % 12).toNat = 8 from by decide,
    show ((((11:ℤ)) - 2) % 12).toNat = 9 from by decide]
  rw [pcpE1_getD_0, pcpE1_getD_1, pcpE1_getD_2, pcpE1_getD_3, pcpE1_getD_4, pcpE1_getD_5, pcpE1_getD_6, pcpE1_getD_7, pcpE1_getD_8, pcpE1_getD_9, pcpE1_getD_10, pcpE1_getD_11, temperleym_getD_0, temperleym_getD_1, temperleym_getD_2, temperleym_getD_3, temperleym_getD_4, temperleym_getD_5, temperleym_getD_6, temperleym_getD_7, temperleym_getD_8, temperleym_getD_9, temperleym_getD_10, temperleym_getD_11]
  congr 1
  norm_num

theorem corrE1m_3 : modeCorr pcpE1 temperleym 3 =
    ((-41:ℝ)/24) / (Real.sqrt (11/12) * Real.sqrt (803/48)) := by
  rw [modeCorr_pcpE1_eval temperleym temperleym_length (77/24) (Real.sqrt (803/48)) temperleym_mean temperleym_std 3]
  simp only [Finset.sum_range_succ, Finset.sum_range_zero, Nat.cast_ofNat,
    Nat.cast_zero, Nat.cast_one, zero_add]
  rw [show ((((0:ℤ)) - 3) % 12).toNat = 9 from by decide,
    show ((((1:ℤ)) - 3) % 12).toNat = 10 from by decide,
    show ((((2:ℤ)) - 3) % 12).toNat = 11 from by decide,
    show ((((3:ℤ)) - 3) % 12).toNat = 0 from by decide,
    show ((((4:ℤ)) - 3) % 12).toNat = 1 from by decide,
    show ((((5:ℤ)) - 3) % 12).toNat = 2 from by decide,
    show ((((6:ℤ)) - 3) % 12).toNat = 3 from by decide,
    show ((((7:ℤ)) - 3) % 12).toNat = 4 from by decide,
    show ((((8:ℤ)) - 3) % 12).toNat = 5 from by decide,
    show ((((9:ℤ)) - 3) % 12).toNat = 6 from by decide,
    show ((((10:ℤ)) - 3) % 12).toNat = 7 from by decide,
    show ((((11:ℤ)) - 3) % 12).toNat = 8 from by decide]
  rw [pcpE1_getD_0, pcpE1_getD_1, pcpE1_getD_2, pcpE1_getD_3, pcpE1_getD_4, pcpE1_getD_5, pcpE1_getD_6, pcpE1_getD_7, pcpE1_getD_8, pcpE1_getD_9, pcpE1_getD_10, pcpE1_getD_11, temperleym_getD_0, temperleym_getD_1, temperleym_getD_2, temperleym_getD_3, temperleym_getD_4, temperleym_getD_5, temperleym_getD_6, temperleym_getD_7, temperleym_getD_8, temperleym_getD_9, temperleym_getD_10, temperleym_getD_11]
  congr 1
  norm_num

theorem corrE1m_4 : modeCorr pcpE1 temperleym 4 =
    ((-29:ℝ)/24) / (Real.sqrt (11/12) * Real.sqrt (803/48)) := by
  rw [modeCorr_pcpE1_eval temperleym temperleym_length (77/24) (Real.sqrt (803/48)) temperleym_mean temperleym_std 4]
  simp only [Finset.sum_range_succ, Finset.sum_range_zero, Nat.cast_ofNat,
    Nat.cast_zero, Nat.cast_one, zero_add]
  rw [show ((((0:ℤ)) - 4) % 12).toNat = 8 from by decide,
    show ((((1:ℤ)) - 4) % 12).toNat = 9 from by decide,
    show ((((2:ℤ)) - 4) % 12).toNat = 10 from by decide,
    show ((((3:ℤ)) - 4) % 12).toNat = 11 from by decide,
    show ((((4:ℤ)) - 4) % 12).toNat = 0 from by decide,
    show ((((5:ℤ)) - 4) % 12).toNat = 1 from by decide,
    show ((((6:ℤ)) - 4) % 12).toNat = 2 from by decide,
    show ((((7:ℤ)) - 4) % 12).toNat = 3 from by decide,
    show ((((8:ℤ)) - 4) % 12).toNat = 4 from by decide,
    show ((((9:ℤ)) - 4) % 12).toNat = 5 from by decide,
    show ((((10:ℤ)) - 4) % 12).toNat = 6 from by decide,
    show ((((11:ℤ)) - 4) % 12).toNat = 7 from by decide]
  rw [pcpE1_getD_0, pcpE1_getD_1, pcpE1_getD_2, pcpE1_getD_3, pcpE1_getD_4, pcpE1_getD_5, pcpE1_getD_6, pcpE1_getD_7, pcpE1_getD_8, pcpE1_getD_9, pcpE1_getD_10, pcpE1_getD_11, temperleym_getD_0, temperleym_getD_1, temperleym_getD_2, temperleym_getD_3, temperleym_getD_4, temperleym_getD_5, temperleym_getD_6, temperleym_getD_7, temperleym_getD_8, temperleym_getD_9, temperleym_getD_10, temperleym_getD_11]
  congr 1
  norm_num

theorem corrE1m_5 : modeCorr pcpE1 temperleym 5 =
    ((7:ℝ)/24) / (Real.sqrt (11/12) * Real.sqrt (803/48)) := by
  rw [modeCorr_pcpE1_eval temperleym temperleym_length (77/24) (Real.sqrt (803/48)) temperleym_mean temperleym_std 5]
  simp only [Finset.sum_range_succ, Finset.sum_range_zero, Nat.cast_ofNat,
    Nat.cast_zero, Nat.cast_one, zero_add]
  rw [show ((((0:ℤ)) - 5) % 12).toNat = 7 from by decide,
    show ((((1:ℤ)) - 5) % 12).toNat = 8 from by decide,
    show ((((2:ℤ)) - 5) % 12).toNat = 9 from by decide,
    show ((((3:ℤ)) - 5) % 12).toNat = 10 from by decide,
    show ((((4:ℤ)) - 5) % 12).toNat = 11 from by decide,
    show ((((5:ℤ)) - 5) % 12).toNat = 0 from by decide,
    show ((((6:ℤ)) - 5) % 12).toNat = 1 from by decide,
    show ((((7:ℤ)) - 5) % 12).toNat = 2 from by decide,
    show ((((8:ℤ)) - 5) % 12).toNat = 3 from by decide,
    show ((((9:ℤ)) - 5) % 12).toNat = 4 from by decide,
    show ((((10:ℤ)) - 5) % 12).toNat = 5 from by decide,
    show ((((11:ℤ)) - 5) % 12).toNat = 6 from by decide]
  rw [pcpE1_getD_0, pcpE1_getD_1, pcpE1_getD_2, pcpE1_getD_3, pcpE1_getD_4, pcpE1_getD_5, pcpE1_getD_6, pcpE1_getD_7, pcpE1_getD_8, pcpE1_getD_9, pcpE1_getD_10, pcpE1_getD_11, temperleym_getD_0, temperleym_getD_1, temperleym_getD_2, temperleym_getD_3, temperleym_getD_4, temperleym_getD_5, temperleym_getD_6, temperleym_getD_7, temperleym_getD_8, temperleym_getD_9, temperleym_getD_10, temperleym_getD_11]
  congr 1
  norm_num

theorem corrE1m_6 : modeCorr pcpE1 temperleym 6 =
    ((31:ℝ)/24) / (Real.sqrt (11/12) * Real.sqrt (803/48)) := by
  rw [modeCorr_pcpE1_eval temperleym temperleym_length (77/24) (Real.sqrt (803/48)) temperleym_mean temperleym_std 6]
  simp only [Finset.sum_range_succ, Finset.sum_range_zero, Nat.cast_ofNat,
    Nat.cast_zero, Nat.cast_one, zero_add]
  rw [show ((((0:ℤ)) - 6) % 12).toNat = 6 from by decide,
    show ((((1:ℤ)) - 6) % 12).toNat = 7 from by decide,
    show ((((2:ℤ)) - 6) % 12).toNat = 8 from by decide,
    show ((((3:ℤ)) - 6) % 12).toNat = 9 from by decide,
    show ((((4:ℤ)) - 6) % 12).toNat = 10 from by decide,
    show ((((5:ℤ)) - 6) % 12).toNat = 11 from by decide,
    show ((((6:ℤ)) - 6) % 12).toNat = 0 from by decide,
    show ((((7:ℤ)) - 6) % 12).toNat = 1 from by decide,
    show ((((8:ℤ)) - 6) % 12).toNat = 2 from by decide,
    show ((((9:ℤ)) - 6) % 12).toNat = 3 from by decide,
    show ((((10:ℤ)) - 6) % 12).toNat = 4 from by decide,
    show ((((11:ℤ)) - 6) % 12).toNat = 5 from by decide]
  rw [pcpE1_getD_0, pcpE1_getD_1, pcpE1_getD_2, pcpE1_getD_3, pcpE1_getD_4, pcpE1_getD_5, pcpE1_getD_6, pcpE1_getD_7, pcpE1_getD_8, pcpE1_getD_9, pcpE1_getD_10, pcpE1_getD_11, temperleym_getD_0, temperleym_getD_1, temperleym_getD_2, temperleym_getD_3, temperleym_getD_4, temperleym_getD_5, temperleym_getD_6, temperleym_getD_7, temperleym_getD_8, temperleym_getD_9, temperleym_getD_10, temperleym_getD_11]
  congr 1
  norm_num

theorem corrE1m_7 : modeCorr pcpE1 temperleym 7 =
    ((-29:ℝ)/24) / (Real.sqrt (11/12) * Real.sqrt (803/48)) := by
  rw [modeCorr_pcpE1_eval temperleym temperleym_length (77/24) (Real.sqrt (803/48)) temperleym_mean temperleym_std 7]
  simp only [Finset.sum_range_succ, Finset.sum_range_zero, Nat.cast_ofNat,
    Nat.cast_zero, Nat.cast_one, zero_add]
  rw [show ((((0:ℤ)) - 7) % 12).toNat = 5 from by decide,
    show ((((1:ℤ)) - 7) % 12).toNat = 6 from by decide,
    show ((((2:ℤ)) - 7) % 12).toNat = 7 from by decide,
    show ((((3:ℤ)) - 7) % 12).toNat = 8 from by decide,
    show ((((4:ℤ)) - 7) % 12).toNat = 9 from by decide,
    show ((((5:ℤ)) - 7) % 12).toNat = 10 from by decide,
    show ((((6:ℤ)) - 7) % 12).toNat = 11 from by decide,
    show ((((7:ℤ)) - 7) % 12).toNat = 0 from by decide,
    show ((((8:ℤ)) - 7) % 12).toNat = 1 from by decide,
    show ((((9:ℤ)) - 7) % 12).toNat = 2 from by decide,
    show ((((10:ℤ)) - 7) % 12).toNat = 3 from by decide,
    show ((((11:ℤ)) - 7) % 12).toNat = 4 from by decide]
  rw [pcpE1_getD_0, pcpE1_getD_1, pcpE1_getD_2, pcpE1_getD_3, pcpE1_getD_4, pcpE1_getD_5, pcpE1_getD_6, pcpE1_getD_7, pcpE1_getD_8, pcpE1_getD_9, pcpE1_getD_10, pcpE1_getD_11, temperleym_getD_0, temperleym_getD_1, temperleym_getD_2, temperleym_getD_3, temperleym_getD_4, temperleym_getD_5, temperleym_getD_6, temperleym_getD_7, temperleym_getD_8, temperleym_getD_9, temperleym_getD_10, temperleym_getD_11]
  congr 1
  norm_num

theorem corrE1m_8 : modeCorr pcpE1 temperleym 8 =
    ((19:ℝ)/24) / (Real.sqrt (11/12) * Real.sqrt (803/48)) := by
  rw [modeCorr_pcpE1_eval temperleym temperleym_length (77/24) (Real.sqrt (803/48)) temperleym_mean temperleym_std 8]
  simp only [Finset.sum_range_succ, Finset.sum_range_zero, Nat.cast_ofNat,
    Nat.cast_zero, Nat.cast_one, zero_add]
  rw [show ((((0:ℤ)) - 8) % 12).toNat = 4 from by decide,
    show ((((1:ℤ)) - 8) % 12).toNat = 5 from by decide,
    show ((((2:ℤ)) - 8) % 12).toNat = 6 from by decide,
    show ((((3:ℤ)) - 8) % 12).toNat = 7 from by decide,
    show ((((4:ℤ)) - 8) % 12).toNat = 8 from by decide,
    show ((((5:ℤ)) - 8) % 12).toNat = 9 from by decide,
    show ((((6:ℤ)) - 8) % 12).toNat = 10 from by decide,
    show ((((7:ℤ)) - 8) % 12).toNat = 11 from by decide,
    show ((((8:ℤ)) - 8) % 12).toNat = 0 from by decide,
    show ((((9:ℤ)) - 8) % 12).toNat = 1 from by decide,
    show ((((10:ℤ)) - 8) % 12).toNat = 2 from by decide,
    show ((((11:ℤ)) - 8) % 12).toNat = 3 from by decide]
  rw [pcpE1_getD_0, pcpE1_getD_1, pcpE1_getD_2, pcpE1_getD_3, pcpE1_getD_4, pcpE1_getD_5, pcpE1_getD_6, pcpE1_getD_7, pcpE1_getD_8, pcpE1_getD_9, pcpE1_getD_10, pcpE1_getD_11, temperleym_getD_0, temperleym_getD_1, temperleym_getD_2, temperleym_getD_3, temperleym_getD_4, temperleym_getD_5, temperleym_getD_6, temperleym_getD_7, temperleym_getD_8, temperleym_getD_9, temperleym_getD_10, temperleym_getD_11]
  congr 1
  norm_num

theorem corrE1m_9 : modeCorr pcpE1 temperleym 9 =
    ((-29:ℝ)/24) / (Real.sqrt (11/12) * Real.sqrt (803/48)) := by
  rw [modeCorr_pcpE1_eval temperleym temperleym_length (77/24) (Real.sqrt (803/48)) temperleym_mean temperleym_std 9]
  simp only [Finset.sum_range_succ, Finset.sum_range_zero, Nat.cast_ofNat,
    Nat.cast_zero, Nat.cast_one, zero_add]
  rw [show ((((0:ℤ)) - 9) % 12).toNat = 3 from by decide,
    show ((((1:ℤ)) - 9) % 12).toNat = 4 from by decide,
    show ((((2:ℤ)) - 9) % 12).toNat = 5 from by decide,
    show ((((3:ℤ)) - 9) % 12).toNat = 6 from by decide,
    show ((((4:ℤ)) - 9) % 12).toNat = 7 from by decide,
    show ((((5:ℤ)) - 9) % 12).toNat = 8 from by decide,
    show ((((6:ℤ)) - 9) % 12).toNat = 9 from by decide,
    show ((((7:ℤ)) - 9) % 12).toNat = 10 from by decide,
    show ((((8:ℤ)) - 9) % 12).toNat = 11 from by decide,
    show ((((9:ℤ)) - 9) % 12).toNat = 0 from by decide,
    show ((((10:ℤ)) - 9) % 12).toNat = 1 from by decide,
    show ((((11:ℤ)) - 9) % 12).toNat = 2 from by decide]
  rw [pcpE1_getD_0, pcpE1_getD_1, pcpE1_getD_2, pcpE1_getD_3, pcpE1_getD_4, pcpE1_getD_5, pcpE1_getD_6, pcpE1_getD_7, pcpE1_getD_8, pcpE1_getD_9, pcpE1_getD_10, pcpE1_getD_11, temperleym_getD_0, temperleym_getD_1, temperleym_getD_2, temperleym_getD_3, temperleym_getD_4, temperleym_getD_5, temperleym_getD_6, temperleym_getD_7, temperleym_getD_8, temperleym_getD_9, temperleym_getD_10, temperleym_getD_11]
  congr 1
  norm_num

theorem corrE1m_10 : modeCorr pcpE1 temperleym 10 =
    ((31:ℝ)/24) / (Real.sqrt (11/12) * Real.sqrt (803/48)) := by
  rw [modeCorr_pcpE1_eval temperleym temperleym_length (77/24) (Real.sqrt (803/48)) temperleym_mean temperleym_std 10]
  simp only [Finset.sum_range_succ, Finset.sum_range_zero, Nat.cast_ofNat,
    Nat.cast_zero, Nat.cast_one, zero_add]
  rw [show ((((0:ℤ)) - 10) % 12).toNat = 2 from by decide,
    show ((((1:ℤ)) - 10) % 12).toNat = 3 from by decide,
    show ((((2:ℤ)) - 10) % 12).toNat = 4 from by decide,
    show ((((3:ℤ)) - 10) % 12).toNat = 5 from by decide,
    show ((((4:ℤ)) - 10) % 12).toNat = 6 from by decide,
    show ((((5:ℤ)) - 10) % 12).toNat = 7 from by decide,
    show ((((6:ℤ)) - 10) % 12).toNat = 8 from by decide,
    show ((((7:ℤ)) - 10) % 12).toNat = 9 from by decide,
    show ((((8:ℤ)) - 10) % 12).toNat = 10 from by decide,
    show ((((9:ℤ)) - 10) % 12).toNat = 11 from by decide,
    show ((((10:ℤ)) - 10) % 12).toNat = 0 from by decide,
    show ((((11:ℤ)) - 10) % 12).toNat = 1 from by decide]
  rw [pcpE1_getD_0, pcpE1_getD_1, pcpE1_getD_2, pcpE1_getD_3, pcpE1_getD_4, pcpE1_getD_5, pcpE1_getD_6, pcpE1_getD_7, pcpE1_getD_8, pcpE1_getD_9, pcpE1_getD_10, pcpE1_getD_11, temperleym_getD_0, temperleym_getD_1, temperleym_getD_2, temperleym_getD_3, temperleym_getD_4, temperleym_getD_5, temperleym_getD_6, temperleym_getD_7, temperleym_getD_8, temperleym_getD_9, temperleym_getD_10, temperleym_getD_11]
  congr 1
  norm_num

theorem corrE1m_11 : modeCorr pcpE1 temperleym 11 =
    ((7:ℝ)/24) / (Real.sqrt (11/12) * Real.sqrt (803/48)) := by
  rw [modeCorr_pcpE1_eval temperleym temperleym_length (77/24) (Real.sqrt (803/48)) temperleym_mean temperleym_std 11]
  simp only [Finset.sum_range_succ, Finset.sum_range_zero, Nat.cast_ofNat,
    Nat.cast_zero, Nat.cast_one, zero_add]
  rw [show ((((0:ℤ)) - 11) % 12).toNat = 1 from by decide,
    show ((((1:ℤ)) - 11) % 12).toNat = 2 from by decide,
    show ((((2:ℤ)) - 11) % 12).toNat = 3 from by decide,
    show ((((3:ℤ)) - 11) % 12).toNat = 4 from by decide,
    show ((((4:ℤ)) - 11) % 12).toNat = 5 from by decide,
    show ((((5:ℤ)) - 11) % 12).toNat = 6 from by decide,
    show ((((6:ℤ)) - 11) % 12).toNat = 7 from by decide,
    show ((((7:ℤ)) - 11) % 12).toNat = 8 from by decide,
    show ((((8:ℤ)) - 11) % 12).toNat = 9 from by decide,
    show ((((9:ℤ)) - 11) % 12).toNat = 10 from by decide,
    show ((((10:ℤ)) - 11) % 12).toNat = 11 from by decide,
    show ((((11:ℤ)) - 11) % 12).toNat = 0 from by decide]
  rw [pcpE1_getD_0, pcpE1_getD_1, pcpE1_getD_2, pcpE1_getD_3, pcpE1_getD_4, pcpE1_getD_5, pcpE1_getD_6, pcpE1_getD_7, pcpE1_getD_8, pcpE1_getD_9, pcpE1_getD_10, pcpE1_getD_11, temperleym_getD_0, temperleym_getD_1, temperleym_getD_2, temperleym_getD_3, temperleym_getD_4, temperleym_getD_5, temperleym_getD_6, temperleym_getD_7, temperleym_getD_8, temperleym_getD_9, temperleym_getD_10, temperleym_getD_11]
  congr 1
  norm_num

theorem scanE0M : scanMode (modeCorr pcpE0 temperleyM) 12 =
    ⟨((43:ℝ)/24) / (Real.sqrt (11/12) * Real.sqrt (803/48)), -1, 0⟩ := by
  have hD : (0:ℝ) ≤ Real.sqrt (11/12) * Real.sqrt (803/48) := le_of_lt sqrtD_pos
  rw [← corrE0M_0]
  apply scanMode_twelve_peak0
  · rw [corrE0M_0]
    exact lt_of_lt_of_le (by norm_num) (div_nonneg (by norm_num) hD)
  · intro s h1 h11
    interval_cases s
    · rw [corrE0M_1, corrE0M_0]
      exact div_le_div_nonneg_denom (by norm_num) hD
    · rw [corrE0M_2, corrE0M_0]
      exact div_le_div_nonneg_denom (by norm_num) hD
    · rw [corrE0M_3, corrE0M_0]
      exact div_le_div_nonneg_denom (by norm_num) hD
    · rw [corrE0M_4, corrE0M_0]
      exact div_le_div_nonneg_denom (by norm_num) hD
    · rw [corrE0M_5, corrE0M_0]
      exact div_le_div_nonneg_denom (by norm_num) hD
    · rw [corrE0M_6, corrE0M_0]
      exact div_le_div_nonneg_denom (by norm_num) hD
    · rw [corrE0M_7, corrE0M_0]
      exact div_le_div_nonneg_denom (by norm_num) hD
    · rw [corrE0M_8, corrE0M_0]
      exact div_le_div_nonneg_denom (by norm_num) hD
    · rw [corrE0M_9, corrE0M_0]
      exact div_le_div_nonneg_denom (by norm_num) hD
    · rw [corrE0M_10, corrE0M_0]
      exact div_le_div_nonneg_denom (by norm_num) hD
    · rw [corrE0M_11, corrE0M_0]
      exact div_le_div_nonneg_denom (by norm_num) hD

theorem scanE0m : scanMode (modeCorr pcpE0 temperleym) 12 =
    ⟨((43:ℝ)/24) / (Real.sqrt (11/12) * Real.sqrt (803/48)), -1, 0⟩ := by
  have hD : (0:ℝ) ≤ Real.sqrt (11/12) * Real.sqrt (803/48) := le_of_lt sqrtD_pos
  rw [← corrE0m_0]
  apply scanMode_twelve_peak0
  · rw [corrE0m_0]
    exact lt_of_lt_of_le (by norm_num) (div_nonneg (by norm_num) hD)
  · intro s h1 h11
    interval_cases s
    · rw [corrE0m_1, corrE0m_0]
      exact div_le_div_nonneg_denom (by norm_num) hD
    · rw [corrE0m_2, corrE0m_0]
      exact div_le_div_nonneg_denom (by norm_num) hD
    · rw [corrE0m_3, corrE0m_0]
      exact div_le_div_nonneg_denom (by norm_num) hD
    · rw [corrE0m_4, corrE0m_0]
      exact div_le_div_nonneg_denom (by norm_num) hD
    · rw [corrE0m_5, corrE0m_0]
      exact div_le_div_nonneg_denom (by norm_num) hD
    · rw [corrE0m_6, corrE0m_0]
      exact div_le_div_nonneg_denom (by norm_num) hD
    · rw [corrE0m_7, corrE0m_0]
      exact div_le_div_nonneg_denom (by norm_num) hD
    · rw [corrE0m_8, corrE0m_0]
      exact div_le_div_nonneg_denom (by norm_num) hD
    · rw [corrE0m_9, corrE0m_0]
      exact div_le_div_nonneg_denom (by norm_num) hD
    · rw [corrE0m_10, corrE0m_0]
      exact div_le_div_nonneg_denom (by norm_num) hD
    · rw [corrE0m_11, corrE0m_0]
      exact div_le_div_nonneg_denom (by norm_num) hD

theorem scanE1M : scanMode (modeCorr pcpE1 temperleyM) 12 =
    ⟨((43:ℝ)/24) / (Real.sqrt (11/12) * Real.sqrt (803/48)), ((-29:ℝ)/24) / (Real.sqrt (11/12) * Real.sqrt (803/48)), 1⟩ := by
  have hD : (0:ℝ) ≤ Real.sqrt (11/12) * Real.sqrt (803/48) := le_of_lt sqrtD_pos
  rw [← corrE1M_0, ← corrE1M_1]
  apply scanMode_twelve_peak01
  · rw [corrE1M_0]
    have h1 : (29/24 : ℝ) / (Real.sqrt (11/12) * Real.sqrt (803/48)) < 1 := (div_lt_one sqrtD_pos).mpr sqrtD_gt
    have h2 : ((-29:ℝ)/24) / (Real.sqrt (11/12) * Real.sqrt (803/48)) = -((29/24 : ℝ) / (Real.sqrt (11/12) * Real.sqrt (803/48))) := by ring
    rw [h2]
    linarith
  · rw [corrE1M_0, corrE1M_1]
    exact (div_lt_div_iff_of_pos_right sqrtD_pos).mpr (by norm_num)
  · intro s h2 h11
    interval_cases s
    · rw [corrE1M_2, corrE1M_1]
      exact div_le_div_nonneg_denom (by norm_num) hD
    · rw [corrE1M_3, corrE1M_1]
      exact div_le_div_nonneg_denom (by norm_num) hD
    · rw [corrE1M_4, corrE1M_1]
      exact div_le_div_nonneg_denom (by norm_num) hD
    · rw [corrE1M_5, corrE1M_1]
      exact div_le_div_nonneg_denom (by norm_num) hD
    · rw [corrE1M_6, corrE1M_1]
      exact div_le_div_nonneg_denom (by norm_num) hD
    · rw [corrE1M_7, corrE1M_1]
      exact div_le_div_nonneg_denom (by norm_num) hD
    · rw [corrE1M_8, corrE1M_1]
      exact div_le_div_nonneg_denom (by norm_num) hD
    · rw [corrE1M_9, corrE1M_1]
      exact div_le_div_nonneg_denom (by norm_num) hD
    · rw [corrE1M_10, corrE1M_1]
      exact div_le_div_nonneg_denom (by norm_num) hD
    · rw [corrE1M_11, corrE1M_1]
      exact div_le_div_nonneg_denom (by norm_num) hD

theorem scanE1m : scanMode (modeCorr pcpE1 temperleym) 12 =
    ⟨((43:ℝ)/24) / (Real.sqrt (11/12) * Real.sqrt (803/48)), ((-29:ℝ)/24) / (Real.sqrt (11/12) * Real.sqrt (803/48)), 1⟩ := by
  have hD : (0:ℝ) ≤ Real.sqrt (11/12) * Real.sqrt (803/48) := le_of_lt sqrtD_pos
  rw [← corrE1m_0, ← corrE1m_1]
  apply scanMode_twelve_peak01
  · rw [corrE1m_0]
    have h1 : (29/24 : ℝ) / (Real.sqrt (11/12) * Real.sqrt (803/48)) < 1 := (div_lt_one sqrtD_pos).mpr sqrtD_gt
    have h2 : ((-29:ℝ)/24) / (Real.sqrt (11/12) * Real.sqrt (803/48)) = -((29/24 : ℝ) / (Real.sqrt (11/12) * Real.sqrt (803/48))) := by ring
    rw [h2]
    linarith
  · rw [corrE1m_0, corrE1m_1]
    exact (div_lt_div_iff_of_pos_right sqrtD_pos).mpr (by norm_num)
  · intro s h2 h11
    interval_cases s
    · rw [corrE1m_2, corrE1m_1]
      exact div_le_div_nonneg_denom (by norm_num) hD
    · rw [corrE1m_3, corrE1m_1]
      exact div_le_div_nonneg_denom (by norm_num) hD
    · rw [corrE1m_4, corrE1m_1]
      exact div_le_div_nonneg_denom (by norm_num) hD
    · rw [corrE1m_5, corrE1m_1]
      exact div_le_div_nonneg_denom (by norm_num) hD
    · rw [corrE1m_6, corrE1m_1]
      exact div_le_div_nonneg_denom (by norm_num) hD
    · rw [corrE1m_7, corrE1m_1]
      exact div_le_div_nonneg_denom (by norm_num) hD
    · rw [corrE1m_8, corrE1m_1]
      exact div_le_div_nonneg_denom (by norm_num) hD
    · rw [corrE1m_9, corrE1m_1]
      exact div_le_div_nonneg_denom (by norm_num) hD
    · rw [corrE1m_10, corrE1m_1]
      exact div_le_div_nonneg_denom (by norm_num) hD
    · rw [corrE1m_11, corrE1m_1]
      exact div_le_div_nonneg_denom (by norm_num) hD

/-- Full KeyEDM run on the one-hot PCP `pcpE0` (temperley profiles): key "A",
major, strength `(43/24)/D`, and -- because the major scan improves only once,
leaving the second maximum at its initialisation `-1` -- relative strength
`(max + 1)/max`. -/
theorem keyEDM_e0_eval :
    keyEDMCompute temperleyM temperleym pcpE0 =
      .ok ⟨"A", "major", ((43:ℝ)/24) / (Real.sqrt (11/12) * Real.sqrt (803/48)),
        (((43:ℝ)/24) / (Real.sqrt (11/12) * Real.sqrt (803/48)) - -1) / (((43:ℝ)/24) / (Real.sqrt (11/12) * Real.sqrt (803/48)))⟩ := by
  unfold keyEDMCompute
  dsimp only
  rw [pcpE0_length]
  rw [if_neg (by norm_num)]
  rw [scanE0M, scanE0m]
  rw [show keyEDMPick ⟨((43:ℝ)/24) / (Real.sqrt (11/12) * Real.sqrt (803/48)), -1, 0⟩ ⟨((43:ℝ)/24) / (Real.sqrt (11/12) * Real.sqrt (803/48)), -1, 0⟩
      = (Scale.MAJOR, ⟨((43:ℝ)/24) / (Real.sqrt (11/12) * Real.sqrt (803/48)), -1, 0⟩) from by
    unfold keyEDMPick; rw [if_pos (le_refl _)]]
  rw [show resolveKeyIndex (ScanState.mk (((43:ℝ)/24) / (Real.sqrt (11/12) * Real.sqrt (803/48))) (-1) 0).keyIndex ((12 : ℕ) : ℤ) = 0 from by
    decide]
  rw [if_neg (by norm_num)]
  norm_num [keyEDMScaleLabel, keyNames]

/-- Full KeyEDM run on the rotated one-hot PCP `pcpE1`: key "Bb", major, the
same strength -- but this time the major scan improves twice (at shift 0 and
at shift 1), so the second maximum is the shift-0 score `(-29/24)/D`, not
`-1`. -/
theorem keyEDM_e1_eval :
    keyEDMCompute temperleyM temperleym pcpE1 =
      .ok ⟨"Bb", "major", ((43:ℝ)/24) / (Real.sqrt (11/12) * Real.sqrt (803/48)),
        (((43:ℝ)/24) / (Real.sqrt (11/12) * Real.sqrt (803/48)) - ((-29:ℝ)/24) / (Real.sqrt (11/12) * Real.sqrt (803/48))) / (((43:ℝ)/24) / (Real.sqrt (11/12) * Real.sqrt (803/48)))⟩ := by
  unfold keyEDMCompute
  dsimp only
  rw [pcpE1_length]
  rw [if_neg (by norm_num)]
  rw [scanE1M, scanE1m]
  rw [show keyEDMPick ⟨((43:ℝ)/24) / (Real.sqrt (11/12) * Real.sqrt (803/48)), ((-29:ℝ)/24) / (Real.sqrt (11/12) * Real.sqrt (803/48)), 1⟩ ⟨((43:ℝ)/24) / (Real.sqrt (11/12) * Real.sqrt (803/48)), ((-29:ℝ)/24) / (Real.sqrt (11/12) * Real.sqrt (803/48)), 1⟩
      = (Scale.MAJOR, ⟨((43:ℝ)/24) / (Real.sqrt (11/12) * Real.sqrt (803/48)), ((-29:ℝ)/24) / (Real.sqrt (11/12) * Real.sqrt (803/48)), 1⟩) from by
    unfold keyEDMPick; rw [if_pos (le_refl _)]]
  rw [show resolveKeyIndex (ScanState.mk (((43:ℝ)/24) / (Real.sqrt (11/12) * Real.sqrt (803/48))) (((-29:ℝ)/24) / (Real.sqrt (11/12) * Real.sqrt (803/48))) 1).keyIndex ((12 : ℕ) : ℤ) = 1 from by
    decide]
  rw [if_neg (by norm_num)]
  norm_num [keyEDMScaleLabel, keyNames]

theorem corrE0M_neg1 : -1 < modeCorr pcpE0 temperleyM 0 := by
  rw [corrE0M_0]
  exact lt_of_lt_of_le (by norm_num) (div_nonneg (by norm_num) (le_of_lt sqrtD_pos))

theorem corrE0m_neg1 : -1 < modeCorr pcpE0 temperleym 0 := by
  rw [corrE0m_0]
  exact lt_of_lt_of_le (by norm_num) (div_nonneg (by norm_num) (le_of_lt sqrtD_pos))

/-- The major correlation of `pcpE0` peaks strictly at shift 0. -/
theorem corrE0M_max : ∀ s : ℤ, 0 ≤ s → s < ((pcpE0.length : ℕ) : ℤ) → s ≠ 0 →
    modeCorr pcpE0 temperleyM s < modeCorr pcpE0 temperleyM 0 := by
  intro s h0 hN hne
  rw [pcpE0_length] at hN
  have h12 : s < 12 := by exact_mod_cast hN
  have h1 : 1 ≤ s := by omega
  interval_cases s
  · rw [corrE0M_1, corrE0M_0]
    exact (div_lt_div_iff_of_pos_right sqrtD_pos).mpr (by norm_num)
  · rw [corrE0M_2, corrE0M_0]
    exact (div_lt_div_iff_of_pos_right sqrtD_pos).mpr (by norm_num)
  · rw [corrE0M_3, corrE0M_0]
    exact (div_lt_div_iff_of_pos_right sqrtD_pos).mpr (by norm_num)
  · rw [corrE0M_4, corrE0M_0]
    exact (div_lt_div_iff_of_pos_right sqrtD_pos).mpr (by norm_num)
  · rw [corrE0M_5, corrE0M_0]
    exact (div_lt_div_iff_of_pos_right sqrtD_pos).mpr (by norm_num)
  · rw [corrE0M_6, corrE0M_0]
    exact (div_lt_div_iff_of_pos_right sqrtD_pos).mpr (by norm_num)
  · rw [corrE0M_7, corrE0M_0]
    exact (div_lt_div_iff_of_pos_right sqrtD_pos).mpr (by norm_num)
  · rw [corrE0M_8, corrE0M_0]
    exact (div_lt_div_iff_of_pos_right sqrtD_pos).mpr (by norm_num)
  · rw [corrE0M_9, corrE0M_0]
    exact (div_lt_div_iff_of_pos_right sqrtD_pos).mpr (by norm_num)
  · rw [corrE0M_10, corrE0M_0]
    exact (div_lt_div_iff_of_pos_right sqrtD_pos).mpr (by norm_num)
  · rw [corrE0M_11, corrE0M_0]
    exact (div_lt_div_iff_of_pos_right sqrtD_pos).mpr (by norm_num)

/-- The minor correlation of `pcpE0` peaks strictly at shift 0. -/
theorem corrE0m_max : ∀ s : ℤ, 0 ≤ s → s < ((pcpE0.length : ℕ) : ℤ) → s ≠ 0 →
    modeCorr pcpE0 temperleym s < modeCorr pcpE0 temperleym 0 := by
  intro s h0 hN hne
  rw [pcpE0_length] at hN
  have h12 : s < 12 := by exact_mod_cast hN
  have h1 : 1 ≤ s := by omega
  interval_cases s
  · rw [corrE0m_1, corrE0m_0]
    exact (div_lt_div_iff_of_pos_right sqrtD_pos).mpr (by norm_num)
  · rw [corrE0m_2, corrE0m_0]
    exact (div_lt_div_iff_of_pos_right sqrtD_pos).mpr (by norm_num)
  · rw [corrE0m_3, corrE0m_0]
    exact (div_lt_div_iff_of_pos_right sqrtD_pos).mpr (by norm_num)
  · rw [corrE0m_4, corrE0m_0]
    exact (div_lt_div_iff_of_pos_right sqrtD_pos).mpr (by norm_num)
  · rw [corrE0m_5, corrE0m_0]
    exact (div_lt_div_iff_of_pos_right sqrtD_pos).mpr (by norm_num)
  · rw [corrE0m_6, corrE0m_0]
    exact (div_lt_div_iff_of_pos_right sqrtD_pos).mpr (by norm_num)
  · rw [corrE0m_7, corrE0m_0]
    exact (div_lt_div_iff_of_pos_right sqrtD_pos).mpr (by norm_num)
  · rw [corrE0m_8, corrE0m_0]
    exact (div_lt_div_iff_of_pos_right sqrtD_pos).mpr (by norm_num)
  · rw [corrE0m_9, corrE0m_0]
    exact (div_lt_div_iff_of_pos_right sqrtD_pos).mpr (by norm_num)
  · rw [corrE0m_10, corrE0m_0]
    exact (div_lt_div_iff_of_pos_right sqrtD_pos).mpr (by norm_num)
  · rw [corrE0m_11, corrE0m_0]
    exact (div_lt_div_iff_of_pos_right sqrtD_pos).mpr (by norm_num)

/-- Counterexample to the claim that all four outputs are invariant under a
one-semitone rotation of the PCP: on the one-hot PCP and its rotation the key
moves "A" → "Bb", the scale and the strength agree, but the
first-to-second relative strength genuinely differs, because the original
scan leaves the tracked second maximum at `-1` while the rotated scan
overwrites it. -/
theorem c8_counterexample_relative_strength :
    pcpE0.rotate (pcpE0.length - 1) = pcpE1 ∧
    (∃ out out' : KeyOutput,
      keyEDMCompute temperleyM temperleym pcpE0 = .ok out ∧
      keyEDMCompute temperleyM temperleym pcpE1 = .ok out' ∧
      out.key = "A" ∧ out'.key = "Bb" ∧
      out.scale = "major" ∧ out'.scale = "major" ∧
      out.strength = out'.strength ∧
      out.relStrength ≠ out'.relStrength) := by
  refine ⟨pcpE0_rotate, _, _, keyEDM_e0_eval, keyEDM_e1_eval,
    rfl, rfl, rfl, rfl, rfl, ?_⟩
  intro hEq
  dsimp only at hEq
  have hD : (0:ℝ) < Real.sqrt (11/12) * Real.sqrt (803/48) := sqrtD_pos
  have hA : (0:ℝ) < ((43:ℝ)/24) / (Real.sqrt (11/12) * Real.sqrt (803/48)) := by positivity
  rw [div_eq_div_iff (ne_of_gt hA) (ne_of_gt hA)] at hEq
  have h2 := mul_right_cancel₀ (ne_of_gt hA) hEq
  have h3 : ((-29:ℝ)/24) / (Real.sqrt (11/12) * Real.sqrt (803/48)) = -1 := by linarith
  rw [div_eq_iff (ne_of_gt hD)] at h3
  have h4 := sqrtD_gt
  nlinarith [h3, h4]

/-- Witness for the amended C8 rotation theorem: the one-hot PCP `pcpE0`
(temperley profiles), whose major and minor correlations both peak uniquely
at shift 0.  The rotation sends key "A" (index 0) to "Bb" (index 1) with the
scale and the strength unchanged. -/
theorem c8_amended_rotation_witness :
    ∃ out out' : KeyOutput,
      keyEDMCompute temperleyM temperleym pcpE0 = .ok out ∧
      keyEDMCompute temperleyM temperleym (pcpE0.rotate (pcpE0.length - 1)) = .ok out' ∧
      out'.scale = out.scale ∧ out'.strength = out.strength ∧
      (∃ k : ℕ, k < 12 ∧ out.key = keyNames.getD k "" ∧
        out'.key = keyNames.getD ((k + 1) % 12) "") := by
  have h' : keyEDMCompute temperleyM temperleym (pcpE0.rotate (pcpE0.length - 1)) =
      .ok ⟨"Bb", "major", ((43:ℝ)/24) / (Real.sqrt (11/12) * Real.sqrt (803/48)),
        (((43:ℝ)/24) / (Real.sqrt (11/12) * Real.sqrt (803/48)) - ((-29:ℝ)/24) / (Real.sqrt (11/12) * Real.sqrt (803/48))) / (((43:ℝ)/24) / (Real.sqrt (11/12) * Real.sqrt (803/48)))⟩ := by
    rw [pcpE0_rotate]
    exact keyEDM_e1_eval
  have hmain := c8_amended_rotation temperleyM temperleym pcpE0 1
    (by rw [pcpE0_length]) one_pos 0 0
    (le_refl 0) (by rw [pcpE0_length]; norm_num)
    (le_refl 0) (by rw [pcpE0_length]; norm_num)
    corrE0M_neg1 corrE0m_neg1 corrE0M_max corrE0m_max
    _ _ keyEDM_e0_eval h'
  exact ⟨_, _, keyEDM_e0_eval, h', hmain.1, hmain.2.1, hmain.2.2⟩

end EdmKey
